import Mathlib

/-!
# VT1100MiniSPI: the CC2530 driver (`VT1100MiniSPI.h`, `VT1100MiniSPI.cpp`)

A shallow embedding of the `CC2530` class.

* Bytes (`uint8_t`) are natural numbers; a cell of a byte array stores its value
  modulo 256, a `uint8_t` local is reduced modulo 256 where it is computed.
* A C array `uint8_t a[n]` is an `Arr n`: a list of exactly `n` cells.
* The object is the structure `CC2530`: the public members `ReceivedBytes`,
  `NewData`, `AFDataIncoming`, the private pin numbers (`pins`) and command
  descriptors (`priv`), and the history of what the object did on its pins and on
  the bus (`trace`, `pinLog`) with the number of samples it has consumed from the
  outside world so far.
* All members are bytes and lie in the object in the order of their declaration:
  `ReceivedBytes` at offsets 0..63, `NewData` at 64, `AFDataIncoming` at 65, the seven
  pin numbers at 66..72, the descriptors from 73 to 261. The receive loops do not
  check the length byte, so a store `ReceivedBytes[i]` with `i` from 64 on lands in
  the member at that offset (`storeRB`).
* The outside world is an `Env`: the level every `digitalRead(_SRDY)` returns, the
  byte every `SPI.transfer` shifts in, the value every `millis()` returns.
* Busy-wait and timed loops take a `fuel` bound and return `none` when it runs
  out; code without such a loop is a total function.
* `DEBUG_SERIAL` output is not modelled.
-/

namespace VT1100

/-! ## Bytes and arrays -/

/-- Conversion to `uint8_t`. -/
def u8 (x : Nat) : Nat := x % 256

/-- Conversion to `uint16_t`. -/
def u16 (x : Nat) : Nat := x % 65536

/-- Conversion to `unsigned long` (32 bits on the target). -/
def u32 (x : Nat) : Nat := x % 4294967296

/-- A C array `uint8_t a[n]`: exactly `n` cells. -/
structure Arr (n : Nat) where
  data : List Nat
  size_eq : data.length = n

/-- Read `a[i]` (0 when `i` is past the end, where C++ gives no meaning). -/
def Arr.get {n : Nat} (a : Arr n) (i : Nat) : Nat := a.data.getD i 0

/-- Store `a[i] = v` into a `uint8_t` cell. -/
def Arr.set {n : Nat} (a : Arr n) (i v : Nat) : Arr n :=
  ⟨a.data.set i (u8 v), by rw [List.length_set]; exact a.size_eq⟩

/-- Logic levels of a pin. -/
abbrev HIGH : Bool := true

/-- Logic level LOW of a pin. -/
abbrev LOW : Bool := false

/-! ## What the object does to the outside world -/

/-- One observable action of the driver, in program order. -/
inductive Event where
  /-- `digitalWrite(_SS_MRDY, level)` -/
  | ss (level : Bool)
  /-- `digitalRead(_SRDY)` returned `level` -/
  | srdy (level : Bool)
  /-- `SPI.beginTransaction(SPISettings(2000000, MSBFIRST, SPI_MODE0))` -/
  | spiBegin
  /-- `SPI.endTransaction()` -/
  | spiEnd
  /-- `SPI.transfer(mosi)` returned `miso` -/
  | xfer (mosi miso : Nat)
  /-- `ReceivedBytes[i] = v` was executed -/
  | store (i v : Nat)
  /-- `WRITE_DATA(Data)` was entered with the array `Data` -/
  | writeData (Data : List Nat)
  /-- `delay(ms)` -/
  | delay (ms : Nat)
  /-- `millis()` returned `t` -/
  | millis (t : Nat)
  /-- `pinMode(_RES, OUTPUT)` when `output`, else `pinMode(_RES, INPUT_PULLUP)` -/
  | resMode (output : Bool)
  /-- `digitalWrite(_RES, level)` -/
  | res (level : Bool)
  deriving DecidableEq, Repr

/-- The outside world as the driver samples it. -/
structure Env where
  /-- level returned by the k-th `digitalRead(_SRDY)` -/
  srdy : Nat → Bool
  /-- byte shifted in by the k-th `SPI.transfer` -/
  miso : Nat → Nat
  /-- value returned by the k-th `millis()` -/
  clock : Nat → Nat

/-! ## The object -/

/-- The private command descriptors of `class CC2530` (`VT1100MiniSPI.h`, 239-266). -/
structure Descriptors where
  _SYS_Reset : Arr 4
  _TXPower : Arr 4
  _NVStartUpKeep : Arr 6
  _NVStartUpClear : Arr 6
  _PanID : Arr 7
  _Channel : Arr 9
  _LogicalType : Arr 6
  _CallBack : Arr 6
  _PollRate : Arr 7
  _QueuedPollRate : Arr 7
  _ResponsePollRate : Arr 7
  _RejoinPollRate : Arr 7
  _PollFailRetries : Arr 6
  _PreCFGKeyEnable : Arr 6
  _PreCFGKey : Arr 21
  _AFDataReqCfg : Arr 7
  _AFDataReqExtCfg : Arr 9
  _ZDOStartUpFromApp : Arr 5
  _GPIOSetDir : Arr 6
  _GPIOSetInput : Arr 6
  _GPIOSet : Arr 6
  _GPIOClear : Arr 6
  _GPIORead : Arr 6
  _NodeDesc : Arr 7
  _ZBGetShortAddr : Arr 4
  _ZBGetIEEEAddr : Arr 4
  _PermitJoinTrue : Arr 7
  _PermitJoinFalse : Arr 7

/-- The default member initialisers of the descriptors. -/
def Descriptors.init : Descriptors where
  _SYS_Reset := ⟨[0x01, 0x41, 0x00, 0x00], rfl⟩
  _TXPower := ⟨[0x01, 0x21, 0x14, 0x04], rfl⟩
  _NVStartUpKeep := ⟨[0x03, 0x26, 0x05, 0x03, 0x01, 0x00], rfl⟩
  _NVStartUpClear := ⟨[0x03, 0x26, 0x05, 0x03, 0x01, 0x03], rfl⟩
  _PanID := ⟨[0x04, 0x26, 0x05, 0x83, 0x02, 0xA1, 0x00], rfl⟩
  _Channel := ⟨[0x06, 0x26, 0x05, 0x84, 0x04, 0x00, 0x08, 0x00, 0x00], rfl⟩
  _LogicalType := ⟨[0x03, 0x26, 0x05, 0x87, 0x01, 0x00], rfl⟩
  _CallBack := ⟨[0x03, 0x26, 0x05, 0x8F, 0x01, 0x01], rfl⟩
  _PollRate := ⟨[0x04, 0x26, 0x05, 0x35, 0x02, 0xD0, 0x07], rfl⟩
  _QueuedPollRate := ⟨[0x04, 0x26, 0x05, 0x25, 0x02, 0x64, 0x00], rfl⟩
  _ResponsePollRate := ⟨[0x04, 0x26, 0x05, 0x26, 0x02, 0x64, 0x00], rfl⟩
  _RejoinPollRate := ⟨[0x04, 0x26, 0x05, 0x27, 0x02, 0xB8, 0x01], rfl⟩
  _PollFailRetries := ⟨[0x03, 0x26, 0x05, 0x29, 0x01, 0xFF], rfl⟩
  _PreCFGKeyEnable := ⟨[0x03, 0x26, 0x05, 0x63, 0x01, 0x01], rfl⟩
  _PreCFGKey := ⟨[0x12, 0x26, 0x05, 0x62, 0x10, 0x04, 0x04, 0x04, 0x04, 0x04, 0x04, 0x04,
    0x04, 0x04, 0x04, 0x04, 0x04, 0x04, 0x04, 0x04, 0x04], rfl⟩
  _AFDataReqCfg := ⟨[0x01, 0x01, 0xB0, 0xFE, 0x01, 0x00, 0x04], rfl⟩
  -- {0x01, _PanID[5], _PanID[6], 0x01, 0xB0, 0xFE, 0x01, 0x00, 0x04}
  _AFDataReqExtCfg := ⟨[0x01, 0xA1, 0x00, 0x01, 0xB0, 0xFE, 0x01, 0x00, 0x04], rfl⟩
  _ZDOStartUpFromApp := ⟨[0x02, 0x25, 0x40, 0x00, 0x00], rfl⟩
  -- five initialisers for six cells: the sixth is zero
  _GPIOSetDir := ⟨[0x02, 0x21, 0x0E, 0x00, 0x0F, 0x00], rfl⟩
  _GPIOSetInput := ⟨[0x02, 0x21, 0x0E, 0x01, 0x0F, 0x00], rfl⟩
  _GPIOSet := ⟨[0x02, 0x21, 0x0E, 0x02, 0x0F, 0x00], rfl⟩
  _GPIOClear := ⟨[0x02, 0x21, 0x0E, 0x03, 0x0F, 0x00], rfl⟩
  _GPIORead := ⟨[0x02, 0x21, 0x0E, 0x05, 0x0F, 0x00], rfl⟩
  _NodeDesc := ⟨[0x04, 0x25, 0x02, 0x00, 0x00, 0x00, 0x00], rfl⟩
  _ZBGetShortAddr := ⟨[0x01, 0x26, 0x06, 0x02], rfl⟩
  _ZBGetIEEEAddr := ⟨[0x01, 0x26, 0x06, 0x01], rfl⟩
  _PermitJoinTrue := ⟨[0x04, 0x25, 0x36, 0x00, 0x00, 0xFF, 0x00], rfl⟩
  _PermitJoinFalse := ⟨[0x04, 0x25, 0x36, 0x00, 0x00, 0x00, 0x00], rfl⟩

/-- The object of `class CC2530` together with its input/output history. -/
structure CC2530 where
  /-- `uint8_t ReceivedBytes[64]` -/
  ReceivedBytes : Arr 64
  /-- `boolean NewData` -/
  NewData : Bool
  /-- `boolean AFDataIncoming` -/
  AFDataIncoming : Bool
  /-- the pin numbers `_EN`, `_SRDY`, `_RES`, `_SS_MRDY`, `_MOSI`, `_MISO`, `_SCK`,
  in the order of their declaration -/
  pins : Arr 7
  /-- the private descriptors -/
  priv : Descriptors
  /-- number of `digitalRead(_SRDY)` calls made so far -/
  nRead : Nat
  /-- number of `SPI.transfer` calls made so far -/
  nXfer : Nat
  /-- number of `millis()` calls made so far -/
  nClock : Nat
  /-- everything done so far, oldest first -/
  trace : List Event
  /-- every `digitalWrite(pin, level)` made so far, with the pin number it was
  given, oldest first -/
  pinLog : List (Nat × Bool)

/-- A freshly constructed object (flags false, the default pins 7..13 of the
constructor, default descriptors, a zeroed receive buffer as for an object of static
storage), nothing done yet. -/
def CC2530.init : CC2530 where
  ReceivedBytes := ⟨List.replicate 64 0, rfl⟩
  NewData := false
  AFDataIncoming := false
  pins := ⟨[7, 8, 9, 10, 11, 12, 13], rfl⟩
  priv := Descriptors.init
  nRead := 0
  nXfer := 0
  nClock := 0
  trace := []
  pinLog := []

/-! ## Configuration setters (`VT1100MiniSPI.cpp`, 101-364) -/

/-- `void CC2530::SetPANID(uint16_t Val)` -/
def SetPANID (Val : Nat) (s : CC2530) : CC2530 :=
  let Val := u16 Val
  let p := s.priv._PanID.set 5 ((Val &&& 0xFFFF) >>> 8)
  let p := p.set 6 (Val &&& 0xFF)
  { s with priv := { s.priv with _PanID := p } }

/-- The four stores `_Channel[5] = a; _Channel[6] = b; _Channel[7] = c; _Channel[8] = d;`. -/
def setChannelBytes (a b c d : Nat) (s : CC2530) : CC2530 :=
  { s with priv := { s.priv with
      _Channel := (((s.priv._Channel.set 5 a).set 6 b).set 7 c).set 8 d } }

/-- `void CC2530::SetCHANLIST(uint8_t Val)` -/
def SetCHANLIST (Val : Nat) (s : CC2530) : CC2530 :=
  let Val := u8 Val
  if Val = 0xFF then setChannelBytes 0x00 0xF8 0xFF 0x07 s
  else if Val = 11 then setChannelBytes 0x00 0x08 0x00 0x00 s
  else if Val = 12 then setChannelBytes 0x00 0x10 0x00 0x00 s
  else if Val = 13 then setChannelBytes 0x00 0x20 0x00 0x00 s
  else if Val = 14 then setChannelBytes 0x00 0x40 0x00 0x00 s
  else if Val = 15 then setChannelBytes 0x00 0x80 0x00 0x00 s
  else if Val = 16 then setChannelBytes 0x00 0x00 0x01 0x00 s
  else if Val = 17 then setChannelBytes 0x00 0x00 0x02 0x00 s
  else if Val = 18 then setChannelBytes 0x00 0x00 0x04 0x00 s
  else if Val = 19 then setChannelBytes 0x00 0x00 0x08 0x00 s
  else if Val = 20 then setChannelBytes 0x00 0x00 0x10 0x00 s
  else if Val = 21 then setChannelBytes 0x00 0x00 0x20 0x00 s
  else if Val = 22 then setChannelBytes 0x00 0x00 0x40 0x00 s
  else if Val = 23 then setChannelBytes 0x00 0x00 0x80 0x00 s
  else if Val = 24 then setChannelBytes 0x00 0x00 0x00 0x01 s
  else if Val = 25 then setChannelBytes 0x00 0x00 0x00 0x02 s
  else if Val = 26 then setChannelBytes 0x00 0x00 0x00 0x04 s
  else s

/-- `void CC2530::SetLOGICAL_TYPE(uint8_t Val)` -/
def SetLOGICAL_TYPE (Val : Nat) (s : CC2530) : CC2530 :=
  { s with priv := { s.priv with _LogicalType := s.priv._LogicalType.set 5 (u8 Val) } }

/-- `void CC2530::SetZDO_DIRECT_CB(uint8_t Val)` -/
def SetZDO_DIRECT_CB (Val : Nat) (s : CC2530) : CC2530 :=
  { s with priv := { s.priv with _CallBack := s.priv._CallBack.set 5 (u8 Val) } }

/-- `void CC2530::SetPOLL_RATE(uint16_t Val)` -/
def SetPOLL_RATE (Val : Nat) (s : CC2530) : CC2530 :=
  let Val := u16 Val
  let p := s.priv._PollRate.set 5 ((Val &&& 0xFFFF) >>> 8)
  let p := p.set 6 (Val &&& 0xFF)
  { s with priv := { s.priv with _PollRate := p } }

/-- `void CC2530::SetQUEUED_POLL_RATE(uint16_t Val)` -/
def SetQUEUED_POLL_RATE (Val : Nat) (s : CC2530) : CC2530 :=
  let Val := u16 Val
  let p := s.priv._QueuedPollRate.set 5 ((Val &&& 0xFFFF) >>> 8)
  let p := p.set 6 (Val &&& 0xFF)
  { s with priv := { s.priv with _QueuedPollRate := p } }

/-- `void CC2530::SetRESPONSE_POLL_RATE(uint16_t Val)` -/
def SetRESPONSE_POLL_RATE (Val : Nat) (s : CC2530) : CC2530 :=
  let Val := u16 Val
  let p := s.priv._ResponsePollRate.set 5 ((Val &&& 0xFFFF) >>> 8)
  let p := p.set 6 (Val &&& 0xFF)
  { s with priv := { s.priv with _ResponsePollRate := p } }

/-- `void CC2530::SetREJOIN_POLL_RATE(uint16_t Val)` -/
def SetREJOIN_POLL_RATE (Val : Nat) (s : CC2530) : CC2530 :=
  let Val := u16 Val
  let p := s.priv._RejoinPollRate.set 5 ((Val &&& 0xFFFF) >>> 8)
  let p := p.set 6 (Val &&& 0xFF)
  { s with priv := { s.priv with _RejoinPollRate := p } }

/-- `void CC2530::SetPOLL_FAILURE_RETRIES(uint8_t Val)` -/
def SetPOLL_FAILURE_RETRIES (Val : Nat) (s : CC2530) : CC2530 :=
  { s with priv := { s.priv with _PollFailRetries := s.priv._PollFailRetries.set 5 (u8 Val) } }

/-- `void CC2530::SetPRECFGKEYEnable(uint8_t Val)` -/
def SetPRECFGKEYEnable (Val : Nat) (s : CC2530) : CC2530 :=
  { s with priv := { s.priv with _PreCFGKeyEnable := s.priv._PreCFGKeyEnable.set 5 (u8 Val) } }

/-- The loop-free run of stores `a[i] = v₀; a[i+1] = v₁; ...`. -/
def Arr.setFrom {n : Nat} (a : Arr n) : Nat → List Nat → Arr n
  | _, [] => a
  | i, v :: vs => (a.set i v).setFrom (i + 1) vs

/-- `void CC2530::SetPRECFGKEY(uint8_t a, ..., uint8_t p)`: the sixteen stores
`_PreCFGKey[5] = a; ... _PreCFGKey[20] = p;`, the key given as the list of its
sixteen arguments. -/
def SetPRECFGKEY (key : List Nat) (s : CC2530) : CC2530 :=
  { s with priv := { s.priv with _PreCFGKey := s.priv._PreCFGKey.setFrom 5 (key.take 16) } }

/-- `void CC2530::SetAF_DATA_REQUEST(DesEP, SourceEP, ClusterID0, ClusterID1, TransID,
Options, Radius)`: the arguments stored at `_AFDataReqCfg[0..6]`. -/
def SetAF_DATA_REQUEST (DesEP SourceEP ClusterID0 ClusterID1 TransID Options Radius : Nat)
    (s : CC2530) : CC2530 :=
  let a := s.priv._AFDataReqCfg.setFrom 0
    ([DesEP, SourceEP, ClusterID0, ClusterID1, TransID, Options, Radius])
  { s with priv := { s.priv with _AFDataReqCfg := a } }

/-- `void CC2530::SetAF_DATA_REQUEST_EXT(DesEP, PanID0, PanID1, SourceEP, ClusterID0,
ClusterID1, TransID, Options, Radius)`: the arguments stored at `_AFDataReqExtCfg[0..8]`. -/
def SetAF_DATA_REQUEST_EXT
    (DesEP PanID0 PanID1 SourceEP ClusterID0 ClusterID1 TransID Options Radius : Nat)
    (s : CC2530) : CC2530 :=
  let a := s.priv._AFDataReqExtCfg.setFrom 0
    ([DesEP, PanID0, PanID1, SourceEP, ClusterID0, ClusterID1, TransID, Options, Radius])
  { s with priv := { s.priv with _AFDataReqExtCfg := a } }

/-- `void CC2530::SetTX_POWER(uint8_t Val)` -/
def SetTX_POWER (Val : Nat) (s : CC2530) : CC2530 :=
  { s with priv := { s.priv with _TXPower := s.priv._TXPower.set 3 (u8 Val) } }

/-! ## Pins, bus and buffer primitives -/

/-- Append one event to the history. -/
def emit (e : Event) (s : CC2530) : CC2530 := { s with trace := s.trace ++ [e] }

/-- `digitalWrite(_SS_MRDY, level)`: the call is recorded in the history, and the pin
it drives, the one whose number `_SS_MRDY` holds at the call, in the pin log. -/
def digitalWrite_SS_MRDY (level : Bool) (s : CC2530) : CC2530 :=
  { s with trace := s.trace ++ [.ss level], pinLog := s.pinLog ++ [(s.pins.get 3, level)] }

/-- `digitalWrite(_RES, level)` -/
def digitalWrite_RES (level : Bool) (s : CC2530) : CC2530 :=
  { s with trace := s.trace ++ [.res level], pinLog := s.pinLog ++ [(s.pins.get 2, level)] }

/-- `digitalRead(_SRDY)`: the level read and the object afterwards. -/
def digitalRead_SRDY (env : Env) (s : CC2530) : Bool × CC2530 :=
  (env.srdy s.nRead,
    { s with nRead := s.nRead + 1, trace := s.trace ++ [.srdy (env.srdy s.nRead)] })

/-- `SPI.transfer(b)`: the byte shifted in and the object afterwards. -/
def SPI_transfer (env : Env) (b : Nat) (s : CC2530) : Nat × CC2530 :=
  (u8 (env.miso s.nXfer),
    { s with nXfer := s.nXfer + 1, trace := s.trace ++ [.xfer (u8 b) (u8 (env.miso s.nXfer))] })

/-- `millis()`: the time read and the object afterwards. -/
def millis (env : Env) (s : CC2530) : Nat × CC2530 :=
  (u32 (env.clock s.nClock),
    { s with nClock := s.nClock + 1, trace := s.trace ++ [.millis (u32 (env.clock s.nClock))] })

/-- Store the byte `v` at offset `k` of the descriptors, which lie one after the
other in the order of their declaration (189 bytes); no descriptor has that offset
from 189 on. -/
def Descriptors.poke (d : Descriptors) (k v : Nat) : Descriptors :=
  if k < 4 then { d with _SYS_Reset := d._SYS_Reset.set k v }
  else if k < 8 then { d with _TXPower := d._TXPower.set (k - 4) v }
  else if k < 14 then { d with _NVStartUpKeep := d._NVStartUpKeep.set (k - 8) v }
  else if k < 20 then { d with _NVStartUpClear := d._NVStartUpClear.set (k - 14) v }
  else if k < 27 then { d with _PanID := d._PanID.set (k - 20) v }
  else if k < 36 then { d with _Channel := d._Channel.set (k - 27) v }
  else if k < 42 then { d with _LogicalType := d._LogicalType.set (k - 36) v }
  else if k < 48 then { d with _CallBack := d._CallBack.set (k - 42) v }
  else if k < 55 then { d with _PollRate := d._PollRate.set (k - 48) v }
  else if k < 62 then { d with _QueuedPollRate := d._QueuedPollRate.set (k - 55) v }
  else if k < 69 then { d with _ResponsePollRate := d._ResponsePollRate.set (k - 62) v }
  else if k < 76 then { d with _RejoinPollRate := d._RejoinPollRate.set (k - 69) v }
  else if k < 82 then { d with _PollFailRetries := d._PollFailRetries.set (k - 76) v }
  else if k < 88 then { d with _PreCFGKeyEnable := d._PreCFGKeyEnable.set (k - 82) v }
  else if k < 109 then { d with _PreCFGKey := d._PreCFGKey.set (k - 88) v }
  else if k < 116 then { d with _AFDataReqCfg := d._AFDataReqCfg.set (k - 109) v }
  else if k < 125 then { d with _AFDataReqExtCfg := d._AFDataReqExtCfg.set (k - 116) v }
  else if k < 130 then { d with _ZDOStartUpFromApp := d._ZDOStartUpFromApp.set (k - 125) v }
  else if k < 136 then { d with _GPIOSetDir := d._GPIOSetDir.set (k - 130) v }
  else if k < 142 then { d with _GPIOSetInput := d._GPIOSetInput.set (k - 136) v }
  else if k < 148 then { d with _GPIOSet := d._GPIOSet.set (k - 142) v }
  else if k < 154 then { d with _GPIOClear := d._GPIOClear.set (k - 148) v }
  else if k < 160 then { d with _GPIORead := d._GPIORead.set (k - 154) v }
  else if k < 167 then { d with _NodeDesc := d._NodeDesc.set (k - 160) v }
  else if k < 171 then { d with _ZBGetShortAddr := d._ZBGetShortAddr.set (k - 167) v }
  else if k < 175 then { d with _ZBGetIEEEAddr := d._ZBGetIEEEAddr.set (k - 171) v }
  else if k < 182 then { d with _PermitJoinTrue := d._PermitJoinTrue.set (k - 175) v }
  else if k < 189 then { d with _PermitJoinFalse := d._PermitJoinFalse.set (k - 182) v }
  else d

/-- `ReceivedBytes[i] = v`. The store is recorded in the history and changes the
byte at offset `i` of the object: a cell of the buffer for `i < 64`, `NewData` at 64,
`AFDataIncoming` at 65 (a `boolean` reads true when its byte is not zero), a pin
number at 66..72, a descriptor byte from 73 on. -/
def storeRB (i v : Nat) (s : CC2530) : CC2530 :=
  if i < 64 then
    { s with ReceivedBytes := s.ReceivedBytes.set i v, trace := s.trace ++ [.store i (u8 v)] }
  else if i = 64 then
    { s with NewData := decide (u8 v ≠ 0), trace := s.trace ++ [.store i (u8 v)] }
  else if i = 65 then
    { s with AFDataIncoming := decide (u8 v ≠ 0), trace := s.trace ++ [.store i (u8 v)] }
  else if i < 73 then
    { s with pins := s.pins.set (i - 66) v, trace := s.trace ++ [.store i (u8 v)] }
  else
    { s with priv := s.priv.poke (i - 73) v, trace := s.trace ++ [.store i (u8 v)] }

/-- `while (digitalRead(_SRDY) == level) {};` -/
def waitSRDY (env : Env) (level : Bool) : Nat → CC2530 → Option CC2530
  | 0, _ => none
  | fuel + 1, s =>
    let r := digitalRead_SRDY env s
    if r.1 = level then waitSRDY env level fuel r.2 else some r.2

/-- `for (int i = ...; i < Len; i++) ReceivedBytes[i+3] = SPI.transfer(0x00);`
with `n` iterations left and the loop variable at `i`. -/
def recvLoop (env : Env) : Nat → Nat → CC2530 → CC2530
  | 0, _, s => s
  | n + 1, i, s =>
    let r := SPI_transfer env 0x00 s
    recvLoop env n (i + 1) (storeRB (i + 3) r.1 r.2)

/-- `for (int i = ...; i < N; i++) SPI.transfer(Data[i]);`
with `n` iterations left and the loop variable at `i`. -/
def sendLoop (env : Env) (Data : List Nat) : Nat → Nat → CC2530 → CC2530
  | 0, _, s => s
  | n + 1, i, s => sendLoop env Data n (i + 1) (SPI_transfer env (Data.getD i 0) s).2

/-! ## Transport (`VT1100MiniSPI.cpp`, 412-636) -/

/-- `void CC2530::SRSP()` -/
def SRSP (env : Env) (s : CC2530) : CC2530 :=
  let r0 := SPI_transfer env 0x00 s
  let Len := r0.1
  let r1 := SPI_transfer env 0x00 r0.2
  let Cmd0 := r1.1
  let r2 := SPI_transfer env 0x00 r1.2
  let Cmd1 := r2.1
  let s1 :=
    if Len > 0 then
      recvLoop env Len 0 (storeRB 2 Cmd1 (storeRB 1 Cmd0 (storeRB 0 Len r2.2)))
    else r2.2
  digitalWrite_SS_MRDY HIGH (emit .spiEnd s1)

/-- `void CC2530::WRITE_DATA(uint8_t *Data)` -/
def WRITE_DATA (env : Env) (fuel : Nat) (Data : List Nat) (s : CC2530) : Option CC2530 :=
  let s0 := emit (.writeData Data) s
  let Len := u8 (Data.getD 0 0 + 3)
  let s1 := digitalWrite_SS_MRDY LOW s0
  (waitSRDY env HIGH fuel s1).bind fun s2 =>
    let s3 := sendLoop env Data Len 0 (emit .spiBegin s2)
    (waitSRDY env LOW fuel s3).bind fun s4 =>
      some (SRSP env s4)

/-- The body of the `while` loop of `POLL` (lines 416-458): one receive-only exchange. -/
def POLL_body (env : Env) (fuel : Nat) (s : CC2530) : Option CC2530 :=
  let s1 := emit .spiBegin (digitalWrite_SS_MRDY LOW s)
  let s2 := (SPI_transfer env 0x00 (SPI_transfer env 0x00 (SPI_transfer env 0x00 s1).2).2).2
  (waitSRDY env LOW fuel s2).bind fun s3 =>
    let r0 := SPI_transfer env 0x00 s3
    let Len := r0.1
    let r1 := SPI_transfer env 0x00 r0.2
    let Cmd0 := r1.1
    let r2 := SPI_transfer env 0x00 r1.2
    let Cmd1 := r2.1
    if Len > 0 then
      let s4 := recvLoop env Len 0 (storeRB 2 Cmd1 (storeRB 1 Cmd0 (storeRB 0 Len r2.2)))
      let s5 := { s4 with NewData := true }
      if Cmd0 = 0x44 ∧ Cmd1 = 0x81 then some { s5 with AFDataIncoming := true }
      else some s5
    else some r2.2

/-- The `while (digitalRead(_SRDY) == LOW)` loop of `POLL` and the two statements
after it; `inner` bounds the busy-wait inside the body. -/
def POLL_loop (env : Env) (inner : Nat) : Nat → CC2530 → Option CC2530
  | 0, _ => none
  | fuel + 1, s =>
    let r := digitalRead_SRDY env s
    if r.1 = LOW then (POLL_body env inner r.2).bind (POLL_loop env inner fuel)
    else some (digitalWrite_SS_MRDY HIGH (emit .spiEnd r.2))

/-- `void CC2530::POLL()` -/
def POLL (env : Env) (fuel : Nat) (s : CC2530) : Option CC2530 :=
  POLL_loop env fuel fuel s

/-- `boolean CC2530::NEW_DATA()` -/
def NEW_DATA (s : CC2530) : Bool × CC2530 :=
  if s.NewData = true then (true, { s with NewData := false })
  else (false, s)

/-- `boolean CC2530::AF_INCOMING_MSG()` -/
def AF_INCOMING_MSG (s : CC2530) : Bool × CC2530 :=
  if s.AFDataIncoming = true then (true, { s with AFDataIncoming := false })
  else (false, s)

/-- The `while (millis() - time_now < 500)` loop of `RECV_CALLBACK`. -/
def RECV_CALLBACK_loop (env : Env) (inner time_now : Nat) : Nat → CC2530 → Option CC2530
  | 0, _ => none
  | fuel + 1, s =>
    let r := millis env s
    if u32 (r.1 + 4294967296 - time_now) < 500 then
      (POLL env inner r.2).bind fun s1 =>
        if s1.NewData = true then some { s1 with NewData := false }
        else RECV_CALLBACK_loop env inner time_now fuel s1
    else some r.2

/-- `void CC2530::RECV_CALLBACK()` -/
def RECV_CALLBACK (env : Env) (fuel : Nat) (s : CC2530) : Option CC2530 :=
  let r := millis env s
  RECV_CALLBACK_loop env fuel r.1 fuel r.2

/-- `void CC2530::HARD_RESET_REQ()` -/
def HARD_RESET_REQ (env : Env) (fuel : Nat) (s : CC2530) : Option CC2530 :=
  let s1 := emit (.delay 100) (digitalWrite_RES LOW (emit (.resMode true) s))
  RECV_CALLBACK env fuel (emit (.delay 4000) (emit (.resMode false) s1))

/-- `void CC2530::SYS_RESET_REQ()` -/
def SYS_RESET_REQ (env : Env) (fuel : Nat) (s : CC2530) : Option CC2530 :=
  (WRITE_DATA env fuel s.priv._SYS_Reset.data s).bind fun s1 =>
    RECV_CALLBACK env fuel (emit (.delay 4000) s1)

/-- `void CC2530::POWER_UP()` -/
def POWER_UP (env : Env) (fuel : Nat) (s : CC2530) : Option CC2530 :=
  RECV_CALLBACK env fuel
    (emit (.delay 4000) (digitalWrite_SS_MRDY HIGH (emit (.resMode false) s)))

/-- `void CC2530::COMMISSION()` -/
def COMMISSION (env : Env) (fuel : Nat) (s : CC2530) : Option CC2530 :=
  match WRITE_DATA env fuel s.priv._NVStartUpClear.data s with
  | none => none
  | some s =>
  match SYS_RESET_REQ env fuel s with
  | none => none
  | some s =>
  match WRITE_DATA env fuel s.priv._NVStartUpKeep.data s with
  | none => none
  | some s =>
  match WRITE_DATA env fuel s.priv._LogicalType.data s with
  | none => none
  | some s =>
  match WRITE_DATA env fuel s.priv._PanID.data s with
  | none => none
  | some s =>
  match WRITE_DATA env fuel s.priv._Channel.data s with
  | none => none
  | some s =>
  match WRITE_DATA env fuel s.priv._PollRate.data s with
  | none => none
  | some s =>
  match WRITE_DATA env fuel s.priv._QueuedPollRate.data s with
  | none => none
  | some s =>
  match WRITE_DATA env fuel s.priv._ResponsePollRate.data s with
  | none => none
  | some s =>
  match WRITE_DATA env fuel s.priv._RejoinPollRate.data s with
  | none => none
  | some s =>
  match WRITE_DATA env fuel s.priv._PollFailRetries.data s with
  | none => none
  | some s =>
  match WRITE_DATA env fuel s.priv._CallBack.data s with
  | none => none
  | some s =>
  match WRITE_DATA env fuel s.priv._PreCFGKeyEnable.data s with
  | none => none
  | some s =>
  match WRITE_DATA env fuel s.priv._PreCFGKey.data s with
  | none => none
  | some s =>
  match WRITE_DATA env fuel s.priv._TXPower.data s with
  | none => none
  | some s =>
  SYS_RESET_REQ env fuel s

/-! ## Command methods (`VT1100MiniSPI.cpp`, 642-932, and the templates of the header) -/

/-- `uint16_t CC2530::cmd_conv(uint8_t Cmd0, uint8_t Cmd1)` -/
def cmd_conv (Cmd0 Cmd1 : Nat) : Nat := u16 ((u8 Cmd0 <<< 8) ||| u8 Cmd1)

/-- `void CC2530::ZB_GET_SHORT_ADDRESS(uint8_t ShortAddr[2])`: the two bytes written
to `ShortAddr` and the object afterwards. -/
def ZB_GET_SHORT_ADDRESS (env : Env) (fuel : Nat) (s : CC2530) : Option (List Nat × CC2530) :=
  (WRITE_DATA env fuel s.priv._ZBGetShortAddr.data s).bind fun s1 =>
    some ([s1.ReceivedBytes.get 4, s1.ReceivedBytes.get 5], s1)

/-- `void CC2530::ZB_GET_IEEE_ADDRESS(uint8_t IEEEAddr[8])`: the eight bytes written
to `IEEEAddr` and the object afterwards. -/
def ZB_GET_IEEE_ADDRESS (env : Env) (fuel : Nat) (s : CC2530) : Option (List Nat × CC2530) :=
  (WRITE_DATA env fuel s.priv._ZBGetIEEEAddr.data s).bind fun s1 =>
    some ([s1.ReceivedBytes.get 4, s1.ReceivedBytes.get 5, s1.ReceivedBytes.get 6,
      s1.ReceivedBytes.get 7, s1.ReceivedBytes.get 8, s1.ReceivedBytes.get 9,
      s1.ReceivedBytes.get 10, s1.ReceivedBytes.get 11], s1)

/-- `void CC2530::ZDO_MGMT_PERMIT_JOIN_REQ(bool PermitJoin)` -/
def ZDO_MGMT_PERMIT_JOIN_REQ (env : Env) (fuel : Nat) (PermitJoin : Bool) (s : CC2530) :
    Option CC2530 :=
  if PermitJoin = true then WRITE_DATA env fuel s.priv._PermitJoinTrue.data s
  else if PermitJoin = false then WRITE_DATA env fuel s.priv._PermitJoinFalse.data s
  else some s

/-- The request part shared, statement for statement, by the methods that build
their frame in a local array `A` (`// SREQ` to `SRSP();`), `N` being `sizeof(A)`. -/
def inlineSREQ (env : Env) (fuel : Nat) (A : List Nat) (N : Nat) (s : CC2530) : Option CC2530 :=
  let s1 := digitalWrite_SS_MRDY LOW s
  (waitSRDY env HIGH fuel s1).bind fun s2 =>
    let s3 := sendLoop env A N 0 (emit .spiBegin s2)
    (waitSRDY env LOW fuel s3).bind fun s4 =>
      some (SRSP env s4)

/-- The local array `LeaveReq[24]` of `ZDO_MGMT_LEAVE_REQ`: fourteen initialisers,
the other ten cells zero. -/
def LeaveReq (DstAddr IEEEAddr : List Nat) : List Nat :=
  let Len := 0x0B
  let Cmd0 := 0x25
  let Cmd1 := 0x34
  let Rejoin := 0x00
  [Len, Cmd0, Cmd1, u8 (DstAddr.getD 0 0), u8 (DstAddr.getD 1 0),
    u8 (IEEEAddr.getD 0 0), u8 (IEEEAddr.getD 1 0), u8 (IEEEAddr.getD 2 0),
    u8 (IEEEAddr.getD 3 0), u8 (IEEEAddr.getD 4 0), u8 (IEEEAddr.getD 5 0),
    u8 (IEEEAddr.getD 6 0), u8 (IEEEAddr.getD 7 0), Rejoin] ++ List.replicate 10 0

/-- `void CC2530::ZDO_MGMT_LEAVE_REQ(uint8_t DstAddr[2], uint8_t IEEEAddr[8])` -/
def ZDO_MGMT_LEAVE_REQ (env : Env) (fuel : Nat) (DstAddr IEEEAddr : List Nat) (s : CC2530) :
    Option CC2530 :=
  inlineSREQ env fuel (LeaveReq DstAddr IEEEAddr) 24 s

/-- The local array `ZDOEndDeviceBind[24]` of `ZDO_END_DEVICE_BIND_REQ`. -/
def ZDOEndDeviceBind (ShortAddr IEEEAddr : List Nat) (EndPoint : Nat) : List Nat :=
  let Len := 0x15
  let Cmd0 := 0x25
  let Cmd1 := 0x20
  let DstAddr0 := 0x00
  let DstAddr1 := 0x00
  let Endpoint := u8 EndPoint
  let ProfileID0 := 0x04
  let ProfileID1 := 0x05
  let AppNumInClusters := 0x01
  let InCluster0 := 0xB0
  let InCluster1 := 0xFE
  let AppNumOutClusters := 0x01
  let OutCluster0 := 0xB0
  let OutCluster1 := 0xFE
  [Len, Cmd0, Cmd1, DstAddr0, DstAddr1, ShortAddr.getD 0 0, ShortAddr.getD 1 0,
    IEEEAddr.getD 0 0, IEEEAddr.getD 1 0, IEEEAddr.getD 2 0, IEEEAddr.getD 3 0,
    IEEEAddr.getD 4 0, IEEEAddr.getD 5 0, IEEEAddr.getD 6 0, IEEEAddr.getD 7 0,
    Endpoint, ProfileID0, ProfileID1, AppNumInClusters, InCluster0, InCluster1,
    AppNumOutClusters, OutCluster0, OutCluster1]

/-- `void CC2530::ZDO_END_DEVICE_BIND_REQ(uint8_t EndPoint)` -/
def ZDO_END_DEVICE_BIND_REQ (env : Env) (fuel : Nat) (EndPoint : Nat) (s : CC2530) :
    Option CC2530 :=
  (ZB_GET_SHORT_ADDRESS env fuel s).bind fun r1 =>
    (ZB_GET_IEEE_ADDRESS env fuel r1.2).bind fun r2 =>
      inlineSREQ env fuel (ZDOEndDeviceBind r1.1 r2.1 EndPoint) 24 r2.2

/-- `void CC2530::ZDO_NODE_DESC_REQ(uint8_t DstAddr[2], uint8_t NWKAddrOfInterest[2])` -/
def ZDO_NODE_DESC_REQ (env : Env) (fuel : Nat) (DstAddr NWKAddrOfInterest : List Nat)
    (s : CC2530) : Option CC2530 :=
  let d := (((s.priv._NodeDesc.set 3 (DstAddr.getD 0 0)).set 4 (DstAddr.getD 1 0)).set 5
    (NWKAddrOfInterest.getD 0 0)).set 6 (NWKAddrOfInterest.getD 1 0)
  let s1 := { s with priv := { s.priv with _NodeDesc := d } }
  WRITE_DATA env fuel s1.priv._NodeDesc.data s1

/-- `void CC2530::SYS_GPIO_SET_DIR(uint8_t Val)` -/
def SYS_GPIO_SET_DIR (env : Env) (fuel : Nat) (Val : Nat) (s : CC2530) : Option CC2530 :=
  let s1 := { s with priv := { s.priv with _GPIOSetDir := s.priv._GPIOSetDir.set 4 (u8 Val) } }
  WRITE_DATA env fuel s1.priv._GPIOSetDir.data s1

/-- `void CC2530::SYS_GPIO_SET_INPUT_MODE(uint8_t Val)` -/
def SYS_GPIO_SET_INPUT_MODE (env : Env) (fuel : Nat) (Val : Nat) (s : CC2530) : Option CC2530 :=
  let s1 := { s with priv := { s.priv with _GPIOSetInput := s.priv._GPIOSetInput.set 4 (u8 Val) } }
  WRITE_DATA env fuel s1.priv._GPIOSetInput.data s1

/-- `void CC2530::SYS_GPIO_SET(uint8_t Val)` -/
def SYS_GPIO_SET (env : Env) (fuel : Nat) (Val : Nat) (s : CC2530) : Option CC2530 :=
  let s1 := { s with priv := { s.priv with _GPIOSet := s.priv._GPIOSet.set 4 (u8 Val) } }
  WRITE_DATA env fuel s1.priv._GPIOSet.data s1

/-- `void CC2530::SYS_GPIO_CLEAR(uint8_t Val)` -/
def SYS_GPIO_CLEAR (env : Env) (fuel : Nat) (Val : Nat) (s : CC2530) : Option CC2530 :=
  let s1 := { s with priv := { s.priv with _GPIOClear := s.priv._GPIOClear.set 4 (u8 Val) } }
  WRITE_DATA env fuel s1.priv._GPIOClear.data s1

/-- `void CC2530::SYS_GPIO_READ(uint8_t Val)` -/
def SYS_GPIO_READ (env : Env) (fuel : Nat) (Val : Nat) (s : CC2530) : Option CC2530 :=
  let s1 := { s with priv := { s.priv with _GPIORead := s.priv._GPIORead.set 4 (u8 Val) } }
  WRITE_DATA env fuel s1.priv._GPIORead.data s1

/-- The local array `AFRegister[16]` of `AF_REGISTER`. -/
def AFRegister (EndPoint : Nat) : List Nat :=
  let Len := 0x0D
  let Cmd0 := 0x24
  let Cmd1 := 0x00
  let AppEndPoint := u8 EndPoint
  let AppProfileID0 := 0x04
  let AppProfileID1 := 0x05
  let DeviceID0 := 0x00
  let DeviceID1 := 0x00
  let DeviceVer := 0x01
  let LatencyReq := 0x00
  let AppNumInClusters := 0x01
  let InCluster0 := 0xB0
  let InCluster1 := 0xFE
  let AppNumOutClusters := 0x01
  let OutCluster0 := 0xB0
  let OutCluster1 := 0xFE
  [Len, Cmd0, Cmd1, AppEndPoint, AppProfileID0, AppProfileID1, DeviceID0, DeviceID1,
    DeviceVer, LatencyReq, AppNumInClusters, InCluster0, InCluster1, AppNumOutClusters,
    OutCluster0, OutCluster1]

/-- `void CC2530::AF_REGISTER(uint8_t EndPoint)` -/
def AF_REGISTER (env : Env) (fuel : Nat) (EndPoint : Nat) (s : CC2530) : Option CC2530 :=
  inlineSREQ env fuel (AFRegister EndPoint) 16 s

/-- The `while (millis() - time_now < 60000)` loop of `ZDO_STARTUP_FROM_APP`. -/
def ZDO_STARTUP_loop (env : Env) (inner time_now : Nat) : Nat → CC2530 → Option CC2530
  | 0, _ => none
  | fuel + 1, s =>
    let r := millis env s
    if u32 (r.1 + 4294967296 - time_now) < 60000 then
      (POLL env inner r.2).bind fun s1 =>
        if s1.NewData = true then
          let Cmd0 := s1.ReceivedBytes.get 1
          let Cmd1 := s1.ReceivedBytes.get 2
          let State := s1.ReceivedBytes.get 3
          if Cmd0 = 0x45 ∧ Cmd1 = 0xC0 then
            if State = 0x06 then some s1
            else if State = 0x07 then some s1
            else if State = 0x09 then some s1
            else if State = 0x10 then some s1
            else ZDO_STARTUP_loop env inner time_now fuel { s1 with NewData := false }
          else ZDO_STARTUP_loop env inner time_now fuel { s1 with NewData := false }
        else ZDO_STARTUP_loop env inner time_now fuel s1
    else some r.2

/-- `void CC2530::ZDO_STARTUP_FROM_APP()` -/
def ZDO_STARTUP_FROM_APP (env : Env) (fuel : Nat) (s : CC2530) : Option CC2530 :=
  (WRITE_DATA env fuel s.priv._ZDOStartUpFromApp.data s).bind fun s1 =>
    let r := millis env s1
    ZDO_STARTUP_loop env fuel r.1 fuel r.2

/-- The local array `Data[13]` of `AF_DATA_REQUEST`. -/
def AFDataRequestHeader (cfg : Arr 7) (ShortAddr0 ShortAddr1 Length : Nat) : List Nat :=
  let Len := u8 (u8 Length + 10)
  let Cmd0 := 0x24
  let Cmd1 := 0x01
  let DstAddr0 := u8 ShortAddr1
  let DstAddr1 := u8 ShortAddr0
  let DesEP := cfg.get 0
  let SourceEP := cfg.get 1
  let ClusterID0 := cfg.get 2
  let ClusterID1 := cfg.get 3
  let TransID := cfg.get 4
  let Options := cfg.get 5
  let Radius := cfg.get 6
  let DataLen := u8 Length
  [Len, Cmd0, Cmd1, DstAddr0, DstAddr1, DesEP, SourceEP, ClusterID0, ClusterID1, TransID,
    Options, Radius, DataLen]

/-- `template <typename T> unsigned int CC2530::AF_DATA_REQUEST(uint8_t ShortAddr0,
uint8_t ShortAddr1, const T& Value, uint8_t Length)`, `Value` given as the bytes of
its object representation: the value returned and the object afterwards. -/
def AF_DATA_REQUEST (env : Env) (fuel : Nat) (ShortAddr0 ShortAddr1 : Nat) (Value : List Nat)
    (Length : Nat) (s : CC2530) : Option (Nat × CC2530) :=
  let Data := AFDataRequestHeader s.priv._AFDataReqCfg ShortAddr0 ShortAddr1 Length
  let s1 := digitalWrite_SS_MRDY LOW s
  (waitSRDY env HIGH fuel s1).bind fun s2 =>
    let s3 := sendLoop env Data 13 0 (emit .spiBegin s2)
    let s4 := sendLoop env Value (u8 Length) 0 s3
    (waitSRDY env LOW fuel s4).bind fun s5 =>
      some (u8 Length, SRSP env s5)

/-- The local array `Data[23]` of `AF_DATA_REQUEST_EXT`. -/
def AFDataRequestExtHeader (cfg : Arr 9) (AddrMode : Nat) (IEEEAddr : List Nat) (Length : Nat) :
    List Nat :=
  let Len := u8 (u8 Length + 20)
  let Cmd0 := 0x24
  let Cmd1 := 0x02
  let DstAddrMode := u8 AddrMode
  let DstAddr0 := u8 (IEEEAddr.getD 7 0)
  let DstAddr1 := u8 (IEEEAddr.getD 6 0)
  let DstAddr2 := u8 (IEEEAddr.getD 5 0)
  let DstAddr3 := u8 (IEEEAddr.getD 4 0)
  let DstAddr4 := u8 (IEEEAddr.getD 3 0)
  let DstAddr5 := u8 (IEEEAddr.getD 2 0)
  let DstAddr6 := u8 (IEEEAddr.getD 1 0)
  let DstAddr7 := u8 (IEEEAddr.getD 0 0)
  let DesEP := cfg.get 0
  let DstPanId0 := cfg.get 1
  let DstPanId1 := cfg.get 2
  let SourceEP := cfg.get 3
  let ClusterID0 := cfg.get 4
  let ClusterID1 := cfg.get 5
  let TransID := cfg.get 6
  let Options := cfg.get 7
  let Radius := cfg.get 8
  let DataLen0 := u8 Length
  let DataLen1 := 0x00
  [Len, Cmd0, Cmd1, DstAddrMode, DstAddr0, DstAddr1, DstAddr2, DstAddr3, DstAddr4, DstAddr5,
    DstAddr6, DstAddr7, DesEP, DstPanId0, DstPanId1, SourceEP, ClusterID0, ClusterID1, TransID,
    Options, Radius, DataLen0, DataLen1]

/-- `template <typename T> unsigned int CC2530::AF_DATA_REQUEST_EXT(uint8_t AddrMode,
const uint8_t IEEEAddr[8], const T& Value, uint8_t Length)`, `Value` given as the bytes
of its object representation: the value returned and the object afterwards. -/
def AF_DATA_REQUEST_EXT (env : Env) (fuel : Nat) (AddrMode : Nat) (IEEEAddr Value : List Nat)
    (Length : Nat) (s : CC2530) : Option (Nat × CC2530) :=
  let Data := AFDataRequestExtHeader s.priv._AFDataReqExtCfg AddrMode IEEEAddr Length
  let s1 := digitalWrite_SS_MRDY LOW s
  (waitSRDY env HIGH fuel s1).bind fun s2 =>
    let s3 := sendLoop env Data 23 0 (emit .spiBegin s2)
    let s4 := sendLoop env Value (u8 Length) 0 s3
    (waitSRDY env LOW fuel s4).bind fun s5 =>
      some (u8 Length, SRSP env s5)

/-- The indices of the stores into `ReceivedBytes` in a history, oldest first. -/
def storeIdx : List Event → List Nat
  | [] => []
  | .store i _ :: es => i :: storeIdx es
  | _ :: es => storeIdx es

/-- The bytes shifted out on the bus in a history, oldest first. -/
def mosiBytes : List Event → List Nat
  | [] => []
  | .xfer b _ :: es => b :: mosiBytes es
  | _ :: es => mosiBytes es

/-! ## Vocabulary of the properties -/

/-- Little-endian encoding of a 32-bit value in four bytes. -/
def le32 (x : Nat) : List Nat :=
  [x % 256, x / 256 % 256, x / 65536 % 256, x / 16777216 % 256]

/-- The arrays handed to `WRITE_DATA` in a history, oldest first. -/
def calls : List Event → List (List Nat)
  | [] => []
  | .writeData d :: es => d :: calls es
  | _ :: es => calls es

/-- Level given by the last call `digitalWrite(_SS_MRDY, ·)` of a history, if there
was one. The pin that call writes is the value of the member `_SS_MRDY` at that moment:
see `pinLog` and `lineLevel`. -/
def lineSS : List Event → Option Bool
  | [] => none
  | e :: es =>
    match lineSS es with
    | some l => some l
    | none => match e with
      | .ss l => some l
      | _ => none

/-- Number of exchanges begun in a history: the writes driving SS/MRDY low. -/
def exchanges : List Event → Nat
  | [] => 0
  | .ss false :: es => exchanges es + 1
  | _ :: es => exchanges es

/-- The sixteen arrays `COMMISSION` passes to `WRITE_DATA`, in order. -/
def commissionFrames (d : Descriptors) : List (List Nat) :=
  [d._NVStartUpClear.data, d._SYS_Reset.data, d._NVStartUpKeep.data, d._LogicalType.data,
    d._PanID.data, d._Channel.data, d._PollRate.data, d._QueuedPollRate.data,
    d._ResponsePollRate.data, d._RejoinPollRate.data, d._PollFailRetries.data,
    d._CallBack.data, d._PreCFGKeyEnable.data, d._PreCFGKey.data, d._TXPower.data,
    d._SYS_Reset.data]

/-- A peer that answers every request at once (SRDY low at every even read, high at
every odd one), shifts in zero bytes, and whose clock advances a second per reading. -/
def envPrompt : Env where
  srdy := fun k => k % 2 == 1
  miso := fun _ => 0
  clock := fun k => 1000 * k

/-- An environment holding the samples of a recorded run: the levels `rs`, the
bytes `bs` and the clock readings `ts`, each followed by its default. -/
def envOf (rs : List Bool) (bs ts : List Nat) : Env where
  srdy := fun k => rs.getD k HIGH
  miso := fun k => bs.getD k 0
  clock := fun k => ts.getD k (1000 * k)

/-! ## Arrays -/

theorem Arr.get_set_eq {n : Nat} (a : Arr n) (i v : Nat) (h : i < n) :
    (a.set i v).get i = u8 v := by
  have h2 : i < a.data.length := by rw [a.size_eq]; exact h
  simp [Arr.get, Arr.set, List.getD_eq_getElem?_getD, List.getElem?_set, h2]

theorem Arr.get_set_ne {n : Nat} (a : Arr n) (i j v : Nat) (h : i ≠ j) :
    (a.set i v).get j = a.get j := by
  simp [Arr.get, Arr.set, List.getD_eq_getElem?_getD, List.getElem?_set, h]

theorem Arr.ext_data {n : Nat} (a b : Arr n) (h : a.data = b.data) : a = b := by
  cases a; cases b; cases h; rfl

/-! ## Setters and flag queries -/

theorem setChannelBytes_get (a b c d : Nat) (s : CC2530) :
    (setChannelBytes a b c d s).priv._Channel.get 5 = u8 a ∧
    (setChannelBytes a b c d s).priv._Channel.get 6 = u8 b ∧
    (setChannelBytes a b c d s).priv._Channel.get 7 = u8 c ∧
    (setChannelBytes a b c d s).priv._Channel.get 8 = u8 d ∧
    ∀ i, i < 5 → (setChannelBytes a b c d s).priv._Channel.get i = s.priv._Channel.get i := by
  refine ⟨?_, ?_, ?_, ?_, ?_⟩
  · simp [setChannelBytes, Arr.get_set_ne, Arr.get_set_eq]
  · simp [setChannelBytes, Arr.get_set_ne, Arr.get_set_eq]
  · simp [setChannelBytes, Arr.get_set_ne, Arr.get_set_eq]
  · simp [setChannelBytes, Arr.get_set_eq]
  · intro i hi
    have h5 : (5 : Nat) ≠ i := by omega
    have h6 : (6 : Nat) ≠ i := by omega
    have h7 : (7 : Nat) ≠ i := by omega
    have h8 : (8 : Nat) ≠ i := by omega
    simp [setChannelBytes, Arr.get_set_ne, h5, h6, h7, h8]

theorem ite_rule {α : Type} (P : α → Prop) (c : Prop) [Decidable c] (a b : α)
    (ha : P a) (hb : P b) : P (if c then a else b) := by
  split <;> assumption

theorem SetCHANLIST_ind (P : CC2530 → Prop) (v : Nat) (s : CC2530) (h0 : P s)
    (h1 : ∀ a b c d, P (setChannelBytes a b c d s)) : P (SetCHANLIST v s) := by
  unfold SetCHANLIST
  dsimp only
  repeat' first | exact h0 | exact h1 _ _ _ _ | apply ite_rule P

/-- The value bytes `_Channel[5..8]` of an object. -/
def channelValue (s : CC2530) : List Nat :=
  [s.priv._Channel.get 5, s.priv._Channel.get 6, s.priv._Channel.get 7, s.priv._Channel.get 8]

/-- C2 (the code at the claim's input): after `SetPANID(0x00A1)`, from any state, the
value bytes of `_PanID` are `0x00` then `0xA1` (high byte first), not `0xA1, 0x00`:
on the default object the descriptor becomes `04 26 05 83 02 00 A1`, which differs
from the default descriptor `04 26 05 83 02 A1 00`, and this is the array `COMMISSION`
hands to `WRITE_DATA` as its fifth frame. -/
theorem C2_SetPANID_high_byte_first :
    (∀ s : CC2530, (SetPANID 0x00A1 s).priv._PanID.get 5 = 0x00 ∧
      (SetPANID 0x00A1 s).priv._PanID.get 6 = 0xA1) ∧
    (SetPANID 0x00A1 CC2530.init).priv._PanID.data = [0x04, 0x26, 0x05, 0x83, 0x02, 0x00, 0xA1] ∧
    CC2530.init.priv._PanID.data = [0x04, 0x26, 0x05, 0x83, 0x02, 0xA1, 0x00] ∧
    (commissionFrames (SetPANID 0x00A1 CC2530.init).priv).getD 4 [] =
      [0x04, 0x26, 0x05, 0x83, 0x02, 0x00, 0xA1] := by
  refine ⟨?_, by decide, by decide, by decide⟩
  intro s
  constructor
  · have h : (6 : Nat) ≠ 5 := by decide
    simp only [SetPANID]
    rw [Arr.get_set_ne _ _ _ _ h, Arr.get_set_eq _ _ _ (by decide)]
    decide
  · simp only [SetPANID]
    rw [Arr.get_set_eq _ _ _ (by decide)]
    decide

/-- C3: for every channel number `n` in 11..26, `SetCHANLIST(n)` leaves in
`_Channel[5..8]` the little-endian encoding of `2^n` (`00 08 00 00` for `n = 11`);
`SetCHANLIST(0xFF)` leaves the encoding of `0x07FFF800` (`00 F8 FF 07`); every other
`uint8_t` argument leaves the object as it was; and bytes `_Channel[0..4]` never change
(they are `06 26 05 84 04` in the default object). -/
theorem C3_SetCHANLIST_mask (s : CC2530) :
    (∀ n, 11 ≤ n → n ≤ 26 → channelValue (SetCHANLIST n s) = le32 (2 ^ n)) ∧
    le32 (2 ^ 11) = [0x00, 0x08, 0x00, 0x00] ∧
    channelValue (SetCHANLIST 0xFF s) = le32 0x07FFF800 ∧
    le32 0x07FFF800 = [0x00, 0xF8, 0xFF, 0x07] ∧
    (∀ v, v < 256 → v ≠ 0xFF → ¬ (11 ≤ v ∧ v ≤ 26) → SetCHANLIST v s = s) ∧
    (∀ v i, i < 5 → (SetCHANLIST v s).priv._Channel.get i = s.priv._Channel.get i) ∧
    CC2530.init.priv._Channel.data.take 5 = [0x06, 0x26, 0x05, 0x84, 0x04] := by
  refine ⟨?_, by decide, ?_, by decide, ?_, ?_, by decide⟩
  · intro n h1 h2
    interval_cases n <;>
      simp [SetCHANLIST, channelValue, setChannelBytes_get, u8, le32]
  · simp [SetCHANLIST, channelValue, setChannelBytes_get, u8, le32]
  · intro v h1 h2 h3
    have hv : u8 v = v := Nat.mod_eq_of_lt h1
    unfold SetCHANLIST
    simp only [hv]
    have e : ∀ k, 11 ≤ k → k ≤ 26 → v ≠ k := by
      intro k hk1 hk2 hvk
      exact h3 (hvk ▸ ⟨hk1, hk2⟩)
    simp [h2, e]
  · intro v i hi
    exact SetCHANLIST_ind (fun x => x.priv._Channel.get i = s.priv._Channel.get i) v s rfl
      (fun a b c d => (setChannelBytes_get a b c d s).2.2.2.2 i hi)

/-- C4: `NEW_DATA()` returns the value `NewData` had and leaves it false;
`AF_INCOMING_MSG()` does the same for `AFDataIncoming`; so two successive calls of the
same query return the flag and then false, and neither query changes the other flag,
the receive buffer or anything else of the object. -/
theorem C4_read_and_clear (s : CC2530) :
    (NEW_DATA s).1 = s.NewData ∧ (NEW_DATA s).2 = { s with NewData := false } ∧
    (NEW_DATA (NEW_DATA s).2).1 = false ∧
    (s.NewData = true → (NEW_DATA s).1 = true ∧ (NEW_DATA (NEW_DATA s).2).1 = false) ∧
    (AF_INCOMING_MSG s).1 = s.AFDataIncoming ∧
    (AF_INCOMING_MSG s).2 = { s with AFDataIncoming := false } ∧
    (AF_INCOMING_MSG (AF_INCOMING_MSG s).2).1 = false ∧
    (s.AFDataIncoming = true →
      (AF_INCOMING_MSG s).1 = true ∧ (AF_INCOMING_MSG (AF_INCOMING_MSG s).2).1 = false) ∧
    (NEW_DATA s).2.AFDataIncoming = s.AFDataIncoming ∧
    (NEW_DATA s).2.ReceivedBytes = s.ReceivedBytes ∧
    (AF_INCOMING_MSG s).2.NewData = s.NewData ∧
    (AF_INCOMING_MSG s).2.ReceivedBytes = s.ReceivedBytes := by
  cases s with
  | mk rb nd af pr a b c tr =>
    cases nd <;> cases af <;> simp [NEW_DATA, AF_INCOMING_MSG]

/-- C4 at a concrete object: with `NewData` set, the first `NEW_DATA()` returns true
and the second false. -/
theorem C4_read_and_clear_witness :
    ({ CC2530.init with NewData := true } : CC2530).NewData = true ∧
    (NEW_DATA { CC2530.init with NewData := true }).1 = true ∧
    (NEW_DATA (NEW_DATA { CC2530.init with NewData := true }).2).1 = false :=
  ⟨rfl, (C4_read_and_clear { CC2530.init with NewData := true }).2.2.2.1 rfl⟩


/-! ## Histories -/

theorem calls_append (t u : List Event) : calls (t ++ u) = calls t ++ calls u := by
  induction t with
  | nil => rfl
  | cons e es ih => cases e <;> simp [calls, ih]

theorem exchanges_append (t u : List Event) :
    exchanges (t ++ u) = exchanges t + exchanges u := by
  induction t with
  | nil => simp [exchanges]
  | cons e es ih =>
    cases e with
    | ss l => cases l <;> simp [exchanges, ih]; omega
    | _ => simp [exchanges, ih]

theorem lineSS_append_ss (t : List Event) (l : Bool) : lineSS (t ++ [.ss l]) = some l := by
  induction t with
  | nil => simp [lineSS]
  | cons e es ih => simp [lineSS, ih]

/-- Events of the busy-wait `while (digitalRead(_SRDY) == level) {}` that left after
`k` reads of `level`: those reads and the read of the other level that ended it. -/
def waitTrace (level : Bool) (k : Nat) : List Event :=
  List.replicate k (.srdy level) ++ [.srdy (!level)]

/-- Events of the transmit loop: `n` transfers of `Data[i], Data[i+1], ...`, the
bytes shifted in taken from sample `c` on. -/
def txTrace (env : Env) (Data : List Nat) : Nat → Nat → Nat → List Event
  | _, 0, _ => []
  | c, n + 1, i => .xfer (u8 (Data.getD i 0)) (u8 (env.miso c)) :: txTrace env Data (c + 1) n (i + 1)

/-- Events of the payload loop: `n` times a transfer of `0x00` and the store of the
byte shifted in at `ReceivedBytes[i+3]`, the bytes taken from sample `c` on. -/
def rxTrace (env : Env) : Nat → Nat → Nat → List Event
  | _, 0, _ => []
  | c, n + 1, i =>
    .xfer 0 (u8 (env.miso c)) :: .store (i + 3) (u8 (env.miso c)) :: rxTrace env (c + 1) n (i + 1)

/-- Events of the receive part common to `SRSP` and the body of `POLL`: the three
header transfers and, for a non-zero length byte, the three header stores and the
payload loop; the bytes taken from sample `c` on. -/
def rxCoreTrace (env : Env) (c : Nat) : List Event :=
  [.xfer 0 (u8 (env.miso c)), .xfer 0 (u8 (env.miso (c + 1))), .xfer 0 (u8 (env.miso (c + 2)))] ++
    if u8 (env.miso c) > 0 then
      [.store 0 (u8 (env.miso c)), .store 1 (u8 (env.miso (c + 1))),
        .store 2 (u8 (env.miso (c + 2)))] ++ rxTrace env (c + 3) (u8 (env.miso c)) 0
    else []

/-- A receive event: a transfer of `0x00` or a store into the receive buffer. -/
def isRx : Event → Bool
  | .xfer 0 _ => true
  | .store _ _ => true
  | _ => false

/-- A history segment that is one receive-only exchange of `POLL`: SRDY read low,
SS/MRDY driven low, the transaction begun, the three zero bytes of the poll frame
sent, SRDY read high, then only receive events. -/
def isPollExchange : List Event → Bool
  | .srdy false :: .ss false :: .spiBegin :: .xfer 0 _ :: .xfer 0 _ :: .xfer 0 _ ::
      .srdy true :: rx => rx.all isRx
  | _ => false

theorem u8_u8 (x : Nat) : u8 (u8 x) = u8 x := by simp [u8]

theorem u8_zero : u8 0 = 0 := rfl

theorem u8_lt (x : Nat) : u8 x < 256 := by unfold u8; omega

theorem calls_waitTrace (level : Bool) (k : Nat) : calls (waitTrace level k) = [] := by
  induction k with
  | zero => simp [waitTrace, calls]
  | succ k ih => simpa [waitTrace, List.replicate_succ, calls] using ih

theorem exchanges_waitTrace (level : Bool) (k : Nat) : exchanges (waitTrace level k) = 0 := by
  induction k with
  | zero => simp [waitTrace, exchanges]
  | succ k ih => simpa [waitTrace, List.replicate_succ, exchanges] using ih

theorem calls_txTrace (env : Env) (Data : List Nat) (n c i : Nat) :
    calls (txTrace env Data c n i) = [] := by
  induction n generalizing c i with
  | zero => simp [txTrace, calls]
  | succ n ih => simp [txTrace, calls, ih]

theorem exchanges_txTrace (env : Env) (Data : List Nat) (n c i : Nat) :
    exchanges (txTrace env Data c n i) = 0 := by
  induction n generalizing c i with
  | zero => simp [txTrace, exchanges]
  | succ n ih => simp [txTrace, exchanges, ih]

theorem all_isRx_rxTrace (env : Env) (n c i : Nat) :
    (rxTrace env c n i).all isRx = true := by
  induction n generalizing c i with
  | zero => simp [rxTrace]
  | succ n ih => simp [rxTrace, isRx, ih]

theorem all_isRx_rxCoreTrace (env : Env) (c : Nat) :
    (rxCoreTrace env c).all isRx = true := by
  unfold rxCoreTrace
  split <;> simp [isRx, all_isRx_rxTrace]

theorem calls_of_all_isRx (t : List Event) (h : t.all isRx = true) : calls t = [] := by
  induction t with
  | nil => rfl
  | cons e es ih =>
    simp only [List.all_cons, Bool.and_eq_true] at h
    cases e <;> simp_all [calls, isRx]

theorem exchanges_of_all_isRx (t : List Event) (h : t.all isRx = true) : exchanges t = 0 := by
  induction t with
  | nil => rfl
  | cons e es ih =>
    simp only [List.all_cons, Bool.and_eq_true] at h
    cases e <;> simp_all [exchanges, isRx]

theorem calls_rxCoreTrace (env : Env) (c : Nat) : calls (rxCoreTrace env c) = [] :=
  calls_of_all_isRx _ (all_isRx_rxCoreTrace env c)

theorem exchanges_rxCoreTrace (env : Env) (c : Nat) : exchanges (rxCoreTrace env c) = 0 :=
  exchanges_of_all_isRx _ (all_isRx_rxCoreTrace env c)

/-! ## The loops of the transport -/

theorem waitSRDY_some (env : Env) (level : Bool) (fuel : Nat) (s s' : CC2530)
    (h : waitSRDY env level fuel s = some s') :
    ∃ k, k < fuel ∧ env.srdy (s.nRead + k) = !level ∧
      (∀ i, i < k → env.srdy (s.nRead + i) = level) ∧
      s' = { s with nRead := s.nRead + (k + 1), trace := s.trace ++ waitTrace level k } := by
  induction fuel generalizing s with
  | zero => simp [waitSRDY] at h
  | succ fuel ih =>
    simp only [waitSRDY, digitalRead_SRDY] at h
    split at h
    · rename_i hl
      obtain ⟨k, hk, h1, h2, h3⟩ := ih _ h
      refine ⟨k + 1, by omega, ?_, ?_, ?_⟩
      · simpa [Nat.add_assoc, Nat.add_comm 1 k] using h1
      · intro i hi
        cases i with
        | zero => simpa using hl
        | succ i =>
          have := h2 i (by omega)
          simpa [Nat.add_assoc, Nat.add_comm 1 i] using this
      · rw [h3]
        simp [waitTrace, List.replicate_succ, hl, Nat.add_assoc, Nat.add_comm 1 (k + 1)]
    · rename_i hl
      refine ⟨0, by omega, ?_, ?_, ?_⟩
      · cases level <;> simp_all
      · intro i hi; omega
      · cases h
        have : env.srdy s.nRead = !level := by cases level <;> simp_all
        simp [waitTrace, this]

theorem waitSRDY_now (env : Env) (level : Bool) (fuel : Nat) (s : CC2530)
    (h : env.srdy s.nRead = !level) :
    waitSRDY env level (fuel + 1) s =
      some { s with nRead := s.nRead + 1, trace := s.trace ++ [.srdy (!level)] } := by
  have h2 : ¬ env.srdy s.nRead = level := by cases level <;> simp_all
  simp [waitSRDY, digitalRead_SRDY, h2, h]

theorem sendLoop_eq (env : Env) (Data : List Nat) (n i : Nat) (s : CC2530) :
    sendLoop env Data n i s =
      { s with nXfer := s.nXfer + n, trace := s.trace ++ txTrace env Data s.nXfer n i } := by
  induction n generalizing i s with
  | zero => simp [sendLoop, txTrace]
  | succ n ih =>
    rw [sendLoop, ih]
    simp [SPI_transfer, txTrace, Nat.add_assoc, Nat.add_comm 1 n]


/-- No store made so far fell past the end of the 64-byte receive buffer. -/
def InBounds (s : CC2530) : Prop := ∀ i, i ∈ storeIdx s.trace → i < 64

instance (s : CC2530) : Decidable (InBounds s) := by
  unfold InBounds
  infer_instance

/-- The level of an output pin: the level of the last `digitalWrite` to that pin number. -/
def lineLevel (pin : Nat) : List (Nat × Bool) → Option Bool
  | [] => none
  | (p, level) :: rest =>
    match lineLevel pin rest with
    | some l => some l
    | none => if p = pin then some level else none

theorem lineLevel_append_same (pin : Nat) (level : Bool) (l : List (Nat × Bool)) :
    lineLevel pin (l ++ [(pin, level)]) = some level := by
  induction l with
  | nil => simp [lineLevel]
  | cons a l ih =>
    obtain ⟨p, v⟩ := a
    simp [lineLevel, ih]

theorem storeIdx_append (t u : List Event) : storeIdx (t ++ u) = storeIdx t ++ storeIdx u := by
  induction t with
  | nil => rfl
  | cons e es ih => cases e <;> simp [storeIdx, ih]

theorem storeIdx_waitTrace (level : Bool) (k : Nat) : storeIdx (waitTrace level k) = [] := by
  induction k with
  | zero => simp [waitTrace, storeIdx]
  | succ k ih => simpa [waitTrace, List.replicate_succ, storeIdx] using ih

theorem storeIdx_rxTrace (env : Env) (n c i : Nat) :
    storeIdx (rxTrace env c n i) = (List.range n).map (fun k => i + 3 + k) := by
  induction n generalizing c i with
  | zero => simp [rxTrace, storeIdx]
  | succ n ih =>
    rw [rxTrace, List.range_succ_eq_map]
    simp only [storeIdx, ih, List.map_cons, List.map_map, Nat.add_zero]
    congr 1
    apply List.map_congr_left
    intro k _
    simp only [Function.comp]
    omega

theorem storeIdx_rxCoreTrace (env : Env) (c : Nat) (h : 0 < u8 (env.miso c)) :
    storeIdx (rxCoreTrace env c) = List.range (u8 (env.miso c) + 3) := by
  unfold rxCoreTrace
  rw [if_pos h]
  show storeIdx (_ :: _ :: _ :: .store 0 _ :: .store 1 _ :: .store 2 _ :: rxTrace env _ _ 0) = _
  simp only [storeIdx, storeIdx_rxTrace]
  have e : ∀ n, List.range (n + 3) = 0 :: 1 :: 2 :: (List.range n).map (fun k => 0 + 3 + k) := by
    intro n
    rw [List.range_succ_eq_map, List.range_succ_eq_map, List.range_succ_eq_map]
    simp only [List.map_cons, List.map_map]
    congr 3
    apply List.map_congr_left
    intro k _
    simp only [Function.comp]
    omega
  rw [e]

theorem storeIdx_txTrace (env : Env) (Data : List Nat) (c n i : Nat) :
    storeIdx (txTrace env Data c n i) = [] := by
  induction n generalizing c i with
  | zero => simp [txTrace, storeIdx]
  | succ n ih => simp [txTrace, storeIdx, ih]

theorem storeIdx_rxCoreTrace_zero (env : Env) (c : Nat) (h : u8 (env.miso c) = 0) :
    storeIdx (rxCoreTrace env c) = [] := by
  unfold rxCoreTrace
  rw [if_neg (by omega)]
  rfl

/-- A frame whose stores all stay inside the buffer has a length byte of at most 61. -/
theorem len_le_of_rxCoreTrace (env : Env) (c : Nat)
    (h : ∀ i, i ∈ storeIdx (rxCoreTrace env c) → i < 64) : u8 (env.miso c) ≤ 61 := by
  by_cases g : 0 < u8 (env.miso c)
  · rw [storeIdx_rxCoreTrace env c g] at h
    have := h (u8 (env.miso c) + 2) (by simp)
    omega
  · omega

/-- What a store never touches: the counters of the environment, the history, the pin log. -/
theorem storeRB_io (i v : Nat) (s : CC2530) :
    (storeRB i v s).nRead = s.nRead ∧ (storeRB i v s).nXfer = s.nXfer ∧
    (storeRB i v s).nClock = s.nClock ∧
    (storeRB i v s).trace = s.trace ++ [.store i (u8 v)] ∧
    (storeRB i v s).pinLog = s.pinLog := by
  unfold storeRB
  split_ifs <;> simp

/-- A store inside the buffer leaves every other member alone. -/
theorem storeRB_fields (i v : Nat) (s : CC2530) (h : i < 64) :
    (storeRB i v s).NewData = s.NewData ∧ (storeRB i v s).AFDataIncoming = s.AFDataIncoming ∧
    (storeRB i v s).priv = s.priv ∧ (storeRB i v s).pins = s.pins := by
  unfold storeRB
  rw [if_pos h]
  simp

theorem storeRB_get (i v j : Nat) (s : CC2530) (h : i < 64) :
    (storeRB i v s).ReceivedBytes.get j = if j = i then u8 v else s.ReceivedBytes.get j := by
  unfold storeRB
  rw [if_pos h]
  by_cases hj : j = i
  · subst hj
    simp [Arr.get_set_eq _ _ _ h]
  · have hij : i ≠ j := fun e => hj e.symm
    simp [Arr.get_set_ne _ _ _ _ hij, hj]

theorem recvLoop_io (env : Env) (n i : Nat) (s : CC2530) :
    (recvLoop env n i s).nRead = s.nRead ∧
    (recvLoop env n i s).nXfer = s.nXfer + n ∧ (recvLoop env n i s).nClock = s.nClock ∧
    (recvLoop env n i s).trace = s.trace ++ rxTrace env s.nXfer n i ∧
    (recvLoop env n i s).pinLog = s.pinLog := by
  induction n generalizing i s with
  | zero => simp [recvLoop, rxTrace]
  | succ n ih =>
    rw [recvLoop]
    obtain ⟨h4, h5, h6, h7, h8⟩ := ih (i + 1)
      (storeRB (i + 3) (SPI_transfer env 0 s).1 (SPI_transfer env 0 s).2)
    obtain ⟨g4, g5, g6, g7, g8⟩ :=
      storeRB_io (i + 3) (SPI_transfer env 0 s).1 (SPI_transfer env 0 s).2
    rw [h4, h5, h6, h7, h8, g4, g5, g6, g7, g8]
    simp [SPI_transfer, rxTrace, u8_u8, Nat.add_assoc, Nat.add_comm 1 n]
    simp [u8]

theorem recvLoop_fields (env : Env) (n i : Nat) (s : CC2530) (h : i + 3 + n ≤ 64) :
    (recvLoop env n i s).NewData = s.NewData ∧
    (recvLoop env n i s).AFDataIncoming = s.AFDataIncoming ∧
    (recvLoop env n i s).priv = s.priv ∧ (recvLoop env n i s).pins = s.pins := by
  induction n generalizing i s with
  | zero => simp [recvLoop]
  | succ n ih =>
    rw [recvLoop]
    obtain ⟨h1, h2, h3, h4⟩ := ih (i + 1)
      (storeRB (i + 3) (SPI_transfer env 0 s).1 (SPI_transfer env 0 s).2) (by omega)
    obtain ⟨g1, g2, g3, g4⟩ :=
      storeRB_fields (i + 3) (SPI_transfer env 0 s).1 (SPI_transfer env 0 s).2 (by omega)
    rw [h1, h2, h3, h4, g1, g2, g3, g4]
    simp [SPI_transfer]

theorem recvLoop_get (env : Env) (n i j : Nat) (s : CC2530) (h : i + 3 + n ≤ 64) :
    (recvLoop env n i s).ReceivedBytes.get j =
      if i + 3 ≤ j ∧ j < i + 3 + n then u8 (env.miso (s.nXfer + (j - (i + 3))))
      else s.ReceivedBytes.get j := by
  induction n generalizing i s with
  | zero =>
    have : ¬ (i + 3 ≤ j ∧ j < i + 3 + 0) := by omega
    simp [recvLoop, this]
  | succ n ih =>
    rw [recvLoop, ih (i + 1) _ (by omega), storeRB_get _ _ _ _ (by omega)]
    rw [(storeRB_io _ _ _).2.1]
    by_cases h1 : j = i + 3
    · subst h1
      have a : ¬ (i + 1 + 3 ≤ i + 3 ∧ i + 3 < i + 1 + 3 + n) := by omega
      have b : i + 3 ≤ i + 3 ∧ i + 3 < i + 3 + (n + 1) := by omega
      rw [if_neg a, if_pos b, if_pos rfl]
      simp [SPI_transfer, u8_u8]
    · by_cases h2 : i + 1 + 3 ≤ j ∧ j < i + 1 + 3 + n
      · have b : i + 3 ≤ j ∧ j < i + 3 + (n + 1) := by omega
        have c : s.nXfer + 1 + (j - (i + 1 + 3)) = s.nXfer + (j - (i + 3)) := by omega
        rw [if_pos h2, if_pos b]
        simp only [SPI_transfer]
        rw [c]
      · have b : ¬ (i + 3 ≤ j ∧ j < i + 3 + (n + 1)) := by omega
        rw [if_neg h2, if_neg b, if_neg h1]
        simp only [SPI_transfer]

/-! ## The receive part -/

/-- The receive part common to `SRSP` (lines 472-486) and to the body of `POLL`
(lines 425-439): three header transfers and, for a non-zero length byte, the header
stores and the payload loop. -/
def rxCore (env : Env) (s : CC2530) : CC2530 :=
  let r0 := SPI_transfer env 0x00 s
  let r1 := SPI_transfer env 0x00 r0.2
  let r2 := SPI_transfer env 0x00 r1.2
  if r0.1 > 0 then
    recvLoop env r0.1 0 (storeRB 2 r2.1 (storeRB 1 r1.1 (storeRB 0 r0.1 r2.2)))
  else r2.2

/-- Lines 417-421 of `POLL`: SS/MRDY low, the transaction begun, the poll frame sent. -/
def pollSend (env : Env) (s : CC2530) : CC2530 :=
  (SPI_transfer env 0x00 (SPI_transfer env 0x00 (SPI_transfer env 0x00
    (emit .spiBegin (digitalWrite_SS_MRDY LOW s))).2).2).2

/-- Lines 425-458 of `POLL`: the receive part and the two flags. -/
def pollRecv (env : Env) (s : CC2530) : CC2530 :=
  if u8 (env.miso s.nXfer) > 0 then
    if u8 (env.miso (s.nXfer + 1)) = 0x44 ∧ u8 (env.miso (s.nXfer + 2)) = 0x81 then
      { rxCore env s with NewData := true, AFDataIncoming := true }
    else { rxCore env s with NewData := true }
  else rxCore env s

theorem SRSP_eq (env : Env) (s : CC2530) :
    SRSP env s = digitalWrite_SS_MRDY HIGH (emit .spiEnd (rxCore env s)) := rfl

theorem POLL_body_eq (env : Env) (fuel : Nat) (s : CC2530) :
    POLL_body env fuel s =
      (waitSRDY env LOW fuel (pollSend env s)).bind fun s3 => some (pollRecv env s3) := by
  unfold POLL_body pollSend
  dsimp only
  congr 1
  funext s3
  simp only [pollRecv, rxCore, SPI_transfer]
  split
  · split <;> rfl
  · rfl


theorem rxCore_io (env : Env) (s : CC2530) :
    (rxCore env s).nRead = s.nRead ∧
    (rxCore env s).nXfer = s.nXfer + 3 + u8 (env.miso s.nXfer) ∧
    (rxCore env s).nClock = s.nClock ∧
    (rxCore env s).trace = s.trace ++ rxCoreTrace env s.nXfer ∧
    (rxCore env s).pinLog = s.pinLog := by
  unfold rxCore rxCoreTrace
  simp only [SPI_transfer]
  split
  · rename_i h
    simp only [recvLoop_io, storeRB_io, u8_u8]
    simp [Nat.add_assoc, u8_zero]
  · rename_i h
    have h0 : u8 (env.miso s.nXfer) = 0 := by omega
    simp [h0, Nat.add_assoc, u8_zero]

/-- A frame of at most 61 payload bytes leaves every member but the buffer alone. -/
theorem rxCore_fields (env : Env) (s : CC2530) (h : u8 (env.miso s.nXfer) ≤ 61) :
    (rxCore env s).NewData = s.NewData ∧ (rxCore env s).AFDataIncoming = s.AFDataIncoming ∧
    (rxCore env s).priv = s.priv ∧ (rxCore env s).pins = s.pins := by
  unfold rxCore
  simp only [SPI_transfer]
  split
  · rename_i g
    obtain ⟨h1, h2, h3, h4⟩ := recvLoop_fields env (u8 (env.miso s.nXfer)) 0
      (storeRB 2 (u8 (env.miso (s.nXfer + 1 + 1))) (storeRB 1 (u8 (env.miso (s.nXfer + 1)))
        (storeRB 0 (u8 (env.miso s.nXfer))
          { s with nXfer := s.nXfer + 1 + 1 + 1, trace := s.trace ++
            [.xfer 0 (u8 (env.miso s.nXfer))] ++ [.xfer 0 (u8 (env.miso (s.nXfer + 1)))] ++
            [.xfer 0 (u8 (env.miso (s.nXfer + 1 + 1)))] }))) (by omega)
    simp only [u8_zero] at h1 h2 h3 h4 ⊢
    rw [h1, h2, h3, h4]
    simp [storeRB_fields]
  · simp

theorem rxCore_zero (env : Env) (s : CC2530) (h : u8 (env.miso s.nXfer) = 0) :
    (rxCore env s).ReceivedBytes = s.ReceivedBytes := by
  unfold rxCore
  simp [SPI_transfer, h]

theorem rxCore_get (env : Env) (s : CC2530) (j : Nat)
    (h1 : 0 < u8 (env.miso s.nXfer)) (h2 : u8 (env.miso s.nXfer) ≤ 61) :
    (rxCore env s).ReceivedBytes.get j =
      if j < u8 (env.miso s.nXfer) + 3 then u8 (env.miso (s.nXfer + j))
      else s.ReceivedBytes.get j := by
  unfold rxCore
  simp only [SPI_transfer]
  rw [if_pos h1, recvLoop_get _ _ _ _ _ (by omega)]
  simp only [storeRB_io, storeRB_get _ _ _ _ (show (2 : Nat) < 64 by decide),
    storeRB_get _ _ _ _ (show (1 : Nat) < 64 by decide),
    storeRB_get _ _ _ _ (show (0 : Nat) < 64 by decide), u8_u8]
  by_cases a : 0 + 3 ≤ j ∧ j < 0 + 3 + u8 (env.miso s.nXfer)
  · have b : j < u8 (env.miso s.nXfer) + 3 := by omega
    have c : s.nXfer + 1 + 1 + 1 + (j - (0 + 3)) = s.nXfer + j := by omega
    rw [if_pos a, if_pos b, c]
  · rw [if_neg a]
    by_cases j2 : j = 2
    · subst j2
      rw [if_pos rfl, if_pos (by omega)]
    · by_cases j1 : j = 1
      · subst j1
        rw [if_neg (by decide), if_pos rfl, if_pos (by omega)]
      · by_cases j0 : j = 0
        · subst j0
          rw [if_neg (by decide), if_neg (by decide), if_pos rfl, if_pos (by omega)]
          rfl
        · rw [if_neg j2, if_neg j1, if_neg j0, if_neg (by omega)]


theorem pollRecv_fields (env : Env) (s : CC2530) :
    (pollRecv env s).ReceivedBytes = (rxCore env s).ReceivedBytes ∧
    (pollRecv env s).priv = (rxCore env s).priv ∧ (pollRecv env s).nRead = s.nRead ∧
    (pollRecv env s).nXfer = s.nXfer + 3 + u8 (env.miso s.nXfer) ∧
    (pollRecv env s).nClock = s.nClock ∧
    (pollRecv env s).trace = s.trace ++ rxCoreTrace env s.nXfer ∧
    (pollRecv env s).pins = (rxCore env s).pins ∧ (pollRecv env s).pinLog = s.pinLog := by
  obtain ⟨h4, h5, h6, h7, h8⟩ := rxCore_io env s
  unfold pollRecv
  split
  · split <;> simp [h4, h5, h6, h7, h8]
  · simp [h4, h5, h6, h7, h8]

/-- The two flags after the receive part of one iteration of `POLL`: they are set
after the stores of the frame. -/
theorem pollRecv_flags (env : Env) (s : CC2530) :
    (pollRecv env s).NewData = (if u8 (env.miso s.nXfer) > 0 then true else s.NewData) ∧
    (pollRecv env s).AFDataIncoming =
      (if u8 (env.miso s.nXfer) > 0 ∧ u8 (env.miso (s.nXfer + 1)) = 0x44 ∧
          u8 (env.miso (s.nXfer + 2)) = 0x81 then true
        else (rxCore env s).AFDataIncoming) := by
  unfold pollRecv
  split
  · rename_i h
    split
    · rename_i g
      simp [h, g]
    · rename_i g
      simp [h, g]
  · rename_i h
    obtain ⟨h1, _⟩ := rxCore_fields env s (by omega)
    simp [h, h1]

theorem pollSend_eq (env : Env) (s : CC2530) :
    pollSend env s = { s with nXfer := s.nXfer + 3, trace := s.trace ++
      [.ss LOW, .spiBegin, .xfer 0 (u8 (env.miso s.nXfer)), .xfer 0 (u8 (env.miso (s.nXfer + 1))),
        .xfer 0 (u8 (env.miso (s.nXfer + 2)))], pinLog := s.pinLog ++ [(s.pins.get 3, LOW)] } := by
  simp [pollSend, SPI_transfer, emit, digitalWrite_SS_MRDY, u8, Nat.add_assoc]


/-! ## Requests -/

theorem WRITE_DATA_eq (env : Env) (fuel : Nat) (Data : List Nat) (s : CC2530) :
    WRITE_DATA env fuel Data s =
      inlineSREQ env fuel Data (u8 (Data.getD 0 0 + 3)) (emit (.writeData Data) s) := rfl

theorem inlineSREQ_some (env : Env) (fuel : Nat) (A : List Nat) (N : Nat) (s s' : CC2530)
    (h : inlineSREQ env fuel A N s = some s') :
    ∃ k1 k2, s' = SRSP env { s with
      nRead := s.nRead + (k1 + 1) + (k2 + 1)
      nXfer := s.nXfer + N
      trace := s.trace ++ [.ss LOW] ++ waitTrace HIGH k1 ++ [.spiBegin] ++
        txTrace env A s.nXfer N 0 ++ waitTrace LOW k2
      pinLog := s.pinLog ++ [(s.pins.get 3, LOW)] } := by
  unfold inlineSREQ at h
  simp only [Option.bind_eq_some] at h
  obtain ⟨s2, h2, s4, h4, h5⟩ := h
  obtain ⟨k1, _, _, _, e2⟩ := waitSRDY_some _ _ _ _ _ h2
  obtain ⟨k2, _, _, _, e4⟩ := waitSRDY_some _ _ _ _ _ h4
  refine ⟨k1, k2, ?_⟩
  rw [sendLoop_eq] at e4
  subst e2
  simp only [Option.some.injEq] at h5
  rw [← h5, e4]
  simp [emit, digitalWrite_SS_MRDY]

/-- What `SRSP` does for every reply: the counters, the buffer of the receive part, the
events, and the last write, which goes to the pin number held in `_SS_MRDY` at that
moment. -/
theorem SRSP_fields (env : Env) (s : CC2530) :
    (SRSP env s).NewData = (rxCore env s).NewData ∧
    (SRSP env s).AFDataIncoming = (rxCore env s).AFDataIncoming ∧
    (SRSP env s).priv = (rxCore env s).priv ∧ (SRSP env s).nRead = s.nRead ∧
    (SRSP env s).nXfer = s.nXfer + 3 + u8 (env.miso s.nXfer) ∧
    (SRSP env s).nClock = s.nClock ∧
    (SRSP env s).ReceivedBytes = (rxCore env s).ReceivedBytes ∧
    (SRSP env s).trace = s.trace ++ rxCoreTrace env s.nXfer ++ [.spiEnd, .ss HIGH] ∧
    (SRSP env s).pins = (rxCore env s).pins ∧
    (SRSP env s).pinLog = s.pinLog ++ [((rxCore env s).pins.get 3, HIGH)] := by
  obtain ⟨h4, h5, h6, h7, h8⟩ := rxCore_io env s
  rw [SRSP_eq]
  simp [digitalWrite_SS_MRDY, emit, h4, h5, h6, h7, h8]

/-- A reply of at most 61 payload bytes: `SRSP` changes no member but the buffer. -/
theorem SRSP_obj (env : Env) (s : CC2530) (h : u8 (env.miso s.nXfer) ≤ 61) :
    (SRSP env s).NewData = s.NewData ∧ (SRSP env s).AFDataIncoming = s.AFDataIncoming ∧
    (SRSP env s).priv = s.priv ∧ (SRSP env s).pins = s.pins ∧
    (SRSP env s).pinLog = s.pinLog ++ [(s.pins.get 3, HIGH)] := by
  obtain ⟨h1, h2, h3, _, _, _, _, _, h9, h10⟩ := SRSP_fields env s
  obtain ⟨g1, g2, g3, g4⟩ := rxCore_fields env s h
  rw [h1, h2, h3, h9, h10, g1, g2, g3, g4]
  simp

theorem lineSS_SRSP (env : Env) (s : CC2530) : lineSS (SRSP env s).trace = some HIGH := by
  rw [SRSP_eq]
  simp only [digitalWrite_SS_MRDY, emit]
  exact lineSS_append_ss _ _

theorem lineSS_inlineSREQ (env : Env) (fuel : Nat) (A : List Nat) (N : Nat) (s s' : CC2530)
    (h : inlineSREQ env fuel A N s = some s') : lineSS s'.trace = some HIGH := by
  obtain ⟨k1, k2, e⟩ := inlineSREQ_some _ _ _ _ _ _ h
  rw [e]
  exact lineSS_SRSP _ _

/-- What a request leaves alone for every reply: the clock samples and the list of
arrays handed to `WRITE_DATA`. -/
theorem inlineSREQ_io (env : Env) (fuel : Nat) (A : List Nat) (N : Nat) (s s' : CC2530)
    (h : inlineSREQ env fuel A N s = some s') :
    s'.nClock = s.nClock ∧ calls s'.trace = calls s.trace := by
  obtain ⟨k1, k2, e⟩ := inlineSREQ_some _ _ _ _ _ _ h
  obtain ⟨_, _, _, _, _, h6, _, h8, _⟩ := SRSP_fields env { s with
      nRead := s.nRead + (k1 + 1) + (k2 + 1)
      nXfer := s.nXfer + N
      trace := s.trace ++ [.ss LOW] ++ waitTrace HIGH k1 ++ [.spiBegin] ++
        txTrace env A s.nXfer N 0 ++ waitTrace LOW k2
      pinLog := s.pinLog ++ [(s.pins.get 3, LOW)] }
  rw [← e] at h6 h8
  refine ⟨h6, ?_⟩
  rw [h8]
  simp only [calls_append, calls_waitTrace, calls_txTrace, calls_rxCoreTrace]
  simp [calls]

/-- A request whose reply has at most 61 payload bytes changes no member but the
buffer, and writes the SS/MRDY pin low and then high. -/
theorem inlineSREQ_obj (env : Env) (fuel : Nat) (A : List Nat) (N : Nat) (s s' : CC2530)
    (h : inlineSREQ env fuel A N s = some s') (hl : u8 (env.miso (s.nXfer + N)) ≤ 61) :
    s'.priv = s.priv ∧ s'.NewData = s.NewData ∧ s'.AFDataIncoming = s.AFDataIncoming ∧
    s'.pins = s.pins ∧
    s'.pinLog = s.pinLog ++ [(s.pins.get 3, LOW), (s.pins.get 3, HIGH)] := by
  obtain ⟨k1, k2, e⟩ := inlineSREQ_some _ _ _ _ _ _ h
  obtain ⟨h1, h2, h3, h4, h5⟩ := SRSP_obj env { s with
      nRead := s.nRead + (k1 + 1) + (k2 + 1)
      nXfer := s.nXfer + N
      trace := s.trace ++ [.ss LOW] ++ waitTrace HIGH k1 ++ [.spiBegin] ++
        txTrace env A s.nXfer N 0 ++ waitTrace LOW k2
      pinLog := s.pinLog ++ [(s.pins.get 3, LOW)] } hl
  rw [← e] at h1 h2 h3 h4 h5
  refine ⟨h3, h1, h2, h4, ?_⟩
  rw [h5]
  simp

/-- The stores of a request are those of its reply. -/
theorem inlineSREQ_storeIdx (env : Env) (fuel : Nat) (A : List Nat) (N : Nat) (s s' : CC2530)
    (h : inlineSREQ env fuel A N s = some s') :
    storeIdx s'.trace = storeIdx s.trace ++ storeIdx (rxCoreTrace env (s.nXfer + N)) := by
  obtain ⟨k1, k2, e⟩ := inlineSREQ_some _ _ _ _ _ _ h
  rw [e, (SRSP_fields env _).2.2.2.2.2.2.2.1]
  simp only [storeIdx_append, storeIdx_waitTrace, storeIdx_txTrace]
  simp [storeIdx]

theorem inlineSREQ_inb (env : Env) (fuel : Nat) (A : List Nat) (N : Nat) (s s' : CC2530)
    (h : inlineSREQ env fuel A N s = some s') (hb : InBounds s') :
    InBounds s ∧ u8 (env.miso (s.nXfer + N)) ≤ 61 := by
  have e := inlineSREQ_storeIdx _ _ _ _ _ _ h
  unfold InBounds at *
  rw [e] at hb
  exact ⟨fun i hi => hb i (List.mem_append_left _ hi),
    len_le_of_rxCoreTrace env _ (fun i hi => hb i (List.mem_append_right _ hi))⟩

theorem WRITE_DATA_io (env : Env) (fuel : Nat) (Data : List Nat) (s s' : CC2530)
    (h : WRITE_DATA env fuel Data s = some s') :
    s'.nClock = s.nClock ∧ calls s'.trace = calls s.trace ++ [Data] := by
  rw [WRITE_DATA_eq] at h
  obtain ⟨h4, h5⟩ := inlineSREQ_io _ _ _ _ _ _ h
  refine ⟨h4, ?_⟩
  rw [h5]
  simp [emit, calls_append, calls]

theorem WRITE_DATA_obj (env : Env) (fuel : Nat) (Data : List Nat) (s s' : CC2530)
    (h : WRITE_DATA env fuel Data s = some s')
    (hl : u8 (env.miso (s.nXfer + u8 (Data.getD 0 0 + 3))) ≤ 61) :
    s'.priv = s.priv ∧ s'.NewData = s.NewData ∧ s'.AFDataIncoming = s.AFDataIncoming ∧
    s'.pins = s.pins ∧
    s'.pinLog = s.pinLog ++ [(s.pins.get 3, LOW), (s.pins.get 3, HIGH)] := by
  rw [WRITE_DATA_eq] at h
  have a := inlineSREQ_obj _ _ _ _ _ _ h hl
  simpa [emit] using a

theorem WRITE_DATA_inb (env : Env) (fuel : Nat) (Data : List Nat) (s s' : CC2530)
    (h : WRITE_DATA env fuel Data s = some s') (hb : InBounds s') :
    InBounds s ∧ u8 (env.miso (s.nXfer + u8 (Data.getD 0 0 + 3))) ≤ 61 := by
  rw [WRITE_DATA_eq] at h
  obtain ⟨a, b⟩ := inlineSREQ_inb _ _ _ _ _ _ h hb
  refine ⟨?_, b⟩
  unfold InBounds at *
  simpa [emit, storeIdx_append, storeIdx] using a

/-- A request that stores nothing past the buffer changes no member but the buffer. -/
theorem WRITE_DATA_kept (env : Env) (fuel : Nat) (Data : List Nat) (s s' : CC2530)
    (h : WRITE_DATA env fuel Data s = some s') (hb : InBounds s') :
    InBounds s ∧ s'.priv = s.priv ∧ s'.NewData = s.NewData ∧
    s'.AFDataIncoming = s.AFDataIncoming ∧ s'.pins = s.pins := by
  obtain ⟨a, b⟩ := WRITE_DATA_inb _ _ _ _ _ h hb
  obtain ⟨h1, h2, h3, h4, _⟩ := WRITE_DATA_obj _ _ _ _ _ h b
  exact ⟨a, h1, h2, h3, h4⟩

/-! ## The poll loop -/

theorem POLL_body_some (env : Env) (fuel : Nat) (s s' : CC2530)
    (h : POLL_body env fuel s = some s') :
    ∃ k, s' = pollRecv env { s with
      nRead := s.nRead + (k + 1)
      nXfer := s.nXfer + 3
      trace := s.trace ++ [.ss LOW, .spiBegin, .xfer 0 (u8 (env.miso s.nXfer)),
        .xfer 0 (u8 (env.miso (s.nXfer + 1))), .xfer 0 (u8 (env.miso (s.nXfer + 2)))] ++
        waitTrace LOW k
      pinLog := s.pinLog ++ [(s.pins.get 3, LOW)] } := by
  rw [POLL_body_eq] at h
  simp only [Option.bind_eq_some] at h
  obtain ⟨s3, h3, h4⟩ := h
  obtain ⟨k, _, _, _, e⟩ := waitSRDY_some _ _ _ _ _ h3
  refine ⟨k, ?_⟩
  simp only [Option.some.injEq] at h4
  rw [← h4, e, pollSend_eq]

theorem POLL_body_kept (env : Env) (fuel : Nat) (s s' : CC2530)
    (h : POLL_body env fuel s = some s') :
    s'.nClock = s.nClock ∧ calls s'.trace = calls s.trace ∧
    exchanges s'.trace = exchanges s.trace + 1 ∧
    storeIdx s'.trace = storeIdx s.trace ++ storeIdx (rxCoreTrace env (s.nXfer + 3)) := by
  obtain ⟨k, e⟩ := POLL_body_some _ _ _ _ h
  subst e
  simp only [pollRecv_fields]
  refine ⟨trivial, ?_, ?_, ?_⟩
  · simp only [calls_append, calls_waitTrace, calls_rxCoreTrace]
    simp [calls]
  · simp only [exchanges_append, exchanges_waitTrace, exchanges_rxCoreTrace]
    simp [exchanges]
  · simp only [storeIdx_append, storeIdx_waitTrace]
    simp [storeIdx]

/-- One iteration of `POLL` whose frame has at most 61 payload bytes. -/
theorem POLL_body_obj (env : Env) (fuel : Nat) (s s' : CC2530)
    (h : POLL_body env fuel s = some s') (hl : u8 (env.miso (s.nXfer + 3)) ≤ 61) :
    s'.priv = s.priv ∧ s'.pins = s.pins ∧
    s'.pinLog = s.pinLog ++ [(s.pins.get 3, LOW)] ∧
    s'.NewData = (if u8 (env.miso (s.nXfer + 3)) > 0 then true else s.NewData) ∧
    s'.AFDataIncoming =
      (if u8 (env.miso (s.nXfer + 3)) > 0 ∧ u8 (env.miso (s.nXfer + 3 + 1)) = 0x44 ∧
          u8 (env.miso (s.nXfer + 3 + 2)) = 0x81 then true
        else s.AFDataIncoming) := by
  obtain ⟨k, e⟩ := POLL_body_some _ _ _ _ h
  subst e
  obtain ⟨_, h2, _, _, _, _, h7, h8⟩ := pollRecv_fields env { s with
      nRead := s.nRead + (k + 1)
      nXfer := s.nXfer + 3
      trace := s.trace ++ [.ss LOW, .spiBegin, .xfer 0 (u8 (env.miso s.nXfer)),
        .xfer 0 (u8 (env.miso (s.nXfer + 1))), .xfer 0 (u8 (env.miso (s.nXfer + 2)))] ++
        waitTrace LOW k
      pinLog := s.pinLog ++ [(s.pins.get 3, LOW)] }
  obtain ⟨f1, f2⟩ := pollRecv_flags env { s with
      nRead := s.nRead + (k + 1)
      nXfer := s.nXfer + 3
      trace := s.trace ++ [.ss LOW, .spiBegin, .xfer 0 (u8 (env.miso s.nXfer)),
        .xfer 0 (u8 (env.miso (s.nXfer + 1))), .xfer 0 (u8 (env.miso (s.nXfer + 2)))] ++
        waitTrace LOW k
      pinLog := s.pinLog ++ [(s.pins.get 3, LOW)] }
  obtain ⟨g1, g2, g3, g4⟩ := rxCore_fields env { s with
      nRead := s.nRead + (k + 1)
      nXfer := s.nXfer + 3
      trace := s.trace ++ [.ss LOW, .spiBegin, .xfer 0 (u8 (env.miso s.nXfer)),
        .xfer 0 (u8 (env.miso (s.nXfer + 1))), .xfer 0 (u8 (env.miso (s.nXfer + 2)))] ++
        waitTrace LOW k
      pinLog := s.pinLog ++ [(s.pins.get 3, LOW)] } hl
  rw [g2] at f2
  rw [g3] at h2
  rw [g4] at h7
  exact ⟨h2, h7, h8, f1, f2⟩

theorem POLL_body_inb (env : Env) (fuel : Nat) (s s' : CC2530)
    (h : POLL_body env fuel s = some s') (hb : InBounds s') :
    InBounds s ∧ u8 (env.miso (s.nXfer + 3)) ≤ 61 := by
  obtain ⟨_, _, _, e⟩ := POLL_body_kept _ _ _ _ h
  unfold InBounds at *
  rw [e] at hb
  exact ⟨fun i hi => hb i (List.mem_append_left _ hi),
    len_le_of_rxCoreTrace env _ (fun i hi => hb i (List.mem_append_right _ hi))⟩

theorem POLL_loop_kept (env : Env) (inner fuel : Nat) (s s' : CC2530)
    (h : POLL_loop env inner fuel s = some s') :
    s'.nClock = s.nClock ∧ calls s'.trace = calls s.trace ∧
    exchanges s.trace ≤ exchanges s'.trace ∧ lineSS s'.trace = some HIGH := by
  induction fuel generalizing s with
  | zero => simp [POLL_loop] at h
  | succ fuel ih =>
    simp only [POLL_loop, digitalRead_SRDY] at h
    split at h
    · simp only [Option.bind_eq_some] at h
      obtain ⟨s1, h1, h2⟩ := h
      obtain ⟨a2, a3, a4, _⟩ := POLL_body_kept _ _ _ _ h1
      obtain ⟨b2, b3, b4, b5⟩ := ih _ h2
      refine ⟨by rw [b2, a2], ?_, ?_, b5⟩
      · rw [b3, a3]
        simp [calls_append, calls]
      · rw [a4] at b4
        simp only [exchanges_append, exchanges] at b4
        omega
    · simp only [Option.some.injEq] at h
      subst h
      refine ⟨rfl, ?_, ?_, ?_⟩
      · simp [digitalWrite_SS_MRDY, emit, calls_append, calls]
      · simp [digitalWrite_SS_MRDY, emit, exchanges_append, exchanges]
      · simp only [digitalWrite_SS_MRDY, emit]
        exact lineSS_append_ss _ _

/-- A call of `POLL` that stores nothing past the buffer: the descriptors and the pin
numbers are kept, the incoming-message flag is not cleared, and the last write of the
SS/MRDY pin is high. -/
theorem POLL_loop_inb (env : Env) (inner fuel : Nat) (s s' : CC2530)
    (h : POLL_loop env inner fuel s = some s') (hb : InBounds s') :
    InBounds s ∧ s'.priv = s.priv ∧ s'.pins = s.pins ∧
    (s.AFDataIncoming = true → s'.AFDataIncoming = true) ∧
    ∃ l, s'.pinLog = l ++ [(s.pins.get 3, HIGH)] := by
  induction fuel generalizing s with
  | zero => simp [POLL_loop] at h
  | succ fuel ih =>
    simp only [POLL_loop, digitalRead_SRDY] at h
    split at h
    · simp only [Option.bind_eq_some] at h
      obtain ⟨s1, h1, h2⟩ := h
      obtain ⟨b0, b1, b2, b3, l, b4⟩ := ih _ h2
      have c0 : InBounds s1 := by
        unfold InBounds at *
        simpa [storeIdx_append, storeIdx] using b0
      obtain ⟨a0, al⟩ := POLL_body_inb _ _ _ _ h1 c0
      obtain ⟨a1, a2, _, _, a5⟩ := POLL_body_obj _ _ _ _ h1 al
      have d0 : InBounds s := by
        unfold InBounds at *
        simpa [storeIdx_append, storeIdx] using a0
      refine ⟨d0, ?_, ?_, ?_, l, ?_⟩
      · rw [b1]; exact a1
      · rw [b2]; exact a2
      · intro g
        apply b3
        show s1.AFDataIncoming = true
        rw [a5]
        have g2 : s.AFDataIncoming = true := g
        simp [g2]
      · rw [b4, a2]
    · simp only [Option.some.injEq] at h
      subst h
      refine ⟨?_, rfl, rfl, fun g => g, s.pinLog, rfl⟩
      unfold InBounds at *
      simpa [digitalWrite_SS_MRDY, emit, storeIdx_append, storeIdx] using hb


theorem RECV_CALLBACK_loop_kept (env : Env) (inner t0 fuel : Nat) (s s' : CC2530)
    (h : RECV_CALLBACK_loop env inner t0 fuel s = some s') :
    calls s'.trace = calls s.trace := by
  induction fuel generalizing s with
  | zero => simp [RECV_CALLBACK_loop] at h
  | succ fuel ih =>
    simp only [RECV_CALLBACK_loop, millis] at h
    split at h
    · simp only [Option.bind_eq_some] at h
      obtain ⟨s1, h1, h2⟩ := h
      obtain ⟨_, a3, _⟩ := POLL_loop_kept _ _ _ _ _ h1
      have c : calls s1.trace = calls s.trace := by
        rw [a3]; simp [calls_append, calls]
      split at h2
      · simp only [Option.some.injEq] at h2
        subst h2
        exact c
      · rw [ih _ h2, c]
    · simp only [Option.some.injEq] at h
      subst h
      simp [calls_append, calls]

theorem RECV_CALLBACK_loop_inb (env : Env) (inner t0 fuel : Nat) (s s' : CC2530)
    (h : RECV_CALLBACK_loop env inner t0 fuel s = some s') (hb : InBounds s') :
    InBounds s ∧ s'.priv = s.priv ∧ s'.pins = s.pins ∧
    (s.AFDataIncoming = true → s'.AFDataIncoming = true) := by
  induction fuel generalizing s with
  | zero => simp [RECV_CALLBACK_loop] at h
  | succ fuel ih =>
    simp only [RECV_CALLBACK_loop, millis] at h
    split at h
    · simp only [Option.bind_eq_some] at h
      obtain ⟨s1, h1, h2⟩ := h
      split at h2
      · simp only [Option.some.injEq] at h2
        subst h2
        obtain ⟨a0, a1, a2, a3, _⟩ := POLL_loop_inb _ _ _ _ _ h1 hb
        refine ⟨?_, a1, a2, a3⟩
        unfold InBounds at *
        simpa [storeIdx_append, storeIdx] using a0
      · obtain ⟨b0, b1, b2, b3⟩ := ih _ h2
        obtain ⟨a0, a1, a2, a3, _⟩ := POLL_loop_inb _ _ _ _ _ h1 b0
        refine ⟨?_, by rw [b1]; exact a1, by rw [b2]; exact a2, fun g => b3 (a3 g)⟩
        unfold InBounds at *
        simpa [storeIdx_append, storeIdx] using a0
    · simp only [Option.some.injEq] at h
      subst h
      refine ⟨?_, rfl, rfl, fun g => g⟩
      unfold InBounds at *
      simpa [storeIdx_append, storeIdx] using hb

theorem RECV_CALLBACK_kept (env : Env) (fuel : Nat) (s s' : CC2530)
    (h : RECV_CALLBACK env fuel s = some s') :
    calls s'.trace = calls s.trace := by
  unfold RECV_CALLBACK at h
  rw [RECV_CALLBACK_loop_kept _ _ _ _ _ _ h]
  simp [millis, calls_append, calls]

theorem RECV_CALLBACK_inb (env : Env) (fuel : Nat) (s s' : CC2530)
    (h : RECV_CALLBACK env fuel s = some s') (hb : InBounds s') :
    InBounds s ∧ s'.priv = s.priv ∧ s'.pins = s.pins ∧
    (s.AFDataIncoming = true → s'.AFDataIncoming = true) := by
  unfold RECV_CALLBACK at h
  obtain ⟨a0, a1, a2, a3⟩ := RECV_CALLBACK_loop_inb _ _ _ _ _ _ h hb
  refine ⟨?_, a1, a2, a3⟩
  unfold InBounds at *
  simpa [millis, storeIdx_append, storeIdx] using a0

/-- The array a reset hands to `WRITE_DATA` is `_SYS_Reset` as it stands at the call. -/
theorem SYS_RESET_REQ_calls (env : Env) (fuel : Nat) (s s' : CC2530)
    (h : SYS_RESET_REQ env fuel s = some s') :
    calls s'.trace = calls s.trace ++ [s.priv._SYS_Reset.data] := by
  unfold SYS_RESET_REQ at h
  simp only [Option.bind_eq_some] at h
  obtain ⟨s1, h1, h2⟩ := h
  obtain ⟨_, a5⟩ := WRITE_DATA_io _ _ _ _ _ h1
  rw [RECV_CALLBACK_kept _ _ _ _ h2]
  simp [emit, calls_append, calls, a5]

theorem SYS_RESET_REQ_kept (env : Env) (fuel : Nat) (s s' : CC2530)
    (h : SYS_RESET_REQ env fuel s = some s') (hb : InBounds s') :
    InBounds s ∧ s'.priv = s.priv ∧ s'.pins = s.pins ∧
    (s.AFDataIncoming = true → s'.AFDataIncoming = true) := by
  unfold SYS_RESET_REQ at h
  simp only [Option.bind_eq_some] at h
  obtain ⟨s1, h1, h2⟩ := h
  obtain ⟨b0, b1, b2, b3⟩ := RECV_CALLBACK_inb _ _ _ _ h2 hb
  have c0 : InBounds s1 := by
    unfold InBounds at *
    simpa [emit, storeIdx_append, storeIdx] using b0
  obtain ⟨a0, a1, _, a3, a4⟩ := WRITE_DATA_kept _ _ _ _ _ h1 c0
  refine ⟨a0, by rw [b1]; exact a1, by rw [b2]; exact a4, ?_⟩
  intro g
  apply b3
  show s1.AFDataIncoming = true
  rw [a3]
  exact g

theorem COMMISSION_eq (env : Env) (fuel : Nat) (s : CC2530) :
    COMMISSION env fuel s =
      ((WRITE_DATA env fuel s.priv._NVStartUpClear.data s).bind fun s =>
      (SYS_RESET_REQ env fuel s).bind fun s =>
      (WRITE_DATA env fuel s.priv._NVStartUpKeep.data s).bind fun s =>
      (WRITE_DATA env fuel s.priv._LogicalType.data s).bind fun s =>
      (WRITE_DATA env fuel s.priv._PanID.data s).bind fun s =>
      (WRITE_DATA env fuel s.priv._Channel.data s).bind fun s =>
      (WRITE_DATA env fuel s.priv._PollRate.data s).bind fun s =>
      (WRITE_DATA env fuel s.priv._QueuedPollRate.data s).bind fun s =>
      (WRITE_DATA env fuel s.priv._ResponsePollRate.data s).bind fun s =>
      (WRITE_DATA env fuel s.priv._RejoinPollRate.data s).bind fun s =>
      (WRITE_DATA env fuel s.priv._PollFailRetries.data s).bind fun s =>
      (WRITE_DATA env fuel s.priv._CallBack.data s).bind fun s =>
      (WRITE_DATA env fuel s.priv._PreCFGKeyEnable.data s).bind fun s =>
      (WRITE_DATA env fuel s.priv._PreCFGKey.data s).bind fun s =>
      (WRITE_DATA env fuel s.priv._TXPower.data s).bind fun s =>
      SYS_RESET_REQ env fuel s) := by
  unfold COMMISSION
  repeat' split
  all_goals simp only [*, Option.some_bind, Option.none_bind]

/-- The arrays `COMMISSION` hands to `WRITE_DATA`, each named as a member of the object
at the moment of its call. -/
theorem COMMISSION_steps (env : Env) (fuel : Nat) (s s' : CC2530)
    (h : COMMISSION env fuel s = some s') :
    ∃ s1 s2 s3 s4 s5 s6 s7 s8 s9 s10 s11 s12 s13 s14 s15,
      WRITE_DATA env fuel s.priv._NVStartUpClear.data s = some s1 ∧
      SYS_RESET_REQ env fuel s1 = some s2 ∧
      WRITE_DATA env fuel s2.priv._NVStartUpKeep.data s2 = some s3 ∧
      WRITE_DATA env fuel s3.priv._LogicalType.data s3 = some s4 ∧
      WRITE_DATA env fuel s4.priv._PanID.data s4 = some s5 ∧
      WRITE_DATA env fuel s5.priv._Channel.data s5 = some s6 ∧
      WRITE_DATA env fuel s6.priv._PollRate.data s6 = some s7 ∧
      WRITE_DATA env fuel s7.priv._QueuedPollRate.data s7 = some s8 ∧
      WRITE_DATA env fuel s8.priv._ResponsePollRate.data s8 = some s9 ∧
      WRITE_DATA env fuel s9.priv._RejoinPollRate.data s9 = some s10 ∧
      WRITE_DATA env fuel s10.priv._PollFailRetries.data s10 = some s11 ∧
      WRITE_DATA env fuel s11.priv._CallBack.data s11 = some s12 ∧
      WRITE_DATA env fuel s12.priv._PreCFGKeyEnable.data s12 = some s13 ∧
      WRITE_DATA env fuel s13.priv._PreCFGKey.data s13 = some s14 ∧
      WRITE_DATA env fuel s14.priv._TXPower.data s14 = some s15 ∧
      SYS_RESET_REQ env fuel s15 = some s' ∧
      calls s'.trace = calls s.trace ++
        [s.priv._NVStartUpClear.data, s1.priv._SYS_Reset.data, s2.priv._NVStartUpKeep.data,
          s3.priv._LogicalType.data, s4.priv._PanID.data, s5.priv._Channel.data,
          s6.priv._PollRate.data, s7.priv._QueuedPollRate.data,
          s8.priv._ResponsePollRate.data, s9.priv._RejoinPollRate.data,
          s10.priv._PollFailRetries.data, s11.priv._CallBack.data,
          s12.priv._PreCFGKeyEnable.data, s13.priv._PreCFGKey.data, s14.priv._TXPower.data,
          s15.priv._SYS_Reset.data] ∧
      (InBounds s' → InBounds s ∧ s'.pins = s.pins ∧ s'.priv = s.priv ∧ s1.priv = s.priv ∧
        s2.priv = s.priv ∧ s3.priv = s.priv ∧ s4.priv = s.priv ∧ s5.priv = s.priv ∧
        s6.priv = s.priv ∧ s7.priv = s.priv ∧ s8.priv = s.priv ∧ s9.priv = s.priv ∧
        s10.priv = s.priv ∧ s11.priv = s.priv ∧ s12.priv = s.priv ∧ s13.priv = s.priv ∧
        s14.priv = s.priv ∧ s15.priv = s.priv) := by
  rw [COMMISSION_eq] at h
  simp only [Option.bind_eq_some] at h
  obtain ⟨s1, h1, s2, h2, s3, h3, s4, h4, s5, h5, s6, h6, s7, h7, s8, h8, s9, h9, s10, h10,
    s11, h11, s12, h12, s13, h13, s14, h14, s15, h15, h16⟩ := h
  refine ⟨s1, s2, s3, s4, s5, s6, s7, s8, s9, s10, s11, s12, s13, s14, s15, h1, h2, h3, h4,
    h5, h6, h7, h8, h9, h10, h11, h12, h13, h14, h15, h16, ?_, ?_⟩
  · rw [SYS_RESET_REQ_calls _ _ _ _ h16, (WRITE_DATA_io _ _ _ _ _ h15).2,
      (WRITE_DATA_io _ _ _ _ _ h14).2, (WRITE_DATA_io _ _ _ _ _ h13).2,
      (WRITE_DATA_io _ _ _ _ _ h12).2, (WRITE_DATA_io _ _ _ _ _ h11).2,
      (WRITE_DATA_io _ _ _ _ _ h10).2, (WRITE_DATA_io _ _ _ _ _ h9).2,
      (WRITE_DATA_io _ _ _ _ _ h8).2, (WRITE_DATA_io _ _ _ _ _ h7).2,
      (WRITE_DATA_io _ _ _ _ _ h6).2, (WRITE_DATA_io _ _ _ _ _ h5).2,
      (WRITE_DATA_io _ _ _ _ _ h4).2, (WRITE_DATA_io _ _ _ _ _ h3).2,
      SYS_RESET_REQ_calls _ _ _ _ h2, (WRITE_DATA_io _ _ _ _ _ h1).2]
    simp
  · intro hb
    obtain ⟨b15, p16, q16, _⟩ := SYS_RESET_REQ_kept _ _ _ _ h16 hb
    obtain ⟨b14, p15, _, _, q15⟩ := WRITE_DATA_kept _ _ _ _ _ h15 b15
    obtain ⟨b13, p14, _, _, q14⟩ := WRITE_DATA_kept _ _ _ _ _ h14 b14
    obtain ⟨b12, p13, _, _, q13⟩ := WRITE_DATA_kept _ _ _ _ _ h13 b13
    obtain ⟨b11, p12, _, _, q12⟩ := WRITE_DATA_kept _ _ _ _ _ h12 b12
    obtain ⟨b10, p11, _, _, q11⟩ := WRITE_DATA_kept _ _ _ _ _ h11 b11
    obtain ⟨b9, p10, _, _, q10⟩ := WRITE_DATA_kept _ _ _ _ _ h10 b10
    obtain ⟨b8, p9, _, _, q9⟩ := WRITE_DATA_kept _ _ _ _ _ h9 b9
    obtain ⟨b7, p8, _, _, q8⟩ := WRITE_DATA_kept _ _ _ _ _ h8 b8
    obtain ⟨b6, p7, _, _, q7⟩ := WRITE_DATA_kept _ _ _ _ _ h7 b7
    obtain ⟨b5, p6, _, _, q6⟩ := WRITE_DATA_kept _ _ _ _ _ h6 b6
    obtain ⟨b4, p5, _, _, q5⟩ := WRITE_DATA_kept _ _ _ _ _ h5 b5
    obtain ⟨b3, p4, _, _, q4⟩ := WRITE_DATA_kept _ _ _ _ _ h4 b4
    obtain ⟨b2, p3, _, _, q3⟩ := WRITE_DATA_kept _ _ _ _ _ h3 b3
    obtain ⟨b1, p2, q2, _⟩ := SYS_RESET_REQ_kept _ _ _ _ h2 b2
    obtain ⟨b0, p1, _, _, q1⟩ := WRITE_DATA_kept _ _ _ _ _ h1 b1
    rw [p1] at p2
    rw [p2] at p3
    rw [p3] at p4
    rw [p4] at p5
    rw [p5] at p6
    rw [p6] at p7
    rw [p7] at p8
    rw [p8] at p9
    rw [p9] at p10
    rw [p10] at p11
    rw [p11] at p12
    rw [p12] at p13
    rw [p13] at p14
    rw [p14] at p15
    rw [p15] at p16
    refine ⟨b0, ?_, p16, p1, p2, p3, p4, p5, p6, p7, p8, p9, p10, p11, p12, p13, p14, p15⟩
    rw [q16, q15, q14, q13, q12, q11, q10, q9, q8, q7, q6, q5, q4, q3, q2, q1]

/-- A commissioning run that stores nothing past the buffer hands to `WRITE_DATA` the
sixteen arrays as they stood when it started, and leaves them as they were. -/
theorem COMMISSION_calls (env : Env) (fuel : Nat) (s s' : CC2530)
    (h : COMMISSION env fuel s = some s') (hb : InBounds s') :
    InBounds s ∧ s'.priv = s.priv ∧ s'.pins = s.pins ∧
    calls s'.trace = calls s.trace ++ commissionFrames s.priv := by
  obtain ⟨s1, s2, s3, s4, s5, s6, s7, s8, s9, s10, s11, s12, s13, s14, s15, _, _, _, _, _, _,
    _, _, _, _, _, _, _, _, _, _, c, k⟩ := COMMISSION_steps _ _ _ _ h
  obtain ⟨b0, q, p, p1, p2, p3, p4, p5, p6, p7, p8, p9, p10, p11, p12, p13, p14, p15⟩ := k hb
  refine ⟨b0, p, q, ?_⟩
  rw [c, p1, p2, p3, p4, p5, p6, p7, p8, p9, p10, p11, p12, p13, p14, p15]
  rfl

/-! ## Commissioning and the handshake line -/

theorem InBounds_of_nil (s : CC2530) (h : storeIdx s.trace = []) : InBounds s := by
  unfold InBounds
  rw [h]
  intro i hi
  simp at hi

theorem lineSS_dataRequest (env : Env) (fuel : Nat) (D V : List Nat) (N L : Nat)
    (s : CC2530) (r : Nat × CC2530)
    (h : ((waitSRDY env HIGH fuel (digitalWrite_SS_MRDY LOW s)).bind fun s2 =>
      (waitSRDY env LOW fuel
        (sendLoop env V L 0 (sendLoop env D N 0 (emit .spiBegin s2)))).bind fun s5 =>
          some (L, SRSP env s5)) = some r) :
    lineSS r.2.trace = some HIGH := by
  simp only [Option.bind_eq_some] at h
  obtain ⟨s2, _, s5, _, h5⟩ := h
  simp only [Option.some.injEq] at h5
  rw [← h5]
  exact lineSS_SRSP _ _

/-- The last write of `SRSP` goes to the pin `_SS_MRDY` named on entry when the reply
is not stored past the buffer. -/
theorem SRSP_line (env : Env) (s : CC2530) (hb : InBounds (SRSP env s)) :
    lineLevel (s.pins.get 3) (SRSP env s).pinLog = some HIGH := by
  have hl : u8 (env.miso s.nXfer) ≤ 61 := by
    apply len_le_of_rxCoreTrace
    intro i hi
    apply hb
    rw [(SRSP_fields env s).2.2.2.2.2.2.2.1]
    simp only [storeIdx_append]
    simp [hi]
  rw [(SRSP_obj env s hl).2.2.2.2]
  exact lineLevel_append_same _ _ _

theorem inlineSREQ_line (env : Env) (fuel : Nat) (A : List Nat) (N : Nat) (s s' : CC2530)
    (h : inlineSREQ env fuel A N s = some s') (hb : InBounds s') :
    lineLevel (s.pins.get 3) s'.pinLog = some HIGH := by
  obtain ⟨_, hl⟩ := inlineSREQ_inb _ _ _ _ _ _ h hb
  have e : s.pinLog ++ [(s.pins.get 3, LOW), (s.pins.get 3, HIGH)] =
      s.pinLog ++ [(s.pins.get 3, LOW)] ++ [(s.pins.get 3, HIGH)] := by simp
  rw [(inlineSREQ_obj _ _ _ _ _ _ h hl).2.2.2.2, e]
  exact lineLevel_append_same _ _ _

theorem dataRequest_line (env : Env) (fuel : Nat) (D V : List Nat) (N L : Nat)
    (s : CC2530) (r : Nat × CC2530)
    (h : ((waitSRDY env HIGH fuel (digitalWrite_SS_MRDY LOW s)).bind fun s2 =>
      (waitSRDY env LOW fuel
        (sendLoop env V L 0 (sendLoop env D N 0 (emit .spiBegin s2)))).bind fun s5 =>
          some (L, SRSP env s5)) = some r) (hb : InBounds r.2) :
    lineLevel (s.pins.get 3) r.2.pinLog = some HIGH := by
  simp only [Option.bind_eq_some] at h
  obtain ⟨s2, h2, s5, h5, h6⟩ := h
  obtain ⟨k1, _, _, _, e2⟩ := waitSRDY_some _ _ _ _ _ h2
  obtain ⟨k2, _, _, _, e5⟩ := waitSRDY_some _ _ _ _ _ h5
  simp only [Option.some.injEq] at h6
  rw [← h6] at hb ⊢
  have p : s5.pins = s.pins := by
    rw [e5, sendLoop_eq, sendLoop_eq, e2]
    rfl
  rw [← p]
  exact SRSP_line env s5 hb

set_option maxRecDepth 100000 in
/-- A run of `WRITE_DATA(_SYS_Reset)` on the default object whose reply has length byte
67 and a zero payload: the pin number `_SS_MRDY`, the writes of output pins and the
last call that writes SS/MRDY, on return. -/
theorem long_reply_run :
    (WRITE_DATA (envOf [LOW, HIGH] [0, 0, 0, 0, 67] []) 2 [0x01, 0x41, 0x00, 0x00]
      CC2530.init).map (fun s => (s.pins.get 3, s.pinLog, lineSS s.trace)) =
      some (0, [(10, LOW), (0, HIGH)], some HIGH) := rfl

/-- C5 (counterexample): `WRITE_DATA(_SYS_Reset)` on the default object, whose pin
number `_SS_MRDY` is 10, with a reply of length byte 67 and a zero payload: the store of
payload byte 66 at `ReceivedBytes[69]` falls on `_SS_MRDY` and makes it 0, so the
closing `digitalWrite(_SS_MRDY, HIGH)` writes pin 0; the last write to pin 10 is the
LOW that opened the exchange, and the line is low on return. -/
theorem C5_line_left_low_by_long_reply :
    ∃ s', WRITE_DATA (envOf [LOW, HIGH] [0, 0, 0, 0, 67] []) 2 [0x01, 0x41, 0x00, 0x00]
        CC2530.init = some s' ∧
      CC2530.init.pins.get 3 = 10 ∧ s'.pins.get 3 = 0 ∧
      s'.pinLog = [(10, LOW), (0, HIGH)] ∧ lineLevel 10 s'.pinLog = some LOW ∧
      lineSS s'.trace = some HIGH := by
  have e := long_reply_run
  cases h : WRITE_DATA (envOf [LOW, HIGH] [0, 0, 0, 0, 67] []) 2 [0x01, 0x41, 0x00, 0x00]
      CC2530.init with
  | none =>
    rw [h] at e
    simp at e
  | some s' =>
    rw [h] at e
    simp only [Option.map_some', Option.some.injEq, Prod.mk.injEq] at e
    obtain ⟨e1, e2, e3⟩ := e
    refine ⟨s', rfl, by decide, e1, e2, ?_, e3⟩
    rw [e2]
    decide

/-- C5 (amended): every exchange that returns ends with the call
`digitalWrite(_SS_MRDY, HIGH)`, whatever bytes the peer shifts in (any reply length,
zero included): after `SRSP`, after a `WRITE_DATA` that returns, after a `POLL` that
returns (with or without iterations) and after each request built inline
(`AF_REGISTER`, `ZDO_MGMT_LEAVE_REQ`, `ZDO_END_DEVICE_BIND_REQ`, `AF_DATA_REQUEST`,
`AF_DATA_REQUEST_EXT`). When no frame was stored past the end of the receive buffer
(every length byte at most 61), that call writes the pin the object named `_SS_MRDY` on
entry, so the last write to the SS/MRDY line drives it HIGH. -/
theorem C5_line_high_on_return (env : Env) (fuel : Nat) (s : CC2530) :
    (lineSS (SRSP env s).trace = some HIGH ∧
      (InBounds (SRSP env s) → lineLevel (s.pins.get 3) (SRSP env s).pinLog = some HIGH)) ∧
    (∀ Data s', WRITE_DATA env fuel Data s = some s' → lineSS s'.trace = some HIGH ∧
      (InBounds s' → lineLevel (s.pins.get 3) s'.pinLog = some HIGH)) ∧
    (∀ s', POLL env fuel s = some s' → lineSS s'.trace = some HIGH ∧
      (InBounds s' → lineLevel (s.pins.get 3) s'.pinLog = some HIGH)) ∧
    (∀ EndPoint s', AF_REGISTER env fuel EndPoint s = some s' → lineSS s'.trace = some HIGH ∧
      (InBounds s' → lineLevel (s.pins.get 3) s'.pinLog = some HIGH)) ∧
    (∀ DstAddr IEEEAddr s', ZDO_MGMT_LEAVE_REQ env fuel DstAddr IEEEAddr s = some s' →
      lineSS s'.trace = some HIGH ∧
      (InBounds s' → lineLevel (s.pins.get 3) s'.pinLog = some HIGH)) ∧
    (∀ EndPoint s', ZDO_END_DEVICE_BIND_REQ env fuel EndPoint s = some s' →
      lineSS s'.trace = some HIGH ∧
      (InBounds s' → lineLevel (s.pins.get 3) s'.pinLog = some HIGH)) ∧
    (∀ a0 a1 Value Length r, AF_DATA_REQUEST env fuel a0 a1 Value Length s = some r →
      lineSS r.2.trace = some HIGH ∧
      (InBounds r.2 → lineLevel (s.pins.get 3) r.2.pinLog = some HIGH)) ∧
    (∀ mode IEEEAddr Value Length r,
      AF_DATA_REQUEST_EXT env fuel mode IEEEAddr Value Length s = some r →
      lineSS r.2.trace = some HIGH ∧
      (InBounds r.2 → lineLevel (s.pins.get 3) r.2.pinLog = some HIGH)) := by
  refine ⟨⟨lineSS_SRSP env s, SRSP_line env s⟩, ?_, ?_, ?_, ?_, ?_, ?_, ?_⟩
  · intro Data s' h
    rw [WRITE_DATA_eq] at h
    exact ⟨lineSS_inlineSREQ _ _ _ _ _ _ h,
      inlineSREQ_line _ _ _ _ (emit (.writeData Data) s) _ h⟩
  · intro s' h
    refine ⟨(POLL_loop_kept _ _ _ _ _ h).2.2.2, fun hb => ?_⟩
    obtain ⟨_, _, _, _, l, e⟩ := POLL_loop_inb _ _ _ _ _ h hb
    rw [e]
    exact lineLevel_append_same _ _ _
  · intro EndPoint s' h
    exact ⟨lineSS_inlineSREQ _ _ _ _ _ _ h, inlineSREQ_line _ _ _ _ _ _ h⟩
  · intro DstAddr IEEEAddr s' h
    exact ⟨lineSS_inlineSREQ _ _ _ _ _ _ h, inlineSREQ_line _ _ _ _ _ _ h⟩
  · intro EndPoint s' h
    unfold ZDO_END_DEVICE_BIND_REQ at h
    simp only [Option.bind_eq_some] at h
    obtain ⟨r1, h1, r2, h2, h3⟩ := h
    refine ⟨lineSS_inlineSREQ _ _ _ _ _ _ h3, fun hb => ?_⟩
    obtain ⟨b2, _⟩ := inlineSREQ_inb _ _ _ _ _ _ h3 hb
    unfold ZB_GET_IEEE_ADDRESS at h2
    unfold ZB_GET_SHORT_ADDRESS at h1
    simp only [Option.bind_eq_some, Option.some.injEq] at h1 h2
    obtain ⟨t1, g1, e1⟩ := h1
    obtain ⟨t2, g2, e2⟩ := h2
    subst e1
    subst e2
    obtain ⟨b1, _, _, _, p2⟩ := WRITE_DATA_kept _ _ _ _ _ g2 b2
    obtain ⟨_, _, _, _, p1⟩ := WRITE_DATA_kept _ _ _ _ _ g1 b1
    have e := inlineSREQ_line _ _ _ _ _ _ h3 hb
    have p : t2.pins = s.pins := by rw [p2]; exact p1
    rw [← p]
    exact e
  · intro a0 a1 Value Length r h
    exact ⟨lineSS_dataRequest _ _ _ _ _ _ _ _ h, dataRequest_line _ _ _ _ _ _ _ _ h⟩
  · intro mode IEEEAddr Value Length r h
    exact ⟨lineSS_dataRequest _ _ _ _ _ _ _ _ h, dataRequest_line _ _ _ _ _ _ _ _ h⟩

/-- C5 on the default object with a peer that answers at once: `WRITE_DATA(_SYS_Reset)`
returns, and so does a `POLL` on a peer with one queued frame of length zero; nothing
is stored, and both leave pin 10, the SS/MRDY line, high. -/
theorem C5_line_high_on_return_witness :
    (∃ s', WRITE_DATA envPrompt 2 [0x01, 0x41, 0x00, 0x00] CC2530.init = some s' ∧
      lineSS s'.trace = some HIGH ∧ lineLevel 10 s'.pinLog = some HIGH) ∧
    (∃ s', POLL (envOf [LOW, HIGH, HIGH] [] []) 2 CC2530.init = some s' ∧
      lineSS s'.trace = some HIGH ∧ lineLevel 10 s'.pinLog = some HIGH) :=
  ⟨⟨_, rfl, ((C5_line_high_on_return envPrompt 2 CC2530.init).2.1
        [0x01, 0x41, 0x00, 0x00] _ rfl).1,
      ((C5_line_high_on_return envPrompt 2 CC2530.init).2.1
        [0x01, 0x41, 0x00, 0x00] _ rfl).2 (InBounds_of_nil _ rfl)⟩,
    ⟨_, rfl, ((C5_line_high_on_return (envOf [LOW, HIGH, HIGH] [] []) 2
        CC2530.init).2.2.1 _ rfl).1,
      ((C5_line_high_on_return (envOf [LOW, HIGH, HIGH] [] []) 2
        CC2530.init).2.2.1 _ rfl).2 (InBounds_of_nil _ rfl)⟩⟩

/-! ## Draining the queue -/

/-- Events of one iteration of the `POLL` loop, test included, when SRDY is read high
at once in the inner wait; the object had made `c` transfers before. -/
def pollSegment (env : Env) (c : Nat) : List Event :=
  [.srdy LOW, .ss LOW, .spiBegin, .xfer 0 (u8 (env.miso c)), .xfer 0 (u8 (env.miso (c + 1))),
    .xfer 0 (u8 (env.miso (c + 2))), .srdy HIGH] ++ rxCoreTrace env (c + 3)

theorem isPollExchange_pollSegment (env : Env) (c : Nat) :
    isPollExchange (pollSegment env c) = true := by
  simp only [pollSegment, List.cons_append, List.nil_append, isPollExchange]
  exact all_isRx_rxCoreTrace env _

theorem exchanges_of_isPollExchange (seg : List Event) (h : isPollExchange seg = true) :
    exchanges seg = 1 := by
  unfold isPollExchange at h
  split at h
  · simp [exchanges, exchanges_of_all_isRx _ h]
  · simp at h

theorem exchanges_join (segs : List (List Event))
    (h : ∀ seg, seg ∈ segs → isPollExchange seg = true) :
    exchanges segs.flatten = segs.length := by
  induction segs with
  | nil => simp [exchanges]
  | cons a as ih =>
    have h1 := exchanges_of_isPollExchange a (h a (by simp))
    have h2 := ih (fun seg hs => h seg (by simp [hs]))
    simp only [List.flatten_cons, exchanges_append, h1, h2, List.length_cons]
    omega

theorem POLL_loop_step (env : Env) (inner fuel : Nat) (s : CC2530)
    (h1 : env.srdy s.nRead = LOW) (h2 : env.srdy (s.nRead + 1) = HIGH) :
    ∃ s1, POLL_loop env (inner + 1) (fuel + 1) s = POLL_loop env (inner + 1) fuel s1 ∧
      s1.trace = s.trace ++ pollSegment env s.nXfer ∧ s1.nRead = s.nRead + 2 := by
  refine ⟨pollRecv env { s with
      nRead := s.nRead + 1 + 1
      nXfer := s.nXfer + 3
      trace := s.trace ++ [.srdy LOW] ++ [.ss LOW, .spiBegin, .xfer 0 (u8 (env.miso s.nXfer)),
        .xfer 0 (u8 (env.miso (s.nXfer + 1))), .xfer 0 (u8 (env.miso (s.nXfer + 2)))] ++
        [.srdy (!LOW)]
      pinLog := s.pinLog ++ [(s.pins.get 3, LOW)] }, ?_, ?_, ?_⟩
  · rw [POLL_loop]
    simp only [digitalRead_SRDY, h1, if_true]
    rw [POLL_body_eq, pollSend_eq]
    rw [waitSRDY_now _ _ _ _ (by simpa using h2)]
    simp
  · simp [pollRecv_fields, pollSegment]
  · simp [pollRecv_fields]

theorem POLL_loop_drains (env : Env) (n : Nat) :
    ∀ (inner fuel : Nat) (s : CC2530), n < fuel →
      (∀ k, k < n → env.srdy (s.nRead + 2 * k) = LOW ∧ env.srdy (s.nRead + 2 * k + 1) = HIGH) →
      env.srdy (s.nRead + 2 * n) = HIGH →
      ∃ (s' : CC2530) (segs : List (List Event)), POLL_loop env (inner + 1) fuel s = some s' ∧ segs.length = n ∧
        (∀ seg, seg ∈ segs → isPollExchange seg = true) ∧
        s'.trace = s.trace ++ segs.flatten ++ [.srdy HIGH, .spiEnd, .ss HIGH] ∧
        s'.nRead = s.nRead + 2 * n + 1 ∧
        (n = 0 → s'.nXfer = s.nXfer ∧ s'.ReceivedBytes = s.ReceivedBytes ∧
          s'.NewData = s.NewData ∧ s'.AFDataIncoming = s.AFDataIncoming) := by
  induction n with
  | zero =>
    intro inner fuel s hf _ hend
    obtain ⟨f, rfl⟩ : ∃ f, fuel = f + 1 := ⟨fuel - 1, by omega⟩
    have hend2 : env.srdy s.nRead = true := by simpa using hend
    refine ⟨digitalWrite_SS_MRDY HIGH (emit .spiEnd (digitalRead_SRDY env s).2), [],
      ?_, rfl, ?_, ?_, ?_, ?_⟩
    · rw [POLL_loop]
      simp [digitalRead_SRDY, hend2]
    · intro seg hs; simp at hs
    · simp [digitalWrite_SS_MRDY, emit, digitalRead_SRDY, hend2]
    · simp [digitalWrite_SS_MRDY, emit, digitalRead_SRDY]
    · intro _
      simp [digitalWrite_SS_MRDY, emit, digitalRead_SRDY]
  | succ n ih =>
    intro inner fuel s hf hq hend
    obtain ⟨f, rfl⟩ : ∃ f, fuel = f + 1 := ⟨fuel - 1, by omega⟩
    have q0 := hq 0 (by omega)
    obtain ⟨s1, e1, t1, r1⟩ := POLL_loop_step env inner f s (by simpa using q0.1)
      (by simpa using q0.2)
    have hq1 : ∀ k, k < n →
        env.srdy (s1.nRead + 2 * k) = LOW ∧ env.srdy (s1.nRead + 2 * k + 1) = HIGH := by
      intro k hk
      have := hq (k + 1) (by omega)
      rw [r1]
      have a : s.nRead + 2 + 2 * k = s.nRead + 2 * (k + 1) := by omega
      rw [a]
      exact this
    have hend1 : env.srdy (s1.nRead + 2 * n) = HIGH := by
      rw [r1]
      have a : s.nRead + 2 + 2 * n = s.nRead + 2 * (n + 1) := by omega
      rw [a]
      exact hend
    obtain ⟨s', segs, g1, g2, g3, g4, g5, _⟩ := ih inner f s1 (by omega) hq1 hend1
    refine ⟨s', pollSegment env s.nXfer :: segs, ?_, ?_, ?_, ?_, ?_, ?_⟩
    · rw [e1]; exact g1
    · simp [g2]
    · intro seg hs
      rcases List.mem_cons.mp hs with h | h
      · rw [h]; exact isPollExchange_pollSegment env _
      · exact g3 seg h
    · rw [g4, t1]
      simp [List.append_assoc]
    · rw [g5, r1]; omega
    · intro h0; omega

/-- C6: with `n` frames queued at the peer (SRDY read low at each of the next `n`
loop tests, high at the inner wait that follows each, and high at the test after
them), `POLL` with more than `n` units of fuel returns; what it added to the history
is exactly `n` receive-only exchanges, each "SRDY read low, SS/MRDY low, transaction
begun, three zero bytes sent, SRDY read high, then only transfers of zero and buffer
stores", followed by the final test reading SRDY high, `SPI.endTransaction()` and
SS/MRDY high; for `n = 0` no byte is clocked and buffer and flags keep their values. -/
theorem C6_poll_drains_queue (env : Env) (n fuel : Nat) (s : CC2530) (hfuel : n < fuel)
    (hq : ∀ k, k < n → env.srdy (s.nRead + 2 * k) = LOW ∧ env.srdy (s.nRead + 2 * k + 1) = HIGH)
    (hend : env.srdy (s.nRead + 2 * n) = HIGH) :
    ∃ (s' : CC2530) (segs : List (List Event)), POLL env fuel s = some s' ∧ segs.length = n ∧
      (∀ seg, seg ∈ segs → isPollExchange seg = true) ∧
      s'.trace = s.trace ++ segs.flatten ++ [.srdy HIGH, .spiEnd, .ss HIGH] ∧
      exchanges s'.trace = exchanges s.trace + n ∧
      s'.nRead = s.nRead + 2 * n + 1 ∧
      (n = 0 → s'.nXfer = s.nXfer ∧ s'.ReceivedBytes = s.ReceivedBytes ∧
        s'.NewData = s.NewData ∧ s'.AFDataIncoming = s.AFDataIncoming) := by
  obtain ⟨f, rfl⟩ : ∃ f, fuel = f + 1 := ⟨fuel - 1, by omega⟩
  obtain ⟨s', segs, g1, g2, g3, g4, g5, g6⟩ := POLL_loop_drains env n f (f + 1) s hfuel hq hend
  refine ⟨s', segs, g1, g2, g3, g4, ?_, g5, g6⟩
  rw [g4]
  simp only [exchanges_append, exchanges_join segs g3, g2, exchanges]
  omega

/-- C6 with two frames queued (one of length 2, one of length 0) on the default
object: `POLL` returns after two exchanges. -/
theorem C6_poll_drains_queue_witness :
    ∃ s', POLL (envOf [LOW, HIGH, LOW, HIGH, HIGH] [0, 0, 0, 2, 0x45, 0xC0, 9, 0] []) 3
        CC2530.init = some s' ∧
      exchanges s'.trace = 2 ∧ s'.nRead = 5 := by
  obtain ⟨s', segs, g1, _, _, _, g5, g6, _⟩ :=
    C6_poll_drains_queue (envOf [LOW, HIGH, LOW, HIGH, HIGH] [0, 0, 0, 2, 0x45, 0xC0, 9, 0] []) 2 3
      CC2530.init (by decide) (by decide) (by decide)
  exact ⟨s', g1, g5, g6⟩


/-! ## What a received frame does to the buffer and the flags -/

/-- Where the body of `POLL` reads the header: three transfers after its start. -/
theorem POLL_body_recv (env : Env) (fuel : Nat) (s s' : CC2530)
    (h : POLL_body env fuel s = some s') :
    ∃ s3, s' = pollRecv env s3 ∧ s3.nXfer = s.nXfer + 3 ∧
      s3.ReceivedBytes = s.ReceivedBytes ∧ s3.NewData = s.NewData ∧
      s3.AFDataIncoming = s.AFDataIncoming := by
  obtain ⟨k, e⟩ := POLL_body_some env fuel s s' h
  exact ⟨_, e, rfl, rfl, rfl, rfl⟩

theorem POLL_body_zero (env : Env) (fuel : Nat) (s s' : CC2530)
    (h : POLL_body env fuel s = some s') (h0 : u8 (env.miso (s.nXfer + 3)) = 0) :
    s'.NewData = s.NewData ∧ s'.AFDataIncoming = s.AFDataIncoming ∧
      s'.ReceivedBytes = s.ReceivedBytes := by
  obtain ⟨s3, e, x, rb, nd, af⟩ := POLL_body_recv env fuel s s' h
  rw [← x] at h0
  obtain ⟨f1, f2⟩ := pollRecv_flags env s3
  have g : ¬ u8 (env.miso s3.nXfer) > 0 := by omega
  have g2 : ¬ (u8 (env.miso s3.nXfer) > 0 ∧ u8 (env.miso (s3.nXfer + 1)) = 0x44 ∧
      u8 (env.miso (s3.nXfer + 2)) = 0x81) := fun c => g c.1
  rw [if_neg g] at f1
  rw [if_neg g2, (rxCore_fields env s3 (by omega)).2.1] at f2
  rw [e, f1, f2, (pollRecv_fields env s3).1, rxCore_zero env s3 h0]
  exact ⟨nd, af, rb⟩

/-- C7: a receive whose length byte is 0 stores nothing and sets no flag, whatever
the two opcode bytes are: after such an iteration of `POLL`, and after such an `SRSP`,
`NewData`, `AFDataIncoming` and `ReceivedBytes` are what they were. -/
theorem C7_zero_length_changes_nothing (env : Env) (fuel : Nat) (s : CC2530) :
    (∀ s', POLL_body env fuel s = some s' → u8 (env.miso (s.nXfer + 3)) = 0 →
      s'.NewData = s.NewData ∧ s'.AFDataIncoming = s.AFDataIncoming ∧
      s'.ReceivedBytes = s.ReceivedBytes) ∧
    (u8 (env.miso s.nXfer) = 0 →
      (SRSP env s).NewData = s.NewData ∧ (SRSP env s).AFDataIncoming = s.AFDataIncoming ∧
      (SRSP env s).ReceivedBytes = s.ReceivedBytes) := by
  constructor
  · intro s' h h0
    exact POLL_body_zero env fuel s s' h h0
  · intro h0
    obtain ⟨h1, h2, _⟩ := SRSP_obj env s (by omega)
    exact ⟨h1, h2, by rw [(SRSP_fields env s).2.2.2.2.2.2.1, rxCore_zero env s h0]⟩

/-- C7 on an object with both flags clear: a header `00 44 81` read by an iteration
of `POLL` and by `SRSP` leaves flags and buffer as they were. -/
theorem C7_zero_length_changes_nothing_witness :
    (∃ s', POLL_body (envOf [HIGH] [0, 0, 0, 0, 0x44, 0x81] []) 1 CC2530.init = some s' ∧
      s'.NewData = false ∧ s'.AFDataIncoming = false ∧
      s'.ReceivedBytes = CC2530.init.ReceivedBytes) ∧
    ((SRSP (envOf [] [0, 0x44, 0x81] []) CC2530.init).NewData = false ∧
      (SRSP (envOf [] [0, 0x44, 0x81] []) CC2530.init).AFDataIncoming = false ∧
      (SRSP (envOf [] [0, 0x44, 0x81] []) CC2530.init).ReceivedBytes =
        CC2530.init.ReceivedBytes) :=
  ⟨⟨_, rfl, (C7_zero_length_changes_nothing (envOf [HIGH] [0, 0, 0, 0, 0x44, 0x81] []) 1
      CC2530.init).1 _ rfl (by decide)⟩,
    (C7_zero_length_changes_nothing (envOf [] [0, 0x44, 0x81] []) 0 CC2530.init).2 (by decide)⟩

/-- C8 (counterexample): on the default object with SRDY read low, high, low, high,
high and only zero bytes shifted in, the first iteration of `POLL` reads a header of
length 0 and has performed one exchange; `POLL` nevertheless goes on, reads SRDY low
and performs a second exchange before it returns. -/
theorem C8_zero_length_does_not_end_poll :
    ∃ s1 s',
      POLL_body (envOf [LOW, HIGH, LOW, HIGH, HIGH] [] []) 3
        (digitalRead_SRDY (envOf [LOW, HIGH, LOW, HIGH, HIGH] [] []) CC2530.init).2 = some s1 ∧
      u8 ((envOf [LOW, HIGH, LOW, HIGH, HIGH] [] []).miso 3) = 0 ∧
      exchanges s1.trace = 1 ∧
      POLL (envOf [LOW, HIGH, LOW, HIGH, HIGH] [] []) 3 CC2530.init = some s' ∧
      exchanges s'.trace = 2 :=
  ⟨_, _, rfl, by decide, by decide, rfl, by decide⟩

/-- C8 (amended): a header of length 0 does not by itself end the poll loop. After
an iteration of `POLL` that read length 0, the loop goes back to its test: if SRDY is
then read high, `POLL` ends the transaction, drives SS/MRDY high and returns with no
further exchange; if SRDY is read low, it performs another receive-only exchange.
The iteration that read length 0 has set no flag. -/
theorem C8_poll_ends_on_SRDY_high (env : Env) (inner fuel : Nat) (s s1 : CC2530)
    (h : POLL_body env inner s = some s1) (h0 : u8 (env.miso (s.nXfer + 3)) = 0) :
    (s1.NewData = s.NewData ∧ s1.AFDataIncoming = s.AFDataIncoming) ∧
    (env.srdy s1.nRead = HIGH →
      ∃ s', POLL_loop env inner (fuel + 1) s1 = some s' ∧
        exchanges s'.trace = exchanges s1.trace ∧ lineSS s'.trace = some HIGH) ∧
    (env.srdy s1.nRead = LOW →
      POLL_loop env inner (fuel + 1) s1 =
        (POLL_body env inner (digitalRead_SRDY env s1).2).bind (POLL_loop env inner fuel) ∧
      ∀ s', POLL_loop env inner (fuel + 1) s1 = some s' →
        exchanges s1.trace + 1 ≤ exchanges s'.trace) := by
  refine ⟨⟨(POLL_body_zero env inner s s1 h h0).1, (POLL_body_zero env inner s s1 h h0).2.1⟩,
    ?_, ?_⟩
  · intro hh
    refine ⟨digitalWrite_SS_MRDY HIGH (emit .spiEnd (digitalRead_SRDY env s1).2), ?_, ?_, ?_⟩
    · rw [POLL_loop]
      simp [digitalRead_SRDY, hh]
    · simp [digitalWrite_SS_MRDY, emit, digitalRead_SRDY, exchanges_append, exchanges]
    · simp only [digitalWrite_SS_MRDY, emit]
      exact lineSS_append_ss _ _
  · intro hl
    have e : POLL_loop env inner (fuel + 1) s1 =
        (POLL_body env inner (digitalRead_SRDY env s1).2).bind (POLL_loop env inner fuel) := by
      rw [POLL_loop]
      simp [digitalRead_SRDY, hl]
    refine ⟨e, ?_⟩
    intro s' hs
    rw [e] at hs
    simp only [Option.bind_eq_some] at hs
    obtain ⟨s2, b1, b2⟩ := hs
    obtain ⟨_, _, a4, _⟩ := POLL_body_kept _ _ _ _ b1
    obtain ⟨_, _, c4, _⟩ := POLL_loop_kept _ _ _ _ _ b2
    rw [a4] at c4
    simp only [digitalRead_SRDY, exchanges_append, exchanges] at c4
    omega

/-- C8 (amended) on the default object: after a first iteration that read length 0,
SRDY read high lets `POLL` return with no further exchange. -/
theorem C8_poll_ends_on_SRDY_high_witness :
    ∃ s1, POLL_body (envOf [HIGH, HIGH] [] []) 1 CC2530.init = some s1 ∧
      ∃ s', POLL_loop (envOf [HIGH, HIGH] [] []) 1 1 s1 = some s' ∧
        exchanges s'.trace = exchanges s1.trace ∧ lineSS s'.trace = some HIGH :=
  ⟨_, rfl, (C8_poll_ends_on_SRDY_high (envOf [HIGH, HIGH] [] []) 1 0 CC2530.init _ rfl
    (by decide)).2.1 (by decide)⟩


theorem rxCore_frame (env : Env) (s : CC2530)
    (h1 : 1 ≤ u8 (env.miso s.nXfer)) (h2 : u8 (env.miso s.nXfer) ≤ 61) :
    (rxCore env s).ReceivedBytes.get 0 = u8 (env.miso s.nXfer) ∧
    (rxCore env s).ReceivedBytes.get 1 = u8 (env.miso (s.nXfer + 1)) ∧
    (rxCore env s).ReceivedBytes.get 2 = u8 (env.miso (s.nXfer + 2)) ∧
    (∀ i, i < u8 (env.miso s.nXfer) →
      (rxCore env s).ReceivedBytes.get (3 + i) = u8 (env.miso (s.nXfer + 3 + i))) ∧
    (∀ j, u8 (env.miso s.nXfer) + 3 ≤ j →
      (rxCore env s).ReceivedBytes.get j = s.ReceivedBytes.get j) := by
  have g := fun j => rxCore_get env s j (by omega) h2
  refine ⟨?_, ?_, ?_, ?_, ?_⟩
  · rw [g 0, if_pos (by omega)]; rfl
  · rw [g 1, if_pos (by omega)]
  · rw [g 2, if_pos (by omega)]
  · intro i hi
    rw [g (3 + i), if_pos (by omega), Nat.add_assoc]
  · intro j hj
    rw [g j, if_neg (by omega)]

/-- C9: a receive with length byte `Len` in 1..61 leaves in the buffer
`ReceivedBytes[0] = Len`, `[1] = Cmd0`, `[2] = Cmd1`, `[3+i] = p[i]` for `i < Len`, and
every cell from index `Len+3` on as it was; this for one iteration of `POLL` (the
header is read after the three poll bytes, at sample `nXfer + 3`) and for `SRSP` (the
header is read at sample `nXfer`). -/
theorem C9_buffer_after_receive (env : Env) (fuel : Nat) (s : CC2530) :
    (∀ s', POLL_body env fuel s = some s' →
      1 ≤ u8 (env.miso (s.nXfer + 3)) → u8 (env.miso (s.nXfer + 3)) ≤ 61 →
      s'.ReceivedBytes.get 0 = u8 (env.miso (s.nXfer + 3)) ∧
      s'.ReceivedBytes.get 1 = u8 (env.miso (s.nXfer + 3 + 1)) ∧
      s'.ReceivedBytes.get 2 = u8 (env.miso (s.nXfer + 3 + 2)) ∧
      (∀ i, i < u8 (env.miso (s.nXfer + 3)) →
        s'.ReceivedBytes.get (3 + i) = u8 (env.miso (s.nXfer + 3 + 3 + i))) ∧
      (∀ j, u8 (env.miso (s.nXfer + 3)) + 3 ≤ j →
        s'.ReceivedBytes.get j = s.ReceivedBytes.get j)) ∧
    (1 ≤ u8 (env.miso s.nXfer) → u8 (env.miso s.nXfer) ≤ 61 →
      (SRSP env s).ReceivedBytes.get 0 = u8 (env.miso s.nXfer) ∧
      (SRSP env s).ReceivedBytes.get 1 = u8 (env.miso (s.nXfer + 1)) ∧
      (SRSP env s).ReceivedBytes.get 2 = u8 (env.miso (s.nXfer + 2)) ∧
      (∀ i, i < u8 (env.miso s.nXfer) →
        (SRSP env s).ReceivedBytes.get (3 + i) = u8 (env.miso (s.nXfer + 3 + i))) ∧
      (∀ j, u8 (env.miso s.nXfer) + 3 ≤ j →
        (SRSP env s).ReceivedBytes.get j = s.ReceivedBytes.get j)) := by
  constructor
  · intro s' h h1 h2
    obtain ⟨s3, e, x, rb, _, _⟩ := POLL_body_recv env fuel s s' h
    rw [← x] at h1 h2 ⊢
    rw [e, (pollRecv_fields env s3).1, ← rb]
    exact rxCore_frame env s3 h1 h2
  · intro h1 h2
    rw [(SRSP_fields env s).2.2.2.2.2.2.1]
    exact rxCore_frame env s h1 h2

/-- C9 on the default object: the frame `02 45 C0 09 00` received by one iteration of
`POLL` and by `SRSP` fills cells 0..4 and leaves cell 5 as it was. -/
theorem C9_buffer_after_receive_witness :
    (∃ s', POLL_body (envOf [HIGH] [0, 0, 0, 2, 0x45, 0xC0, 9, 0] []) 1 CC2530.init = some s' ∧
      s'.ReceivedBytes.get 0 = 2 ∧ s'.ReceivedBytes.get 1 = 0x45 ∧
      s'.ReceivedBytes.get 2 = 0xC0 ∧ s'.ReceivedBytes.get 3 = 9 ∧
      s'.ReceivedBytes.get 5 = CC2530.init.ReceivedBytes.get 5) ∧
    ((SRSP (envOf [] [2, 0x45, 0xC0, 9, 0] []) CC2530.init).ReceivedBytes.get 0 = 2 ∧
      (SRSP (envOf [] [2, 0x45, 0xC0, 9, 0] []) CC2530.init).ReceivedBytes.get 3 = 9) := by
  have a := (C9_buffer_after_receive (envOf [HIGH] [0, 0, 0, 2, 0x45, 0xC0, 9, 0] []) 1
    CC2530.init).1 _ rfl (by decide) (by decide)
  have b := (C9_buffer_after_receive (envOf [] [2, 0x45, 0xC0, 9, 0] []) 0 CC2530.init).2
    (by decide) (by decide)
  exact ⟨⟨_, rfl, a.1, a.2.1, a.2.2.1, a.2.2.2.1 0 (by decide), a.2.2.2.2 5 (by decide)⟩,
    b.1, b.2.2.2.1 0 (by decide)⟩

/-- C10 (counterexample): on the default object, `WRITE_DATA(_SYS_Reset)` whose reply is
the frame `01 61 00 07` (length byte 1) returns with `NewData` still false. -/
theorem C10_SRSP_does_not_set_NewData :
    ∃ s', WRITE_DATA (envOf [LOW, HIGH] [0, 0, 0, 0, 1, 0x61, 0x00, 0x07] []) 1
        [0x01, 0x41, 0x00, 0x00] CC2530.init = some s' ∧
      0 < u8 ((envOf [LOW, HIGH] [0, 0, 0, 0, 1, 0x61, 0x00, 0x07] []).miso 4) ∧
      s'.ReceivedBytes.get 0 = 1 ∧ s'.NewData = false :=
  ⟨_, rfl, by decide, by decide, by decide⟩

/-- C10 (amended): `NewData` is true after an iteration of `POLL` that received a
frame with a non-zero length byte; a synchronous exchange (`WRITE_DATA`, which ends
in `SRSP`) whose reply has a length byte of at most 61 leaves `NewData` as it was. -/
theorem C10_NewData_set_by_POLL_only (env : Env) (fuel : Nat) (s : CC2530) :
    (∀ s', POLL_body env fuel s = some s' → 0 < u8 (env.miso (s.nXfer + 3)) →
      s'.NewData = true) ∧
    (∀ Data s', WRITE_DATA env fuel Data s = some s' →
      u8 (env.miso (s.nXfer + u8 (Data.getD 0 0 + 3))) ≤ 61 → s'.NewData = s.NewData) ∧
    (u8 (env.miso s.nXfer) ≤ 61 → (SRSP env s).NewData = s.NewData) := by
  refine ⟨?_, ?_, fun hl => (SRSP_obj env s hl).1⟩
  · intro s' h h0
    obtain ⟨s3, e, x, _, _, _⟩ := POLL_body_recv env fuel s s' h
    rw [← x] at h0
    rw [e, (pollRecv_flags env s3).1, if_pos h0]
  · intro Data s' h hl
    exact (WRITE_DATA_obj env fuel Data s s' h hl).2.1

/-- C10 (amended) on the default object: an iteration of `POLL` receiving the frame
`02 45 C0 09 00` sets `NewData`; `WRITE_DATA(_SYS_Reset)` with the reply `01 61 00 07`
leaves it false. -/
theorem C10_NewData_set_by_POLL_only_witness :
    (∃ s', POLL_body (envOf [HIGH] [0, 0, 0, 2, 0x45, 0xC0, 9, 0] []) 1 CC2530.init = some s' ∧
      s'.NewData = true) ∧
    (∃ s', WRITE_DATA (envOf [LOW, HIGH] [0, 0, 0, 0, 1, 0x61, 0x00, 0x07] []) 1
        [0x01, 0x41, 0x00, 0x00] CC2530.init = some s' ∧ s'.NewData = false) :=
  ⟨⟨_, rfl, (C10_NewData_set_by_POLL_only (envOf [HIGH] [0, 0, 0, 2, 0x45, 0xC0, 9, 0] []) 1
      CC2530.init).1 _ rfl (by decide)⟩,
    ⟨_, rfl, (C10_NewData_set_by_POLL_only
      (envOf [LOW, HIGH] [0, 0, 0, 0, 1, 0x61, 0x00, 0x07] []) 1 CC2530.init).2.1
      [0x01, 0x41, 0x00, 0x00] _ rfl (by decide)⟩⟩


/-! ## The incoming-message flag, the 16-bit setters, store indices, payload copy -/

set_option maxRecDepth 100000 in
/-- Two receives of a frame with length byte 63, opcode pair `45 C0` and a zero payload
on an object whose `AFDataIncoming` is true: one iteration of `POLL`, and `SRSP`. -/
theorem long_frame_runs :
    (POLL_body (envOf [HIGH] [0, 0, 0, 63, 0x45, 0xC0] []) 1
      { CC2530.init with AFDataIncoming := true }).map (fun s => s.AFDataIncoming) =
      some false ∧
    (SRSP (envOf [] [63, 0x45, 0xC0] []) { CC2530.init with AFDataIncoming := true }
      ).AFDataIncoming = false := ⟨rfl, rfl⟩

/-- C11 (counterexample): a frame with length byte 63, opcode pair `45 C0` and a zero
payload, received by an object whose `AFDataIncoming` is true: the store of payload
byte 62 at `ReceivedBytes[65]` falls on `AFDataIncoming`, so the flag is false after
the iteration of `POLL` that received the frame, and false after an `SRSP` that
received it. -/
theorem C11_cleared_by_long_frame :
    (∃ s', POLL_body (envOf [HIGH] [0, 0, 0, 63, 0x45, 0xC0] []) 1
        { CC2530.init with AFDataIncoming := true } = some s' ∧
      0 < u8 ((envOf [HIGH] [0, 0, 0, 63, 0x45, 0xC0] []).miso 3) ∧
      s'.AFDataIncoming = false) ∧
    (SRSP (envOf [] [63, 0x45, 0xC0] []) { CC2530.init with AFDataIncoming := true }
      ).AFDataIncoming = false := by
  refine ⟨?_, long_frame_runs.2⟩
  have e := long_frame_runs.1
  cases h : POLL_body (envOf [HIGH] [0, 0, 0, 63, 0x45, 0xC0] []) 1
      { CC2530.init with AFDataIncoming := true } with
  | none =>
    rw [h] at e
    simp at e
  | some s' =>
    rw [h] at e
    exact ⟨s', rfl, by decide, by simpa using e⟩

/-- C11 (amended): after an iteration of `POLL` that received a frame with a non-zero
length byte, `AFDataIncoming` is true when the opcode pair is `(0x44, 0x81)`; for any
other opcode pair and a length byte of at most 61 it keeps its previous value; `SRSP`,
and so every `WRITE_DATA`, whose reply has a length byte of at most 61 leaves
`AFDataIncoming` as it was whatever opcode the reply carries. -/
theorem C11_AFDataIncoming (env : Env) (fuel : Nat) (s : CC2530) :
    (∀ s', POLL_body env fuel s = some s' → 0 < u8 (env.miso (s.nXfer + 3)) →
      (u8 (env.miso (s.nXfer + 3 + 1)) = 0x44 ∧ u8 (env.miso (s.nXfer + 3 + 2)) = 0x81 →
        s'.AFDataIncoming = true) ∧
      (u8 (env.miso (s.nXfer + 3)) ≤ 61 →
        ¬ (u8 (env.miso (s.nXfer + 3 + 1)) = 0x44 ∧ u8 (env.miso (s.nXfer + 3 + 2)) = 0x81) →
        s'.AFDataIncoming = s.AFDataIncoming)) ∧
    (u8 (env.miso s.nXfer) ≤ 61 → (SRSP env s).AFDataIncoming = s.AFDataIncoming) ∧
    (∀ Data s', WRITE_DATA env fuel Data s = some s' →
      u8 (env.miso (s.nXfer + u8 (Data.getD 0 0 + 3))) ≤ 61 →
      s'.AFDataIncoming = s.AFDataIncoming) := by
  refine ⟨?_, fun hl => (SRSP_obj env s hl).2.1, ?_⟩
  · intro s' h h0
    constructor
    · obtain ⟨s3, e, x, _, _, af⟩ := POLL_body_recv env fuel s s' h
      rw [← x] at h0 ⊢
      have f2 := (pollRecv_flags env s3).2
      rw [← e] at f2
      intro hc
      rw [f2, if_pos ⟨h0, hc⟩]
    · intro hl hc
      rw [(POLL_body_obj env fuel s s' h hl).2.2.2.2, if_neg (fun c => hc c.2)]
  · intro Data s' h hl
    exact (WRITE_DATA_obj env fuel Data s s' h hl).2.2.1

/-- C11 (amended) on the default object: an iteration of `POLL` receiving a frame with
opcode pair `44 81` sets `AFDataIncoming`; one receiving `45 C0` leaves it false. -/
theorem C11_AFDataIncoming_witness :
    (∃ s', POLL_body (envOf [HIGH] [0, 0, 0, 1, 0x44, 0x81, 7] []) 1 CC2530.init = some s' ∧
      s'.AFDataIncoming = true) ∧
    (∃ s', POLL_body (envOf [HIGH] [0, 0, 0, 1, 0x45, 0xC0, 9] []) 1 CC2530.init = some s' ∧
      s'.AFDataIncoming = false) :=
  ⟨⟨_, rfl, ((C11_AFDataIncoming (envOf [HIGH] [0, 0, 0, 1, 0x44, 0x81, 7] []) 1
      CC2530.init).1 _ rfl (by decide)).1 (by decide)⟩,
    ⟨_, rfl, ((C11_AFDataIncoming (envOf [HIGH] [0, 0, 0, 1, 0x45, 0xC0, 9] []) 1
      CC2530.init).1 _ rfl (by decide)).2 (by decide) (by decide)⟩⟩

/-- C17 (the code at the claim's inputs): each 16-bit poll-rate setter called with its
documented default on the default object stores the high byte first, so the
descriptor ends `07 D0`, `00 64`, `00 64`, `01 B8` where the default descriptor ends
`D0 07`, `64 00`, `64 00`, `B8 01`: the descriptor is not the default one any more. -/
theorem C17_poll_rate_setters_swap_bytes :
    (SetPOLL_RATE 0x07D0 CC2530.init).priv._PollRate.data =
      [0x04, 0x26, 0x05, 0x35, 0x02, 0x07, 0xD0] ∧
    CC2530.init.priv._PollRate.data = [0x04, 0x26, 0x05, 0x35, 0x02, 0xD0, 0x07] ∧
    (SetQUEUED_POLL_RATE 0x0064 CC2530.init).priv._QueuedPollRate.data =
      [0x04, 0x26, 0x05, 0x25, 0x02, 0x00, 0x64] ∧
    CC2530.init.priv._QueuedPollRate.data = [0x04, 0x26, 0x05, 0x25, 0x02, 0x64, 0x00] ∧
    (SetRESPONSE_POLL_RATE 0x0064 CC2530.init).priv._ResponsePollRate.data =
      [0x04, 0x26, 0x05, 0x26, 0x02, 0x00, 0x64] ∧
    CC2530.init.priv._ResponsePollRate.data = [0x04, 0x26, 0x05, 0x26, 0x02, 0x64, 0x00] ∧
    (SetREJOIN_POLL_RATE 0x01B8 CC2530.init).priv._RejoinPollRate.data =
      [0x04, 0x26, 0x05, 0x27, 0x02, 0x01, 0xB8] ∧
    CC2530.init.priv._RejoinPollRate.data = [0x04, 0x26, 0x05, 0x27, 0x02, 0xB8, 0x01] := by
  refine ⟨by decide, by decide, by decide, by decide, by decide, by decide, by decide, by decide⟩

/-- C19: the receive path does not check the length byte: for every `Len > 0` the
stores of one iteration of `POLL`, and those of `SRSP`, go to the indices
`0, 1, ..., Len+2` in this order; all of them are inside the 64-byte buffer exactly
when `Len ≤ 61`, and for `Len` from 62 on index 64 is among them. -/
theorem C19_store_indices (env : Env) (fuel : Nat) (s : CC2530) :
    (∀ s', POLL_body env fuel s = some s' → 0 < u8 (env.miso (s.nXfer + 3)) →
      storeIdx s'.trace = storeIdx s.trace ++ List.range (u8 (env.miso (s.nXfer + 3)) + 3)) ∧
    (0 < u8 (env.miso s.nXfer) →
      storeIdx (SRSP env s).trace =
        storeIdx s.trace ++ List.range (u8 (env.miso s.nXfer) + 3)) ∧
    (∀ Len, (∀ i, i ∈ List.range (Len + 3) → i < 64) ↔ Len ≤ 61) ∧
    (∀ Len, 62 ≤ Len → 64 ∈ List.range (Len + 3)) := by
  refine ⟨?_, ?_, ?_, ?_⟩
  · intro s' h h0
    obtain ⟨k, e⟩ := POLL_body_some env fuel s s' h
    rw [e, (pollRecv_fields env _).2.2.2.2.2.1]
    simp only [storeIdx_append, storeIdx_waitTrace, storeIdx_rxCoreTrace env _ h0]
    simp [storeIdx]
  · intro h0
    rw [(SRSP_fields env s).2.2.2.2.2.2.2.1]
    simp only [storeIdx_append, storeIdx_rxCoreTrace env _ h0]
    simp [storeIdx]
  · intro Len
    constructor
    · intro h
      have := h (Len + 2) (by simp)
      omega
    · intro h i hi
      have := List.mem_range.mp hi
      omega
  · intro Len h
    exact List.mem_range.mpr (by omega)

/-- C19 on the default object: a frame of length 62 received by one iteration of
`POLL` is stored at the indices 0..64, the last one past the end of the buffer. -/
theorem C19_store_indices_witness :
    ∃ s', POLL_body (envOf [HIGH] [0, 0, 0, 62, 0x44, 0x81] []) 1 CC2530.init = some s' ∧
      storeIdx s'.trace = List.range 65 :=
  ⟨_, rfl, (C19_store_indices (envOf [HIGH] [0, 0, 0, 62, 0x44, 0x81] []) 1 CC2530.init).1 _ rfl
    (by decide)⟩

theorem mosiBytes_append (t u : List Event) :
    mosiBytes (t ++ u) = mosiBytes t ++ mosiBytes u := by
  induction t with
  | nil => rfl
  | cons e es ih => cases e <;> simp [mosiBytes, ih]

theorem mosiBytes_waitTrace (level : Bool) (k : Nat) : mosiBytes (waitTrace level k) = [] := by
  induction k with
  | zero => simp [waitTrace, mosiBytes]
  | succ k ih => simpa [waitTrace, List.replicate_succ, mosiBytes] using ih

theorem length_txTrace (env : Env) (Data : List Nat) (n c i : Nat) :
    (txTrace env Data c n i).length = n := by
  induction n generalizing c i with
  | zero => simp [txTrace]
  | succ n ih => simp [txTrace, ih]

theorem inlineSREQ_trace (env : Env) (fuel : Nat) (A : List Nat) (N : Nat) (s s' : CC2530)
    (h : inlineSREQ env fuel A N s = some s') :
    ∃ k1 k2, s'.trace = s.trace ++ [.ss LOW] ++ waitTrace HIGH k1 ++ [.spiBegin] ++
      txTrace env A s.nXfer N 0 ++ waitTrace LOW k2 ++ rxCoreTrace env (s.nXfer + N) ++
      [.spiEnd, .ss HIGH] := by
  obtain ⟨k1, k2, e⟩ := inlineSREQ_some _ _ _ _ _ _ h
  refine ⟨k1, k2, ?_⟩
  rw [e, (SRSP_fields env _).2.2.2.2.2.2.2.1]

theorem dataRequest_trace (env : Env) (fuel : Nat) (D V : List Nat) (N L : Nat)
    (s : CC2530) (r : Nat × CC2530)
    (h : ((waitSRDY env HIGH fuel (digitalWrite_SS_MRDY LOW s)).bind fun s2 =>
      (waitSRDY env LOW fuel
        (sendLoop env V L 0 (sendLoop env D N 0 (emit .spiBegin s2)))).bind fun s5 =>
          some (L, SRSP env s5)) = some r) :
    r.1 = L ∧ ∃ k1 k2, r.2.trace = s.trace ++ [.ss LOW] ++ waitTrace HIGH k1 ++ [.spiBegin] ++
      txTrace env D s.nXfer N 0 ++ txTrace env V (s.nXfer + N) L 0 ++ waitTrace LOW k2 ++
      rxCoreTrace env (s.nXfer + N + L) ++ [.spiEnd, .ss HIGH] := by
  simp only [Option.bind_eq_some] at h
  obtain ⟨s2, h2, s5, h5, h6⟩ := h
  obtain ⟨k1, _, _, _, e2⟩ := waitSRDY_some _ _ _ _ _ h2
  obtain ⟨k2, _, _, _, e5⟩ := waitSRDY_some _ _ _ _ _ h5
  simp only [Option.some.injEq] at h6
  rw [← h6]
  refine ⟨rfl, k1, k2, ?_⟩
  rw [sendLoop_eq, sendLoop_eq] at e5
  subst e2
  rw [(SRSP_fields env _).2.2.2.2.2.2.2.1, e5]
  simp [emit, digitalWrite_SS_MRDY]


/-! ## Frames built inline, the length byte, the order of events -/

/-- C13 (the code): `AF_REGISTER` shifts out the 16 bytes of `AFRegister`, whose first
byte `0x0D` is 16 - 3, and `ZDO_END_DEVICE_BIND_REQ` builds the 24 bytes of
`ZDOEndDeviceBind`, whose first byte `0x15` is 24 - 3; but `ZDO_MGMT_LEAVE_REQ` shifts
out `sizeof(LeaveReq)` = 24 bytes while the first byte of `LeaveReq` is `0x0B`, which
announces 11 bytes after the header, 14 in all: with destination `34 12` and address
`01..08` on a peer that answers at once, the bytes sent before the reply header is
clocked are the 14 bytes of the frame followed by ten zero bytes. -/
theorem C13_LEAVE_REQ_sends_24_bytes :
    (∀ env fuel DstAddr IEEEAddr s s',
      ZDO_MGMT_LEAVE_REQ env fuel DstAddr IEEEAddr s = some s' →
      ∃ k1 k2, s'.trace = s.trace ++ [.ss LOW] ++ waitTrace HIGH k1 ++ [.spiBegin] ++
        txTrace env (LeaveReq DstAddr IEEEAddr) s.nXfer 24 0 ++ waitTrace LOW k2 ++
        rxCoreTrace env (s.nXfer + 24) ++ [.spiEnd, .ss HIGH]) ∧
    (∀ env DstAddr IEEEAddr c,
      (txTrace env (LeaveReq DstAddr IEEEAddr) c 24 0).length = 24 ∧
      (LeaveReq DstAddr IEEEAddr).getD 0 0 + 3 = 14) ∧
    (∀ env fuel EndPoint s s', AF_REGISTER env fuel EndPoint s = some s' →
      ∃ k1 k2, s'.trace = s.trace ++ [.ss LOW] ++ waitTrace HIGH k1 ++ [.spiBegin] ++
        txTrace env (AFRegister EndPoint) s.nXfer 16 0 ++ waitTrace LOW k2 ++
        rxCoreTrace env (s.nXfer + 16) ++ [.spiEnd, .ss HIGH]) ∧
    (∀ EndPoint, (AFRegister EndPoint).getD 0 0 + 3 = 16) ∧
    (∀ ShortAddr IEEEAddr EndPoint,
      (ZDOEndDeviceBind ShortAddr IEEEAddr EndPoint).getD 0 0 + 3 = 24 ∧
      (ZDOEndDeviceBind ShortAddr IEEEAddr EndPoint).length = 24) ∧
    (∃ s', ZDO_MGMT_LEAVE_REQ envPrompt 1 [0x34, 0x12] [1, 2, 3, 4, 5, 6, 7, 8] CC2530.init =
        some s' ∧
      (mosiBytes s'.trace).take 24 =
        [0x0B, 0x25, 0x34, 0x34, 0x12, 1, 2, 3, 4, 5, 6, 7, 8, 0x00,
          0, 0, 0, 0, 0, 0, 0, 0, 0, 0] ∧
      s'.nXfer = 24 + 3) := by
  refine ⟨?_, ?_, ?_, ?_, ?_, ⟨_, rfl, by decide, by decide⟩⟩
  · intro env fuel DstAddr IEEEAddr s s' h
    exact inlineSREQ_trace _ _ _ _ _ _ h
  · intro env DstAddr IEEEAddr c
    exact ⟨length_txTrace _ _ _ _ _, rfl⟩
  · intro env fuel EndPoint s s' h
    exact inlineSREQ_trace _ _ _ _ _ _ h
  · intro EndPoint; rfl
  · intro ShortAddr IEEEAddr EndPoint
    exact ⟨rfl, rfl⟩

theorem dataRequest_returns (env : Env) (D V : List Nat) (N L : Nat) (s : CC2530)
    (h1 : env.srdy s.nRead = LOW) (h2 : env.srdy (s.nRead + 1) = HIGH) :
    ∃ r, ((waitSRDY env HIGH 1 (digitalWrite_SS_MRDY LOW s)).bind fun s2 =>
      (waitSRDY env LOW 1
        (sendLoop env V L 0 (sendLoop env D N 0 (emit .spiBegin s2)))).bind fun s5 =>
          some (L, SRSP env s5)) = some r := by
  rw [waitSRDY_now env HIGH 0 _ (by simpa [digitalWrite_SS_MRDY, emit] using h1)]
  simp only [Option.some_bind]
  rw [sendLoop_eq, sendLoop_eq,
    waitSRDY_now env LOW 0 _ (by simpa [digitalWrite_SS_MRDY, emit] using h2)]
  exact ⟨_, rfl⟩

/-- C14 (counterexample): for `Length = 250` the first byte of the `AF_DATA_REQUEST`
frame is `(250 + 10) mod 256 = 4` although 260 bytes follow the 3-byte header (the
other 10 bytes of the 13-byte array and the 250 bytes of `Value`, all shifted out when
the request runs on the default object with a peer that answers at once); for
`Length = 240` the first byte of the `AF_DATA_REQUEST_EXT` frame is
`(240 + 20) mod 256 = 4` although 260 bytes follow the header. -/
theorem C14_length_byte_wraps :
    (AFDataRequestHeader CC2530.init.priv._AFDataReqCfg 0 0 250).getD 0 0 = 4 ∧
    (AFDataRequestHeader CC2530.init.priv._AFDataReqCfg 0 0 250).length - 3 + 250 = 260 ∧
    (AFDataRequestExtHeader CC2530.init.priv._AFDataReqExtCfg 0 [] 240).getD 0 0 = 4 ∧
    (AFDataRequestExtHeader CC2530.init.priv._AFDataReqExtCfg 0 [] 240).length - 3 + 240 = 260 ∧
    (∃ r k1 k2, AF_DATA_REQUEST envPrompt 1 0 0 [] 250 CC2530.init = some r ∧ r.1 = 250 ∧
      r.2.trace = CC2530.init.trace ++ [.ss LOW] ++ waitTrace HIGH k1 ++ [.spiBegin] ++
        txTrace envPrompt (AFDataRequestHeader CC2530.init.priv._AFDataReqCfg 0 0 250) 0 13 0 ++
        txTrace envPrompt [] 13 250 0 ++ waitTrace LOW k2 ++
        rxCoreTrace envPrompt (13 + 250) ++ [.spiEnd, .ss HIGH]) := by
  refine ⟨by decide, by decide, by decide, by decide, ?_⟩
  obtain ⟨r, hr⟩ := dataRequest_returns envPrompt
    (AFDataRequestHeader CC2530.init.priv._AFDataReqCfg 0 0 250) [] 13 250 CC2530.init
    (by decide) (by decide)
  obtain ⟨e1, k1, k2, e2⟩ := dataRequest_trace _ _ _ _ _ _ _ _ hr
  exact ⟨r, k1, k2, hr, e1, e2⟩

/-- C14 (amended): for every `Length` in 0..255, `AF_DATA_REQUEST` shifts out the 13
bytes of its local array and then `Length` bytes of `Value`, and returns `Length`; the
first byte is `(Length + 10) mod 256`, which is the number of bytes after the 3-byte
header, `10 + Length`, when `Length ≤ 245`. `AF_DATA_REQUEST_EXT` shifts out 23 bytes
and then `Length` bytes of `Value`, and returns `Length`; the first byte is
`(Length + 20) mod 256`, which is `20 + Length` when `Length ≤ 235`. -/
theorem C14_length_byte (env : Env) (fuel : Nat) (s : CC2530) (Length : Nat)
    (hL : Length < 256) :
    (∀ a0 a1 Value r, AF_DATA_REQUEST env fuel a0 a1 Value Length s = some r →
      r.1 = Length ∧ ∃ k1 k2, r.2.trace = s.trace ++ [.ss LOW] ++ waitTrace HIGH k1 ++
        [.spiBegin] ++
        txTrace env (AFDataRequestHeader s.priv._AFDataReqCfg a0 a1 Length) s.nXfer 13 0 ++
        txTrace env Value (s.nXfer + 13) Length 0 ++ waitTrace LOW k2 ++
        rxCoreTrace env (s.nXfer + 13 + Length) ++ [.spiEnd, .ss HIGH]) ∧
    (∀ a0 a1, (AFDataRequestHeader s.priv._AFDataReqCfg a0 a1 Length).getD 0 0 =
      (Length + 10) % 256) ∧
    (Length ≤ 245 → ∀ a0 a1,
      (AFDataRequestHeader s.priv._AFDataReqCfg a0 a1 Length).getD 0 0 = 10 + Length) ∧
    (∀ mode IEEEAddr Value r,
      AF_DATA_REQUEST_EXT env fuel mode IEEEAddr Value Length s = some r →
      r.1 = Length ∧ ∃ k1 k2, r.2.trace = s.trace ++ [.ss LOW] ++ waitTrace HIGH k1 ++
        [.spiBegin] ++
        txTrace env (AFDataRequestExtHeader s.priv._AFDataReqExtCfg mode IEEEAddr Length)
          s.nXfer 23 0 ++
        txTrace env Value (s.nXfer + 23) Length 0 ++ waitTrace LOW k2 ++
        rxCoreTrace env (s.nXfer + 23 + Length) ++ [.spiEnd, .ss HIGH]) ∧
    (∀ mode IEEEAddr,
      (AFDataRequestExtHeader s.priv._AFDataReqExtCfg mode IEEEAddr Length).getD 0 0 =
        (Length + 20) % 256) ∧
    (Length ≤ 235 → ∀ mode IEEEAddr,
      (AFDataRequestExtHeader s.priv._AFDataReqExtCfg mode IEEEAddr Length).getD 0 0 =
        20 + Length) := by
  have hu : u8 Length = Length := Nat.mod_eq_of_lt hL
  refine ⟨?_, ?_, ?_, ?_, ?_, ?_⟩
  · intro a0 a1 Value r h
    unfold AF_DATA_REQUEST at h
    simp only [hu] at h
    exact dataRequest_trace _ _ _ _ _ _ _ _ h
  · intro a0 a1
    simp [AFDataRequestHeader, hu, u8]
  · intro h a0 a1
    simp only [AFDataRequestHeader, hu, u8, List.getD_cons_zero]
    omega
  · intro mode IEEEAddr Value r h
    unfold AF_DATA_REQUEST_EXT at h
    simp only [hu] at h
    exact dataRequest_trace _ _ _ _ _ _ _ _ h
  · intro mode IEEEAddr
    simp [AFDataRequestExtHeader, hu, u8]
  · intro h mode IEEEAddr
    simp only [AFDataRequestExtHeader, hu, u8, List.getD_cons_zero]
    omega

/-- C14 (amended) on the default object, `Length = 2`, a peer that answers at once:
`AF_DATA_REQUEST` returns 2 and the first byte of its frame is 12. -/
theorem C14_length_byte_witness :
    (2 : Nat) < 256 ∧
    (∃ r, AF_DATA_REQUEST envPrompt 1 0x12 0x34 [0xAB, 0xCD] 2 CC2530.init = some r ∧ r.1 = 2) ∧
    (AFDataRequestHeader CC2530.init.priv._AFDataReqCfg 0x12 0x34 2).getD 0 0 = 10 + 2 :=
  ⟨by decide,
    ⟨_, rfl, ((C14_length_byte envPrompt 1 CC2530.init 2 (by decide)).1 0x12 0x34 [0xAB, 0xCD] _
      rfl).1⟩,
    (C14_length_byte envPrompt 1 CC2530.init 2 (by decide)).2.2.1 (by decide) 0x12 0x34⟩


/-- The receive buffer holds a "state changed" frame (`45 C0`) with a terminal state
byte: 0x06 end device, 0x07 router, 0x09 coordinator, 0x10 parent lost. -/
def terminalState (s : CC2530) : Prop :=
  s.ReceivedBytes.get 1 = 0x45 ∧ s.ReceivedBytes.get 2 = 0xC0 ∧
    (s.ReceivedBytes.get 3 = 0x06 ∨ s.ReceivedBytes.get 3 = 0x07 ∨
      s.ReceivedBytes.get 3 = 0x09 ∨ s.ReceivedBytes.get 3 = 0x10)

instance (s : CC2530) : Decidable (terminalState s) := by
  unfold terminalState
  infer_instance

/-- C15: in an iteration of the wait loop of `ZDO_STARTUP_FROM_APP` (entered inside the
60000 ms window) after whose `POLL` `NewData` is true: if the buffer holds opcode pair
`45 C0` with state byte 0x06, 0x07, 0x09 or 0x10, the loop returns at once with the
object as `POLL` left it (no further `POLL`, no further clock reading, whatever the
remaining fuel and window); otherwise the loop goes on from the same object with only
`NewData` cleared. -/
theorem C15_startup_exits_on_first_match (env : Env) (inner t0 fuel : Nat) (s s1 : CC2530)
    (hw : u32 ((millis env s).1 + 4294967296 - t0) < 60000)
    (hp : POLL env inner (millis env s).2 = some s1) (hn : s1.NewData = true) :
    (terminalState s1 → ZDO_STARTUP_loop env inner t0 (fuel + 1) s = some s1) ∧
    (¬ terminalState s1 → ZDO_STARTUP_loop env inner t0 (fuel + 1) s =
      ZDO_STARTUP_loop env inner t0 fuel { s1 with NewData := false }) := by
  constructor
  · intro ht
    obtain ⟨a, b, c⟩ := ht
    rw [ZDO_STARTUP_loop]
    simp only [hw, if_true, hp, Option.some_bind, hn, a, b, and_self]
    rcases c with c | c | c | c <;> simp [c]
  · intro ht
    rw [ZDO_STARTUP_loop]
    simp only [hw, if_true, hp, Option.some_bind, hn]
    by_cases hc : s1.ReceivedBytes.get 1 = 0x45 ∧ s1.ReceivedBytes.get 2 = 0xC0
    · rw [if_pos hc]
      have h6 : ¬ s1.ReceivedBytes.get 3 = 0x06 := fun c => ht ⟨hc.1, hc.2, Or.inl c⟩
      have h7 : ¬ s1.ReceivedBytes.get 3 = 0x07 := fun c => ht ⟨hc.1, hc.2, Or.inr (Or.inl c)⟩
      have h9 : ¬ s1.ReceivedBytes.get 3 = 0x09 :=
        fun c => ht ⟨hc.1, hc.2, Or.inr (Or.inr (Or.inl c))⟩
      have h10 : ¬ s1.ReceivedBytes.get 3 = 0x10 :=
        fun c => ht ⟨hc.1, hc.2, Or.inr (Or.inr (Or.inr c))⟩
      rw [if_neg h6, if_neg h7, if_neg h9, if_neg h10]
    · rw [if_neg hc]

/-- C15 on the default object: the request is answered by a reply of length zero, then
one unsolicited frame `01 45 C0 09` ("coordinator") is queued, 10 ms into the window:
the wait loop returns after its first iteration, having performed one receive-only
exchange, with `NewData` still set. -/
theorem C15_startup_exits_on_first_match_witness :
    ∃ s1, POLL (envOf [LOW, HIGH, LOW, HIGH, HIGH]
        [0, 0, 0, 0, 0, 0, 0, 0, 0, 0, 0, 1, 0x45, 0xC0, 0x09] [0, 10]) 5
        (millis (envOf [LOW, HIGH, LOW, HIGH, HIGH]
          [0, 0, 0, 0, 0, 0, 0, 0, 0, 0, 0, 1, 0x45, 0xC0, 0x09] [0, 10])
          { CC2530.init with nRead := 2, nXfer := 8, nClock := 1 }).2 = some s1 ∧
      ZDO_STARTUP_loop (envOf [LOW, HIGH, LOW, HIGH, HIGH]
        [0, 0, 0, 0, 0, 0, 0, 0, 0, 0, 0, 1, 0x45, 0xC0, 0x09] [0, 10]) 5 0 5
        { CC2530.init with nRead := 2, nXfer := 8, nClock := 1 } = some s1 ∧
      s1.ReceivedBytes.get 3 = 0x09 ∧ exchanges s1.trace = 1 :=
  ⟨_, rfl, (C15_startup_exits_on_first_match (envOf [LOW, HIGH, LOW, HIGH, HIGH]
      [0, 0, 0, 0, 0, 0, 0, 0, 0, 0, 0, 1, 0x45, 0xC0, 0x09] [0, 10]) 5 0 4
      { CC2530.init with nRead := 2, nXfer := 8, nClock := 1 } _ (by decide) rfl (by decide)).1
      (by decide), by decide, by decide⟩


/-- The first test `millis() - time_now < 500` of a `RECV_CALLBACK` that starts at clock
sample `c` succeeds: its loop body runs at least once. -/
def inWindow (env : Env) (c : Nat) : Prop :=
  u32 (u32 (env.clock (c + 1)) + 4294967296 - u32 (env.clock c)) < 500

instance (env : Env) (c : Nat) : Decidable (inWindow env c) := by
  unfold inWindow
  infer_instance

theorem RECV_CALLBACK_loop_flags (env : Env) (inner t0 fuel : Nat) (s s' : CC2530)
    (h : RECV_CALLBACK_loop env inner t0 fuel s = some s') :
    (s.NewData = false → s'.NewData = false) ∧
    (u32 ((millis env s).1 + 4294967296 - t0) < 500 → s'.NewData = false) := by
  induction fuel generalizing s with
  | zero => simp [RECV_CALLBACK_loop] at h
  | succ fuel ih =>
    rw [RECV_CALLBACK_loop] at h
    split at h
    · rename_i hw
      simp only [Option.bind_eq_some] at h
      obtain ⟨s1, h1, h2⟩ := h
      split at h2
      · simp only [Option.some.injEq] at h2
        subst h2
        exact ⟨fun _ => rfl, fun _ => rfl⟩
      · rename_i hn
        have hf : s1.NewData = false := by simpa using hn
        obtain ⟨a, _⟩ := ih _ h2
        exact ⟨fun _ => a hf, fun _ => a hf⟩
    · rename_i hw
      simp only [Option.some.injEq] at h
      subst h
      exact ⟨fun a => a, fun c => absurd c hw⟩

theorem RECV_CALLBACK_flags (env : Env) (fuel : Nat) (s s' : CC2530)
    (h : RECV_CALLBACK env fuel s = some s') :
    inWindow env s.nClock → s'.NewData = false := by
  unfold RECV_CALLBACK at h
  obtain ⟨_, b⟩ := RECV_CALLBACK_loop_flags _ _ _ _ _ _ h
  exact fun w => b w

theorem NEW_DATA_false (s : CC2530) (h : s.NewData = false) : (NEW_DATA s).1 = false := by
  simp [NEW_DATA, h]

set_option maxRecDepth 100000 in
/-- A `RECV_CALLBACK` on an object whose `AFDataIncoming` is true, during which `POLL`
receives a frame with length byte 63, opcode pair `45 C0` and a zero payload. -/
theorem long_frame_callback :
    (RECV_CALLBACK (envOf [LOW, HIGH, HIGH] [0, 0, 0, 63, 0x45, 0xC0] [0, 10]) 3
      { CC2530.init with AFDataIncoming := true }).map
        (fun s => (s.NewData, s.AFDataIncoming)) = some (false, false) := rfl

/-- C21 (counterexample): a `RECV_CALLBACK` on an object whose `AFDataIncoming` is true
runs one iteration of its loop, in which `POLL` receives a frame with length byte 63,
opcode pair `45 C0` and a zero payload; the store of payload byte 62 at
`ReceivedBytes[65]` falls on `AFDataIncoming`, and the callback returns with the flag
cleared. -/
theorem C21_callback_clears_AFDataIncoming :
    ∃ s', RECV_CALLBACK (envOf [LOW, HIGH, HIGH] [0, 0, 0, 63, 0x45, 0xC0] [0, 10]) 3
        { CC2530.init with AFDataIncoming := true } = some s' ∧
      inWindow (envOf [LOW, HIGH, HIGH] [0, 0, 0, 63, 0x45, 0xC0] [0, 10]) 0 ∧
      s'.NewData = false ∧ s'.AFDataIncoming = false := by
  have e := long_frame_callback
  cases h : RECV_CALLBACK (envOf [LOW, HIGH, HIGH] [0, 0, 0, 63, 0x45, 0xC0] [0, 10]) 3
      { CC2530.init with AFDataIncoming := true } with
  | none =>
    rw [h] at e
    simp at e
  | some s' =>
    rw [h] at e
    simp only [Option.map_some', Option.some.injEq, Prod.mk.injEq] at e
    exact ⟨s', rfl, by decide, e.1, e.2⟩

/-- C21 (amended): a `RECV_CALLBACK` that returns after at least one iteration of its
loop (its first window test succeeds) leaves `NewData` false, by a frame or by timeout;
it does not clear `AFDataIncoming` when no frame was stored past the end of the receive
buffer (every length byte at most 61); hence `NEW_DATA()` returns false right after a
`POWER_UP`, a `HARD_RESET_REQ`, a `SYS_RESET_REQ` or a `COMMISSION` (which ends in a
`SYS_RESET_REQ`) whose callback ran its loop, whatever was received in the meantime. -/
theorem C21_callback_consumes_NewData (env : Env) (fuel : Nat) (s : CC2530) :
    (∀ s', RECV_CALLBACK env fuel s = some s' →
      (inWindow env s.nClock → s'.NewData = false) ∧
      (InBounds s' → s.AFDataIncoming = true → s'.AFDataIncoming = true)) ∧
    (∀ s', POWER_UP env fuel s = some s' → inWindow env s.nClock → (NEW_DATA s').1 = false) ∧
    (∀ s', HARD_RESET_REQ env fuel s = some s' → inWindow env s.nClock →
      (NEW_DATA s').1 = false) ∧
    (∀ s', SYS_RESET_REQ env fuel s = some s' → inWindow env s.nClock →
      (NEW_DATA s').1 = false) ∧
    (∀ s', COMMISSION env fuel s = some s' →
      ∃ s15, SYS_RESET_REQ env fuel s15 = some s' ∧
        (inWindow env s15.nClock → (NEW_DATA s').1 = false)) := by
  have sys : ∀ s0 s', SYS_RESET_REQ env fuel s0 = some s' → inWindow env s0.nClock →
      (NEW_DATA s').1 = false := by
    intro s0 s' h w
    unfold SYS_RESET_REQ at h
    simp only [Option.bind_eq_some] at h
    obtain ⟨s1, h1, h2⟩ := h
    have c := (WRITE_DATA_io _ _ _ _ _ h1).1
    exact NEW_DATA_false _ (RECV_CALLBACK_flags _ _ _ _ h2 (by simpa [emit, c] using w))
  refine ⟨?_, ?_, ?_, sys s, ?_⟩
  · intro s' h
    exact ⟨RECV_CALLBACK_flags _ _ _ _ h, fun hb => (RECV_CALLBACK_inb _ _ _ _ h hb).2.2.2⟩
  · intro s' h w
    exact NEW_DATA_false _ (RECV_CALLBACK_flags _ _ _ _ h
      (by simpa [emit, digitalWrite_SS_MRDY] using w))
  · intro s' h w
    exact NEW_DATA_false _ (RECV_CALLBACK_flags _ _ _ _ h
      (by simpa [emit, digitalWrite_RES] using w))
  · intro s' h
    rw [COMMISSION_eq] at h
    simp only [Option.bind_eq_some] at h
    obtain ⟨s1, _, s2, _, s3, _, s4, _, s5, _, s6, _, s7, _, s8, _, s9, _, s10, _,
      s11, _, s12, _, s13, _, s14, _, s15, _, h16⟩ := h
    exact ⟨s15, h16, sys s15 s' h16⟩

/-- C21 (amended) on the default object: during the callback of a `SYS_RESET_REQ` the
frame `01 41 80 02` is received and stored by `POLL`, yet `NEW_DATA()` returns false
afterwards; and a `RECV_CALLBACK` on an object whose `AFDataIncoming` is true, during
which the frame `01 45 C0 09` is received, returns with `NewData` false and
`AFDataIncoming` still true. -/
theorem C21_callback_consumes_NewData_witness :
    (∃ s', SYS_RESET_REQ (envOf [LOW, HIGH, LOW, HIGH, HIGH]
        [0, 0, 0, 0, 0, 0, 0, 0, 0, 0, 1, 0x41, 0x80, 0x02] [0, 10]) 5 CC2530.init = some s' ∧
      s'.ReceivedBytes.get 1 = 0x41 ∧ s'.ReceivedBytes.get 2 = 0x80 ∧
      (NEW_DATA s').1 = false) ∧
    (∃ s', RECV_CALLBACK (envOf [LOW, HIGH, HIGH] [0, 0, 0, 1, 0x45, 0xC0, 9] [0, 10]) 3
        { CC2530.init with AFDataIncoming := true } = some s' ∧
      s'.NewData = false ∧ s'.AFDataIncoming = true) :=
  ⟨⟨_, rfl, by decide, by decide,
    (C21_callback_consumes_NewData (envOf [LOW, HIGH, LOW, HIGH, HIGH]
      [0, 0, 0, 0, 0, 0, 0, 0, 0, 0, 1, 0x41, 0x80, 0x02] [0, 10]) 5 CC2530.init).2.2.2.1 _ rfl
      (by decide)⟩,
    ⟨_, rfl,
      ((C21_callback_consumes_NewData (envOf [LOW, HIGH, HIGH] [0, 0, 0, 1, 0x45, 0xC0, 9]
        [0, 10]) 3 { CC2530.init with AFDataIncoming := true }).1 _ rfl).1 (by decide),
      ((C21_callback_consumes_NewData (envOf [LOW, HIGH, HIGH] [0, 0, 0, 1, 0x45, 0xC0, 9]
        [0, 10]) 3 { CC2530.init with AFDataIncoming := true }).1 _ rfl).2 (by decide) rfl⟩⟩

/-! ## The descriptor invariant -/

/-- Header (cells 0..2) and size of an array. -/
def Arr.shape {n : Nat} (a : Arr n) : List Nat × Nat := (a.data.take 3, a.data.length)

/-- Header and size of every descriptor that is passed to `WRITE_DATA` (all arrays of
the class but the two configuration arrays `_AFDataReqCfg`, `_AFDataReqExtCfg`), in
the order of their declaration. -/
def shapes (d : Descriptors) : List (List Nat × Nat) :=
  [d._SYS_Reset.shape, d._TXPower.shape, d._NVStartUpKeep.shape, d._NVStartUpClear.shape,
    d._PanID.shape, d._Channel.shape, d._LogicalType.shape, d._CallBack.shape,
    d._PollRate.shape, d._QueuedPollRate.shape, d._ResponsePollRate.shape,
    d._RejoinPollRate.shape, d._PollFailRetries.shape, d._PreCFGKeyEnable.shape,
    d._PreCFGKey.shape, d._ZDOStartUpFromApp.shape, d._GPIOSetDir.shape,
    d._GPIOSetInput.shape, d._GPIOSet.shape, d._GPIOClear.shape, d._GPIORead.shape,
    d._NodeDesc.shape, d._ZBGetShortAddr.shape, d._ZBGetIEEEAddr.shape,
    d._PermitJoinTrue.shape, d._PermitJoinFalse.shape]

/-- A call of a setter or of a command method, with its arguments. -/
inductive Op where
  | setPANID (Val : Nat)
  | setCHANLIST (Val : Nat)
  | setLOGICAL_TYPE (Val : Nat)
  | setZDO_DIRECT_CB (Val : Nat)
  | setPOLL_RATE (Val : Nat)
  | setQUEUED_POLL_RATE (Val : Nat)
  | setRESPONSE_POLL_RATE (Val : Nat)
  | setREJOIN_POLL_RATE (Val : Nat)
  | setPOLL_FAILURE_RETRIES (Val : Nat)
  | setPRECFGKEYEnable (Val : Nat)
  | setPRECFGKEY (key : List Nat)
  | setTX_POWER (Val : Nat)
  | gpioSetDir (Val : Nat)
  | gpioSetInputMode (Val : Nat)
  | gpioSet (Val : Nat)
  | gpioClear (Val : Nat)
  | gpioRead (Val : Nat)
  | nodeDescReq (DstAddr NWKAddrOfInterest : List Nat)
  | commission
  | sysResetReq
  | hardResetReq
  | powerUp
  | poll
  | zbGetShortAddress
  | zbGetIEEEAddress
  | permitJoinReq (PermitJoin : Bool)
  | startupFromApp
  | afRegister (EndPoint : Nat)
  | leaveReq (DstAddr IEEEAddr : List Nat)
  | endDeviceBindReq (EndPoint : Nat)

/-- Perform one call. -/
def Op.run (env : Env) (fuel : Nat) : Op → CC2530 → Option CC2530
  | .setPANID v, s => some (SetPANID v s)
  | .setCHANLIST v, s => some (SetCHANLIST v s)
  | .setLOGICAL_TYPE v, s => some (SetLOGICAL_TYPE v s)
  | .setZDO_DIRECT_CB v, s => some (SetZDO_DIRECT_CB v s)
  | .setPOLL_RATE v, s => some (SetPOLL_RATE v s)
  | .setQUEUED_POLL_RATE v, s => some (SetQUEUED_POLL_RATE v s)
  | .setRESPONSE_POLL_RATE v, s => some (SetRESPONSE_POLL_RATE v s)
  | .setREJOIN_POLL_RATE v, s => some (SetREJOIN_POLL_RATE v s)
  | .setPOLL_FAILURE_RETRIES v, s => some (SetPOLL_FAILURE_RETRIES v s)
  | .setPRECFGKEYEnable v, s => some (SetPRECFGKEYEnable v s)
  | .setPRECFGKEY key, s => some (SetPRECFGKEY key s)
  | .setTX_POWER v, s => some (SetTX_POWER v s)
  | .gpioSetDir v, s => SYS_GPIO_SET_DIR env fuel v s
  | .gpioSetInputMode v, s => SYS_GPIO_SET_INPUT_MODE env fuel v s
  | .gpioSet v, s => SYS_GPIO_SET env fuel v s
  | .gpioClear v, s => SYS_GPIO_CLEAR env fuel v s
  | .gpioRead v, s => SYS_GPIO_READ env fuel v s
  | .nodeDescReq a b, s => ZDO_NODE_DESC_REQ env fuel a b s
  | .commission, s => COMMISSION env fuel s
  | .sysResetReq, s => SYS_RESET_REQ env fuel s
  | .hardResetReq, s => HARD_RESET_REQ env fuel s
  | .powerUp, s => POWER_UP env fuel s
  | .poll, s => POLL env fuel s
  | .zbGetShortAddress, s => (ZB_GET_SHORT_ADDRESS env fuel s).map Prod.snd
  | .zbGetIEEEAddress, s => (ZB_GET_IEEE_ADDRESS env fuel s).map Prod.snd
  | .permitJoinReq b, s => ZDO_MGMT_PERMIT_JOIN_REQ env fuel b s
  | .startupFromApp, s => ZDO_STARTUP_FROM_APP env fuel s
  | .afRegister e, s => AF_REGISTER env fuel e s
  | .leaveReq a b, s => ZDO_MGMT_LEAVE_REQ env fuel a b s
  | .endDeviceBindReq e, s => ZDO_END_DEVICE_BIND_REQ env fuel e s

/-- Perform a sequence of calls, first to last. -/
def runOps (env : Env) (fuel : Nat) : List Op → CC2530 → Option CC2530
  | [], s => some s
  | op :: ops, s => (op.run env fuel s).bind (runOps env fuel ops)

/-- The invariant: every descriptor has its initial header and size, and so had
every array handed to `WRITE_DATA` so far. -/
def Good (s : CC2530) : Prop :=
  shapes s.priv = shapes Descriptors.init ∧
    ∀ D, D ∈ calls s.trace → (D.take 3, D.length) ∈ shapes Descriptors.init

theorem take_set_of_le (a : Nat) {n m : Nat} (l : List Nat) (h : m ≤ n) :
    (l.set n a).take m = l.take m :=
  List.ext_getElem? fun i => by
    rw [List.getElem?_take, List.getElem?_take]
    split
    · rw [List.getElem?_set_ne (by omega)]
    · rfl

theorem Arr.shape_set {n : Nat} (a : Arr n) (i v : Nat) : (a.set (i + 3) v).shape = a.shape := by
  simp only [Arr.shape, Arr.set, List.length_set, Prod.mk.injEq, and_true]
  exact take_set_of_le (u8 v) a.data (Nat.le_add_left 3 i)

theorem Arr.shape_setFrom {n : Nat} (a : Arr n) (i : Nat) (vs : List Nat) :
    (a.setFrom (i + 3) vs).shape = a.shape := by
  induction vs generalizing a i with
  | nil => rfl
  | cons v vs ih =>
    rw [Arr.setFrom, show i + 3 + 1 = (i + 1) + 3 by omega, ih, Arr.shape_set]

theorem getD_zero_take (D : List Nat) : (D.take 3).getD 0 0 = D.getD 0 0 := by
  cases D <;> simp

/-- The five GPIO descriptors: six cells, of which the frame takes five. -/
def gpioShape (p : List Nat × Nat) : Prop := p = ([0x02, 0x21, 0x0E], 6)

instance (p : List Nat × Nat) : Decidable (gpioShape p) := by
  unfold gpioShape
  infer_instance

theorem shapes_init_sound :
    ∀ p, p ∈ shapes Descriptors.init → p.1.getD 0 0 + 3 ≤ p.2 ∧ p.1.getD 0 0 ≤ 252 ∧
      (p.1.getD 0 0 + 3 = p.2 ∨ gpioShape p) := by
  decide

theorem Good_init : Good CC2530.init := by
  refine ⟨rfl, ?_⟩
  intro D hD
  simp [CC2530.init, calls] at hD

theorem Good_quiet (s s' : CC2530) (hs : Good s) (hp : s'.priv = s.priv)
    (hc : calls s'.trace = calls s.trace) : Good s' := by
  refine ⟨by rw [hp]; exact hs.1, ?_⟩
  intro D hD
  rw [hc] at hD
  exact hs.2 D hD

theorem Good_writes (s s' : CC2530) (hs : Good s) (Xs : List (List Nat))
    (hX : ∀ X, X ∈ Xs → (X.take 3, X.length) ∈ shapes s.priv) (hp : s'.priv = s.priv)
    (hc : calls s'.trace = calls s.trace ++ Xs) : Good s' := by
  refine ⟨by rw [hp]; exact hs.1, ?_⟩
  intro D hD
  rw [hc] at hD
  rcases List.mem_append.mp hD with h | h
  · exact hs.2 D h
  · rw [← hs.1]
    exact hX D h

theorem Good_write (s s' : CC2530) (hs : Good s) (X : List Nat)
    (hX : (X.take 3, X.length) ∈ shapes s.priv) (hp : s'.priv = s.priv)
    (hc : calls s'.trace = calls s.trace ++ [X]) : Good s' :=
  Good_writes s s' hs [X] (fun Y hY => by rw [List.mem_singleton.mp hY]; exact hX) hp hc

theorem Good_setter (s s' : CC2530) (hs : Good s) (hp : shapes s'.priv = shapes s.priv)
    (hc : s'.trace = s.trace) : Good s' := by
  refine ⟨by rw [hp]; exact hs.1, ?_⟩
  intro D hD
  rw [hc] at hD
  exact hs.2 D hD

theorem Good_SetPANID (v : Nat) (s : CC2530) (hs : Good s) : Good (SetPANID v s) :=
  Good_setter _ _ hs (by simp [SetPANID, shapes, Arr.shape_set]) rfl

theorem InBounds_congr (s s' : CC2530) (h : storeIdx s'.trace = storeIdx s.trace) :
    InBounds s' ↔ InBounds s := by
  unfold InBounds
  rw [h]

theorem Good_WRITE_DATA (env : Env) (fuel : Nat) (X : List Nat) (s s' : CC2530)
    (hX : (X.take 3, X.length) ∈ shapes s.priv)
    (h : WRITE_DATA env fuel X s = some s') (hb : InBounds s') :
    InBounds s ∧ (Good s → Good s') := by
  obtain ⟨b, p, _⟩ := WRITE_DATA_kept _ _ _ _ _ h hb
  exact ⟨b, fun hs => Good_write s s' hs X hX p (WRITE_DATA_io _ _ _ _ _ h).2⟩

theorem Good_set_write (env : Env) (fuel : Nat) (s s1 s' : CC2530)
    (hp : shapes s1.priv = shapes s.priv) (ht : s1.trace = s.trace) (X : List Nat)
    (hX : (X.take 3, X.length) ∈ shapes s1.priv)
    (h : WRITE_DATA env fuel X s1 = some s') (hb : InBounds s') :
    InBounds s ∧ (Good s → Good s') := by
  obtain ⟨b, g⟩ := Good_WRITE_DATA env fuel X s1 s' hX h hb
  refine ⟨(InBounds_congr s s1 (by rw [ht])).1 b, fun hs => g (Good_setter s s1 hs hp ht)⟩

theorem Good_Op_gpio (env : Env) (fuel v : Nat) (s s' : CC2530) (hb : InBounds s') :
    (SYS_GPIO_SET_DIR env fuel v s = some s' → InBounds s ∧ (Good s → Good s')) ∧
    (SYS_GPIO_SET_INPUT_MODE env fuel v s = some s' → InBounds s ∧ (Good s → Good s')) ∧
    (SYS_GPIO_SET env fuel v s = some s' → InBounds s ∧ (Good s → Good s')) ∧
    (SYS_GPIO_CLEAR env fuel v s = some s' → InBounds s ∧ (Good s → Good s')) ∧
    (SYS_GPIO_READ env fuel v s = some s' → InBounds s ∧ (Good s → Good s')) := by
  refine ⟨?_, ?_, ?_, ?_, ?_⟩
  · intro h
    exact Good_set_write env fuel s _ s' (by simp [shapes, Arr.shape_set]) (by rfl) _
      (by simp [shapes, Arr.shape]) h hb
  · intro h
    exact Good_set_write env fuel s _ s' (by simp [shapes, Arr.shape_set]) (by rfl) _
      (by simp [shapes, Arr.shape]) h hb
  · intro h
    exact Good_set_write env fuel s _ s' (by simp [shapes, Arr.shape_set]) (by rfl) _
      (by simp [shapes, Arr.shape]) h hb
  · intro h
    exact Good_set_write env fuel s _ s' (by simp [shapes, Arr.shape_set]) (by rfl) _
      (by simp [shapes, Arr.shape]) h hb
  · intro h
    exact Good_set_write env fuel s _ s' (by simp [shapes, Arr.shape_set]) (by rfl) _
      (by simp [shapes, Arr.shape]) h hb

theorem Good_NODE_DESC (env : Env) (fuel : Nat) (a b : List Nat) (s s' : CC2530)
    (h : ZDO_NODE_DESC_REQ env fuel a b s = some s') (hb : InBounds s') :
    InBounds s ∧ (Good s → Good s') :=
  Good_set_write env fuel s _ s' (by simp [shapes, Arr.shape_set]) (by rfl) _
    (by simp [shapes, Arr.shape]) h hb

theorem Good_setters (s : CC2530) (hs : Good s) (v : Nat) (key : List Nat) :
    Good (SetPANID v s) ∧ Good (SetCHANLIST v s) ∧ Good (SetLOGICAL_TYPE v s) ∧
    Good (SetZDO_DIRECT_CB v s) ∧ Good (SetPOLL_RATE v s) ∧ Good (SetQUEUED_POLL_RATE v s) ∧
    Good (SetRESPONSE_POLL_RATE v s) ∧ Good (SetREJOIN_POLL_RATE v s) ∧
    Good (SetPOLL_FAILURE_RETRIES v s) ∧ Good (SetPRECFGKEYEnable v s) ∧
    Good (SetPRECFGKEY key s) ∧ Good (SetTX_POWER v s) := by
  refine ⟨?_, ?_, ?_, ?_, ?_, ?_, ?_, ?_, ?_, ?_, ?_, ?_⟩
  · exact Good_setter _ _ hs (by simp [SetPANID, shapes, Arr.shape_set]) rfl
  · exact SetCHANLIST_ind Good v s hs (fun a b c d =>
      Good_setter _ _ hs (by simp [setChannelBytes, shapes, Arr.shape_set]) rfl)
  · exact Good_setter _ _ hs (by simp [SetLOGICAL_TYPE, shapes, Arr.shape_set]) rfl
  · exact Good_setter _ _ hs (by simp [SetZDO_DIRECT_CB, shapes, Arr.shape_set]) rfl
  · exact Good_setter _ _ hs (by simp [SetPOLL_RATE, shapes, Arr.shape_set]) rfl
  · exact Good_setter _ _ hs (by simp [SetQUEUED_POLL_RATE, shapes, Arr.shape_set]) rfl
  · exact Good_setter _ _ hs (by simp [SetRESPONSE_POLL_RATE, shapes, Arr.shape_set]) rfl
  · exact Good_setter _ _ hs (by simp [SetREJOIN_POLL_RATE, shapes, Arr.shape_set]) rfl
  · exact Good_setter _ _ hs (by simp [SetPOLL_FAILURE_RETRIES, shapes, Arr.shape_set]) rfl
  · exact Good_setter _ _ hs (by simp [SetPRECFGKEYEnable, shapes, Arr.shape_set]) rfl
  · exact Good_setter _ _ hs (by simp [SetPRECFGKEY, shapes, Arr.shape_setFrom]) rfl
  · exact Good_setter _ _ hs (by simp [SetTX_POWER, shapes, Arr.shape_set]) rfl

theorem ZDO_STARTUP_loop_kept (env : Env) (inner t0 fuel : Nat) (s s' : CC2530)
    (h : ZDO_STARTUP_loop env inner t0 fuel s = some s') :
    calls s'.trace = calls s.trace ∧ (InBounds s' → InBounds s ∧ s'.priv = s.priv) := by
  induction fuel generalizing s with
  | zero => simp [ZDO_STARTUP_loop] at h
  | succ fuel ih =>
    rw [ZDO_STARTUP_loop] at h
    split at h
    · simp only [Option.bind_eq_some] at h
      obtain ⟨s1, h1, h2⟩ := h
      obtain ⟨_, a3, _⟩ := POLL_loop_kept _ _ _ _ _ h1
      have c : calls s1.trace = calls s.trace := by
        rw [a3]; simp [millis, calls_append, calls]
      have p : InBounds s1 → InBounds s ∧ s1.priv = s.priv := by
        intro b1
        obtain ⟨a0, a1, _⟩ := POLL_loop_inb _ _ _ _ _ h1 b1
        refine ⟨?_, a1⟩
        unfold InBounds at *
        simpa [millis, storeIdx_append, storeIdx] using a0
      have fin : ∀ x : CC2530, x = s1 →
          calls x.trace = calls s.trace ∧ (InBounds x → InBounds s ∧ x.priv = s.priv) :=
        fun x e => by rw [e]; exact ⟨c, p⟩
      have rec : ∀ x : CC2530, x.trace = s1.trace → x.priv = s1.priv →
          ZDO_STARTUP_loop env inner t0 fuel x = some s' →
          calls s'.trace = calls s.trace ∧ (InBounds s' → InBounds s ∧ s'.priv = s.priv) := by
        intro x xt xp hr
        obtain ⟨b1, b2⟩ := ih _ hr
        refine ⟨by rw [b1, xt]; exact c, fun hb => ?_⟩
        obtain ⟨b3, b4⟩ := b2 hb
        obtain ⟨b5, b6⟩ := p ((InBounds_congr s1 x (by rw [xt])).1 b3)
        exact ⟨b5, by rw [b4, xp]; exact b6⟩
      split at h2
      · split at h2
        · split at h2
          · exact fin s' (by simpa using h2.symm)
          · split at h2
            · exact fin s' (by simpa using h2.symm)
            · split at h2
              · exact fin s' (by simpa using h2.symm)
              · split at h2
                · exact fin s' (by simpa using h2.symm)
                · exact rec { s1 with NewData := false } rfl rfl h2
        · exact rec { s1 with NewData := false } rfl rfl h2
      · exact rec s1 rfl rfl h2
    · simp only [Option.some.injEq] at h
      subst h
      refine ⟨by simp [millis, calls_append, calls], fun hb => ⟨?_, rfl⟩⟩
      unfold InBounds at *
      simpa [millis, storeIdx_append, storeIdx] using hb

theorem commissionFrames_shapes (d : Descriptors) :
    ∀ X, X ∈ commissionFrames d → (X.take 3, X.length) ∈ shapes d := by
  intro X hX
  simp only [commissionFrames, List.mem_cons, List.mem_singleton, List.not_mem_nil,
    or_false] at hX
  rcases hX with h | h | h | h | h | h | h | h | h | h | h | h | h | h | h | h <;>
    (rw [h]; simp [shapes, Arr.shape])


theorem Good_inlineSREQ (env : Env) (fuel : Nat) (A : List Nat) (N : Nat) (s s' : CC2530)
    (h : inlineSREQ env fuel A N s = some s') (hb : InBounds s') :
    InBounds s ∧ (Good s → Good s') := by
  obtain ⟨b, hl⟩ := inlineSREQ_inb _ _ _ _ _ _ h hb
  obtain ⟨p, _⟩ := inlineSREQ_obj _ _ _ _ _ _ h hl
  exact ⟨b, fun hs => Good_quiet s s' hs p (inlineSREQ_io _ _ _ _ _ _ h).2⟩

theorem Good_RECV_CALLBACK (env : Env) (fuel : Nat) (s0 s s' : CC2530)
    (h : RECV_CALLBACK env fuel s0 = some s') (hb : InBounds s')
    (ht : storeIdx s0.trace = storeIdx s.trace) (hc : calls s0.trace = calls s.trace)
    (hp : s0.priv = s.priv) :
    InBounds s ∧ (Good s → Good s') := by
  obtain ⟨b, p, _⟩ := RECV_CALLBACK_inb _ _ _ _ h hb
  refine ⟨(InBounds_congr s s0 ht).1 b, fun hs => Good_quiet s s' hs (by rw [p, hp]) ?_⟩
  rw [RECV_CALLBACK_kept _ _ _ _ h, hc]

theorem Good_Op (env : Env) (fuel : Nat) (op : Op) (s s' : CC2530)
    (h : op.run env fuel s = some s') (hb : InBounds s') :
    InBounds s ∧ (Good s → Good s') := by
  have setter : ∀ x : CC2530, some x = some s' → x.trace = s.trace → (Good s → Good x) →
      InBounds s ∧ (Good s → Good s') := by
    intro x e t g
    simp only [Option.some.injEq] at e
    subst e
    exact ⟨(InBounds_congr s x (by rw [t])).1 hb, g⟩
  cases op with
  | setPANID v =>
    simp only [Op.run] at h
    exact setter _ h rfl (fun hs => (Good_setters s hs v []).1)
  | setCHANLIST v =>
    simp only [Op.run] at h
    refine setter _ h ?_ (fun hs => (Good_setters s hs v []).2.1)
    exact SetCHANLIST_ind (fun x => x.trace = s.trace) v s rfl (fun a b c d => rfl)
  | setLOGICAL_TYPE v =>
    simp only [Op.run] at h
    exact setter _ h rfl (fun hs => (Good_setters s hs v []).2.2.1)
  | setZDO_DIRECT_CB v =>
    simp only [Op.run] at h
    exact setter _ h rfl (fun hs => (Good_setters s hs v []).2.2.2.1)
  | setPOLL_RATE v =>
    simp only [Op.run] at h
    exact setter _ h rfl (fun hs => (Good_setters s hs v []).2.2.2.2.1)
  | setQUEUED_POLL_RATE v =>
    simp only [Op.run] at h
    exact setter _ h rfl (fun hs => (Good_setters s hs v []).2.2.2.2.2.1)
  | setRESPONSE_POLL_RATE v =>
    simp only [Op.run] at h
    exact setter _ h rfl (fun hs => (Good_setters s hs v []).2.2.2.2.2.2.1)
  | setREJOIN_POLL_RATE v =>
    simp only [Op.run] at h
    exact setter _ h rfl (fun hs => (Good_setters s hs v []).2.2.2.2.2.2.2.1)
  | setPOLL_FAILURE_RETRIES v =>
    simp only [Op.run] at h
    exact setter _ h rfl (fun hs => (Good_setters s hs v []).2.2.2.2.2.2.2.2.1)
  | setPRECFGKEYEnable v =>
    simp only [Op.run] at h
    exact setter _ h rfl (fun hs => (Good_setters s hs v []).2.2.2.2.2.2.2.2.2.1)
  | setPRECFGKEY key =>
    simp only [Op.run] at h
    exact setter _ h rfl (fun hs => (Good_setters s hs 0 key).2.2.2.2.2.2.2.2.2.2.1)
  | setTX_POWER v =>
    simp only [Op.run] at h
    exact setter _ h rfl (fun hs => (Good_setters s hs v []).2.2.2.2.2.2.2.2.2.2.2)
  | gpioSetDir v => exact (Good_Op_gpio env fuel v s s' hb).1 h
  | gpioSetInputMode v => exact (Good_Op_gpio env fuel v s s' hb).2.1 h
  | gpioSet v => exact (Good_Op_gpio env fuel v s s' hb).2.2.1 h
  | gpioClear v => exact (Good_Op_gpio env fuel v s s' hb).2.2.2.1 h
  | gpioRead v => exact (Good_Op_gpio env fuel v s s' hb).2.2.2.2 h
  | nodeDescReq a b => exact Good_NODE_DESC env fuel a b s s' h hb
  | commission =>
    obtain ⟨b, p, _, c⟩ := COMMISSION_calls env fuel s s' h hb
    exact ⟨b, fun hs => Good_writes s s' hs _ (commissionFrames_shapes s.priv) p c⟩
  | sysResetReq =>
    obtain ⟨b, p, _⟩ := SYS_RESET_REQ_kept env fuel s s' h hb
    exact ⟨b, fun hs => Good_write s s' hs _ (by simp [shapes, Arr.shape]) p
      (SYS_RESET_REQ_calls env fuel s s' h)⟩
  | hardResetReq =>
    simp only [Op.run, HARD_RESET_REQ] at h
    exact Good_RECV_CALLBACK env fuel _ s s' h hb
      (by simp [emit, digitalWrite_RES, storeIdx_append, storeIdx])
      (by simp [emit, digitalWrite_RES, calls_append, calls]) (by rfl)
  | powerUp =>
    simp only [Op.run, POWER_UP] at h
    exact Good_RECV_CALLBACK env fuel _ s s' h hb
      (by simp [emit, digitalWrite_SS_MRDY, storeIdx_append, storeIdx])
      (by simp [emit, digitalWrite_SS_MRDY, calls_append, calls]) (by rfl)
  | poll =>
    obtain ⟨b, p, _⟩ := POLL_loop_inb env fuel fuel s s' h hb
    exact ⟨b, fun hs => Good_quiet s s' hs p (POLL_loop_kept env fuel fuel s s' h).2.1⟩
  | zbGetShortAddress =>
    simp only [Op.run, ZB_GET_SHORT_ADDRESS, Option.map_eq_some', Option.bind_eq_some] at h
    obtain ⟨r, ⟨s1, h1, h2⟩, h3⟩ := h
    simp only [Option.some.injEq] at h2
    rw [← h3, ← h2] at hb ⊢
    exact Good_WRITE_DATA env fuel _ s s1 (by simp [shapes, Arr.shape]) h1 hb
  | zbGetIEEEAddress =>
    simp only [Op.run, ZB_GET_IEEE_ADDRESS, Option.map_eq_some', Option.bind_eq_some] at h
    obtain ⟨r, ⟨s1, h1, h2⟩, h3⟩ := h
    simp only [Option.some.injEq] at h2
    rw [← h3, ← h2] at hb ⊢
    exact Good_WRITE_DATA env fuel _ s s1 (by simp [shapes, Arr.shape]) h1 hb
  | permitJoinReq b =>
    cases b with
    | true => exact Good_WRITE_DATA env fuel _ s s' (by simp [shapes, Arr.shape]) h hb
    | false => exact Good_WRITE_DATA env fuel _ s s' (by simp [shapes, Arr.shape]) h hb
  | startupFromApp =>
    simp only [Op.run, ZDO_STARTUP_FROM_APP, Option.bind_eq_some] at h
    obtain ⟨s1, h1, h2⟩ := h
    obtain ⟨c, k⟩ := ZDO_STARTUP_loop_kept _ _ _ _ _ _ h2
    obtain ⟨b1, p⟩ := k hb
    have b1' : InBounds s1 := by
      unfold InBounds at *
      simpa [millis, storeIdx_append, storeIdx] using b1
    obtain ⟨b, g1⟩ := Good_WRITE_DATA env fuel _ s s1 (by simp [shapes, Arr.shape]) h1 b1'
    exact ⟨b, fun hs => Good_quiet s1 s' (g1 hs) p
      (by rw [c]; simp [millis, calls_append, calls])⟩
  | afRegister e => exact Good_inlineSREQ _ _ _ _ _ _ h hb
  | leaveReq a b => exact Good_inlineSREQ _ _ _ _ _ _ h hb
  | endDeviceBindReq e =>
    simp only [Op.run, ZDO_END_DEVICE_BIND_REQ, ZB_GET_SHORT_ADDRESS, ZB_GET_IEEE_ADDRESS,
      Option.bind_eq_some] at h
    obtain ⟨r1, ⟨s1, h1, e1⟩, r2, ⟨s2, h2, e2⟩, h3⟩ := h
    simp only [Option.some.injEq] at e1 e2
    rw [← e2] at h3
    rw [← e1] at h2
    obtain ⟨b2, g3⟩ := Good_inlineSREQ _ _ _ _ _ _ h3 hb
    obtain ⟨b1, g2⟩ := Good_WRITE_DATA env fuel _ s1 s2 (by simp [shapes, Arr.shape]) h2 b2
    obtain ⟨b, g1⟩ := Good_WRITE_DATA env fuel _ s s1 (by simp [shapes, Arr.shape]) h1 b1
    exact ⟨b, fun hs => g3 (g2 (g1 hs))⟩

theorem Good_runOps (env : Env) (fuel : Nat) (ops : List Op) (s s' : CC2530)
    (h : runOps env fuel ops s = some s') (hb : InBounds s') :
    InBounds s ∧ (Good s → Good s') := by
  induction ops generalizing s with
  | nil =>
    simp only [runOps, Option.some.injEq] at h
    rw [← h] at hb ⊢
    exact ⟨hb, fun hs => hs⟩
  | cons op ops ih =>
    simp only [runOps, Option.bind_eq_some] at h
    obtain ⟨s1, h1, h2⟩ := h
    obtain ⟨b1, g2⟩ := ih s1 h2
    obtain ⟨b, g1⟩ := Good_Op env fuel op s s1 h1 b1
    exact ⟨b, fun hs => g2 (g1 hs)⟩

theorem okFrame_of_shape (D : List Nat) (h : (D.take 3, D.length) ∈ shapes Descriptors.init) :
    D.getD 0 0 + 3 ≤ D.length ∧
      (D.getD 0 0 + 3 = D.length ∨ (D.take 3 = [0x02, 0x21, 0x0E] ∧ D.length = 6)) ∧
      u8 (D.getD 0 0 + 3) = D.getD 0 0 + 3 := by
  have a := shapes_init_sound _ h
  simp only [getD_zero_take] at a
  refine ⟨a.1, ?_, ?_⟩
  · rcases a.2.2 with x | x
    · exact Or.inl x
    · right
      unfold gpioShape at x
      simpa using x
  · unfold u8
    omega


set_option maxRecDepth 100000 in
/-- Two runs: `SYS_GPIO_SET_DIR(0x0F)` on the default object with a peer that answers
at once; and `ZB_GET_SHORT_ADDRESS` followed by `SYS_RESET_REQ` on the default object
when the reply to the first request has length byte 71 and a payload that is zero but
for its last byte `FF`. The arrays handed to `WRITE_DATA`, and `_SYS_Reset` on return. -/
theorem descriptor_runs :
    (runOps envPrompt 1 [.gpioSetDir 0x0F] CC2530.init).map (fun s => calls s.trace) =
      some [[0x02, 0x21, 0x0E, 0x00, 0x0F, 0x00]] ∧
    (runOps (envOf [LOW, HIGH, LOW, HIGH] ([0, 0, 0, 0, 71] ++ List.replicate 72 0 ++ [0xFF]) [])
      2 [.zbGetShortAddress, .sysResetReq] CC2530.init).map
        (fun s => (calls s.trace, s.priv._SYS_Reset.data)) =
      some ([[0x01, 0x26, 0x06, 0x02], [0xFF, 0x41, 0x00, 0x00]], [0xFF, 0x41, 0x00, 0x00]) :=
  ⟨rfl, rfl⟩

/-- C12 (counterexample): the array that `SYS_GPIO_SET_DIR(0x0F)` hands to `WRITE_DATA`
is the six-cell `_GPIOSetDir`, `02 21 0E 00 0F 00`: three cells follow its 3-byte
header while its length byte is 2. And the headers are not kept by every sequence of
calls: when the reply to `ZB_GET_SHORT_ADDRESS` has length byte 71, the store of
payload byte 70 at `ReceivedBytes[73]` falls on `_SYS_Reset[0]`; with that byte `FF`,
the array handed to `WRITE_DATA` by the `SYS_RESET_REQ` that follows is
`FF 41 00 00`, whose first byte differs from the initial `01` and for which
`Data[0] + 3` is 258, more than its size 4. -/
theorem C12_spare_cell_and_overwritten_header :
    (∃ s, runOps envPrompt 1 [.gpioSetDir 0x0F] CC2530.init = some s ∧
      calls s.trace = [[0x02, 0x21, 0x0E, 0x00, 0x0F, 0x00]] ∧
      ([0x02, 0x21, 0x0E, 0x00, 0x0F, 0x00].drop 3).length = 3 ∧
      [0x02, 0x21, 0x0E, 0x00, 0x0F, 0x00].getD 0 0 = 2) ∧
    (∃ s, runOps (envOf [LOW, HIGH, LOW, HIGH]
        ([0, 0, 0, 0, 71] ++ List.replicate 72 0 ++ [0xFF]) [])
        2 [.zbGetShortAddress, .sysResetReq] CC2530.init = some s ∧
      CC2530.init.priv._SYS_Reset.data = [0x01, 0x41, 0x00, 0x00] ∧
      calls s.trace = [[0x01, 0x26, 0x06, 0x02], [0xFF, 0x41, 0x00, 0x00]] ∧
      s.priv._SYS_Reset.data = [0xFF, 0x41, 0x00, 0x00] ∧
      ¬ ([0xFF, 0x41, 0x00, 0x00].getD 0 0 + 3 ≤ [0xFF, 0x41, 0x00, 0x00].length)) := by
  obtain ⟨e1, e2⟩ := descriptor_runs
  constructor
  · cases h : runOps envPrompt 1 [.gpioSetDir 0x0F] CC2530.init with
    | none =>
      rw [h] at e1
      simp at e1
    | some s =>
      rw [h] at e1
      simp only [Option.map_some', Option.some.injEq] at e1
      exact ⟨s, rfl, e1, by decide, by decide⟩
  · cases h : runOps (envOf [LOW, HIGH, LOW, HIGH]
        ([0, 0, 0, 0, 71] ++ List.replicate 72 0 ++ [0xFF]) [])
        2 [.zbGetShortAddress, .sysResetReq] CC2530.init with
    | none =>
      rw [h] at e2
      simp at e2
    | some s =>
      rw [h] at e2
      simp only [Option.map_some', Option.some.injEq, Prod.mk.injEq] at e2
      exact ⟨s, rfl, by decide, e2.1, e2.2, by decide⟩

set_option maxRecDepth 100000 in
/-- Two runs on the default object with a peer that answers at once and replies with
empty frames store nothing. -/
theorem prompt_runs_store_nothing :
    (runOps envPrompt 2 [.setPANID 0x1234, .setCHANLIST 15, .gpioSetDir 0x0F, .commission]
      CC2530.init).map (fun s => storeIdx s.trace) = some [] ∧
    (runOps envPrompt 1 [.gpioSetDir 0x0F] CC2530.init).map (fun s => storeIdx s.trace) =
      some [] := ⟨rfl, rfl⟩

theorem prompt_runs_inBounds :
    (∀ s, runOps envPrompt 2 [.setPANID 0x1234, .setCHANLIST 15, .gpioSetDir 0x0F, .commission]
      CC2530.init = some s → InBounds s) ∧
    (∀ s, runOps envPrompt 1 [.gpioSetDir 0x0F] CC2530.init = some s → InBounds s) := by
  obtain ⟨e1, e2⟩ := prompt_runs_store_nothing
  constructor
  · intro s h
    rw [h] at e1
    exact InBounds_of_nil _ (by simpa using e1)
  · intro s h
    rw [h] at e2
    exact InBounds_of_nil _ (by simpa using e2)

/-- C12 (amended): in the initial object and after any sequence of setter calls and
command methods during which no received frame was stored past the end of the receive
buffer (every length byte at most 61), every descriptor keeps the header (cells 0..2:
length byte and opcode pair) and the size it had initially; and every array that was
handed to `WRITE_DATA` had the initial header of a descriptor of its size, and
`Data[0] + 3` was at most its size and below 256, and equal to its size unless the
array is one of the five six-cell GPIO descriptors (header `02 21 0E`, one spare
cell) - so `WRITE_DATA` sent `Data[0] + 3` cells, header plus payload, all of them
inside the array. -/
theorem C12_descriptor_invariant (env : Env) (fuel : Nat) (ops : List Op) (s : CC2530)
    (h : runOps env fuel ops CC2530.init = some s) (hb : InBounds s) :
    shapes s.priv = shapes Descriptors.init ∧
    ∀ D, D ∈ calls s.trace →
      (D.take 3, D.length) ∈ shapes Descriptors.init ∧
      D.getD 0 0 + 3 ≤ D.length ∧
      (D.getD 0 0 + 3 = D.length ∨ (D.take 3 = [0x02, 0x21, 0x0E] ∧ D.length = 6)) ∧
      u8 (D.getD 0 0 + 3) = D.getD 0 0 + 3 := by
  have g := (Good_runOps env fuel ops CC2530.init s h hb).2 Good_init
  refine ⟨g.1, ?_⟩
  intro D hD
  exact ⟨g.2 D hD, okFrame_of_shape D (g.2 D hD)⟩

/-- C12 (amended) on runs with a peer that answers at once and replies with empty
frames: after two setters, a GPIO command and `COMMISSION` the descriptors have their
initial headers and sizes and every array handed to `WRITE_DATA` held its whole frame;
the array handed over by `SYS_GPIO_SET_DIR(0x0F)` alone is the six-cell array holding
the frame `02 21 0E 00 0F`. -/
theorem C12_descriptor_invariant_witness :
    (∃ s, runOps envPrompt 2 [.setPANID 0x1234, .setCHANLIST 15, .gpioSetDir 0x0F, .commission]
        CC2530.init = some s ∧
      shapes s.priv = shapes Descriptors.init ∧
      ∀ D, D ∈ calls s.trace → D.getD 0 0 + 3 ≤ D.length) ∧
    (∃ s, runOps envPrompt 1 [.gpioSetDir 0x0F] CC2530.init = some s ∧
      calls s.trace = [[0x02, 0x21, 0x0E, 0x00, 0x0F, 0x00]] ∧
      ∀ D, D ∈ calls s.trace → u8 (D.getD 0 0 + 3) = D.getD 0 0 + 3) :=
  ⟨⟨_, rfl, (C12_descriptor_invariant envPrompt 2
      [.setPANID 0x1234, .setCHANLIST 15, .gpioSetDir 0x0F, .commission] _ rfl
        (prompt_runs_inBounds.1 _ rfl)).1,
      fun D hD => ((C12_descriptor_invariant envPrompt 2
        [.setPANID 0x1234, .setCHANLIST 15, .gpioSetDir 0x0F, .commission] _ rfl
          (prompt_runs_inBounds.1 _ rfl)).2 D hD).2.1⟩,
    ⟨_, rfl, rfl, fun D hD =>
      ((C12_descriptor_invariant envPrompt 1 [.gpioSetDir 0x0F] _ rfl
        (prompt_runs_inBounds.2 _ rfl)).2 D hD).2.2.2⟩⟩

end VT1100
